import Mathlib

/-!
# Authentication core of the cattle-breed backend

A shallow embedding of `backend/src/routes/auth.js` (the five auth endpoints)
and `backend/src/config/supabase.js` (the `dbHelpers` store adapter), with
theorems about the behaviour of the handlers.

Conventions of the embedding

* Everything outside the repository is an oracle of `Env`: the Supabase client
  (one field per query the code issues), `bcryptjs`, `jsonwebtoken`, the clock
  and `process.env.JWT_SECRET`.  An oracle that is awaited on the store or that
  is randomised transforms the external state `σ`.
* A `World` pairs the external state with the chronological list of library
  calls the handler has made, so that "makes no store call" is a statement
  about that list.
* A JavaScript `throw` is the `.error` case of `Except String _`, carrying
  `error.message`; a `try / catch` is a `match` on it.
* Timestamps are natural numbers (milliseconds) standing for the ISO strings of
  `new Date().toISOString()`; user ids are natural numbers standing for UUIDs.
* `logger.*` and `console.*` calls have no influence on control flow or on the
  response and are left out.
-/

namespace Auth

/-! ## JSON values and HTTP responses -/

/-- JSON values as passed to `res.json`. -/
inductive Json where
  | null
  | bool (b : Bool)
  | num (n : Nat)
  | str (s : String)
  | obj (fields : List (String × Json))

mutual
/-- Every string value occurring anywhere inside a JSON value. -/
def Json.strings : Json → List String
  | .null => []
  | .bool _ => []
  | .num _ => []
  | .str s => [s]
  | .obj fs => Json.fieldStrings fs
/-- String values of a list of object fields. -/
def Json.fieldStrings : List (String × Json) → List String
  | [] => []
  | (_, v) :: rest => Json.strings v ++ Json.fieldStrings rest
end

/-- Field lookup in a JSON object (first match), `none` on other values. -/
def Json.field (k : String) : Json → Option Json
  | .obj fs => (fs.find? (fun kv => kv.1 == k)).map (fun kv => kv.2)
  | _ => none

/-- A nullable string column rendered as JSON. -/
def Json.ofOptStr : Option String → Json
  | none => .null
  | some s => .str s

/-- A nullable timestamp column rendered as JSON. -/
def Json.ofOptNum : Option Nat → Json
  | none => .null
  | some n => .num n

/-- The text `m` occurs inside some string value of the JSON body. -/
def Json.containsText (j : Json) (m : String) : Prop :=
  ∃ s ∈ j.strings, m.toList <:+: s.toList

/-- What a handler sends: `res.status(status).json(body)`. -/
structure Response where
  status : Nat
  body : Json

/-! ## The users table -/

abbrev UserId := Nat
abbrev Timestamp := Nat

/-- A row of table `users` (columns of the `CREATE TABLE` in `supabase.js`;
`updated_at` is never read or written by the code and is left out). -/
structure User where
  id : UserId
  name : String
  email : String
  password_hash : String
  role : String
  phone : Option String
  location : Option String
  region : Option String
  state : Option String
  district : Option String
  created_at : Timestamp
  last_login : Option Timestamp
deriving DecidableEq, Repr

/-- The object handed to `.insert([...])` by `createUser`. -/
structure NewUser where
  name : String
  email : String
  password_hash : String
  role : String
  phone : Option String
  location : Option String
  region : Option String
  state : Option String
  district : Option String
  created_at : Timestamp
  last_login : Option Timestamp
deriving DecidableEq, Repr

/-- The `error` member of a Supabase response. -/
structure PgError where
  code : String
  message : String
deriving DecidableEq, Repr

/-- The `{ data, error }` pair a Supabase query resolves to. -/
structure PgResult where
  data : Option User
  error : Option PgError
deriving DecidableEq, Repr

/-! ## Tokens -/

/-- The payload object passed to `jwt.sign`. -/
structure JwtPayload where
  id : UserId
  email : String
  role : String
  name : String
deriving DecidableEq, Repr

/-- The object `jwt.verify` returns: the payload plus the registered claims. -/
structure Decoded where
  id : UserId
  email : String
  role : String
  name : String
  iat : Nat
  exp : Nat
deriving DecidableEq, Repr

/-- Seconds in the `expiresIn: '24h'` option. -/
def expiresIn24h : Nat := 24 * 60 * 60

/-! ## The environment -/

/-- The libraries and services the code calls. -/
structure Env (σ : Type) where
  /-- The query `supabase.from('users').insert([row]).select().single()`. -/
  insertSingle : NewUser → σ → PgResult × σ
  /-- The query `supabase.from('users').select('*').eq('email', email).single()`. -/
  selectByEmailSingle : String → σ → PgResult × σ
  /-- The query `supabase.from('users').update({ last_login }).eq('id', id)`. -/
  updateLastLoginById : UserId → Timestamp → σ → Option PgError × σ
  /-- The query `supabase.from('users').select('*').eq('id', id).single()`. -/
  selectByIdSingle : UserId → σ → PgResult × σ
  /-- The call `bcrypt.compare(password, hash)`; rejects with a message on bad input. -/
  bcryptCompare : String → String → Except String Bool
  /-- The call `bcrypt.hash(password, rounds)`; salted, hence state dependent. -/
  bcryptHash : String → Nat → σ → Except String String × σ
  /-- The call `jwt.sign(payload, secret, { expiresIn })` at the given time. -/
  jwtSign : JwtPayload → String → Nat → Timestamp → String
  /-- The call `jwt.verify(token, secret)` at the given time; throws on failure. -/
  jwtVerify : String → String → Timestamp → Except String Decoded
  /-- The clock read by `new Date()`. -/
  now : σ → Timestamp
  /-- The variable `process.env.JWT_SECRET`. -/
  JWT_SECRET : Option String

/-- A library call, as recorded in the trace. -/
inductive Call where
  | insertUser (row : NewUser)
  | selectByEmail (email : String)
  | updateLastLogin (id : UserId) (at_ : Timestamp)
  | selectById (id : UserId)
  | bcryptCompare (password hash : String)
  | bcryptHash (password : String) (rounds : Nat)
  | jwtSign (payload : JwtPayload) (secret : String)
  | jwtVerify (token secret : String)
deriving DecidableEq, Repr

/-- Calls that reach the store. -/
def Call.isStore : Call → Bool
  | .insertUser _ => true
  | .selectByEmail _ => true
  | .updateLastLogin _ _ => true
  | .selectById _ => true
  | _ => false

/-- Calls that change the store: the insert and the update. -/
def Call.isWrite : Call → Bool
  | .insertUser _ => true
  | .updateLastLogin _ _ => true
  | _ => false

/-- External state together with the calls made so far, oldest first. -/
structure World (σ : Type) where
  ext : σ
  calls : List Call

/-- JavaScript `a || b` on an optional string: `undefined`, `null` and the
empty string are falsy. -/
def jsOr (a : Option String) (b : String) : String :=
  match a with
  | none => b
  | some s => if s = "" then b else s

/-- The expression `process.env.JWT_SECRET || 'your-secret-key'`. -/
def jwtSecret {σ : Type} (env : Env σ) : String :=
  jsOr env.JWT_SECRET "your-secret-key"

/-- A `jwt.sign(payload, secret, { expiresIn: '24h' })` call. -/
def signToken {σ : Type} (env : Env σ) (payload : JwtPayload) (w : World σ) :
    String × World σ :=
  (env.jwtSign payload (jwtSecret env) expiresIn24h (env.now w.ext),
    ⟨w.ext, w.calls ++ [.jwtSign payload (jwtSecret env)]⟩)

/-- A `jwt.verify(token, secret)` call. -/
def verifyToken {σ : Type} (env : Env σ) (token : String) (w : World σ) :
    Except String Decoded × World σ :=
  (env.jwtVerify token (jwtSecret env) (env.now w.ext),
    ⟨w.ext, w.calls ++ [.jwtVerify token (jwtSecret env)]⟩)

/-- An awaited `bcrypt.compare(password, hash)` call. -/
def comparePassword {σ : Type} (env : Env σ) (password hash : String) (w : World σ) :
    Except String Bool × World σ :=
  (env.bcryptCompare password hash, ⟨w.ext, w.calls ++ [.bcryptCompare password hash]⟩)

/-- An awaited `bcrypt.hash(password, rounds)` call. -/
def hashPassword {σ : Type} (env : Env σ) (password : String) (rounds : Nat) (w : World σ) :
    Except String String × World σ :=
  match env.bcryptHash password rounds w.ext with
  | (r, s) => (r, ⟨s, w.calls ++ [.bcryptHash password rounds]⟩)

/-! ## `dbHelpers` (supabase.js) -/

/-- The argument of `dbHelpers.createUser`. -/
structure UserData where
  name : String
  email : String
  password : String
  role : Option String
  phone : Option String
  location : Option String
  region : Option String
  state : Option String
  district : Option String

/-- The row object built by `createUser` (supabase.js:23-35). -/
def newUserRow (userData : UserData) (now : Timestamp) : NewUser :=
  { name := userData.name
    email := userData.email
    password_hash := userData.password
    role := jsOr userData.role "farmer"
    phone := userData.phone
    location := userData.location
    region := userData.region
    state := userData.state
    district := userData.district
    created_at := now
    last_login := none }

/-- The helper `dbHelpers.createUser` (supabase.js:20-44): inserts the row; any
`error` of the response is thrown as `Failed to create user: <message>`;
otherwise `data` is returned. -/
def dbHelpers.createUser {σ : Type} (env : Env σ) (userData : UserData) (w : World σ) :
    Except String (Option User) × World σ :=
  let row := newUserRow userData (env.now w.ext)
  match env.insertSingle row w.ext with
  | (res, s) =>
    let w1 : World σ := ⟨s, w.calls ++ [.insertUser row]⟩
    match res.error with
    | some error => (.error ("Failed to create user: " ++ error.message), w1)
    | none => (.ok res.data, w1)

/-- The helper `dbHelpers.findUserByEmail` (supabase.js:47-59): an `error`
whose code is not `PGRST116` is thrown; otherwise `data` is returned. -/
def dbHelpers.findUserByEmail {σ : Type} (env : Env σ) (email : String) (w : World σ) :
    Except String (Option User) × World σ :=
  match env.selectByEmailSingle email w.ext with
  | (res, s) =>
    let w1 : World σ := ⟨s, w.calls ++ [.selectByEmail email]⟩
    match res.error with
    | some error =>
      if error.code ≠ "PGRST116" then
        (.error ("Failed to find user: " ++ error.message), w1)
      else (.ok res.data, w1)
    | none => (.ok res.data, w1)

/-- The helper `dbHelpers.updateLastLogin` (supabase.js:62-71): an `error` of
the response is written to the console and nothing is thrown. -/
def dbHelpers.updateLastLogin {σ : Type} (env : Env σ) (userId : UserId) (w : World σ) :
    Except String Unit × World σ :=
  let ts := env.now w.ext
  match env.updateLastLoginById userId ts w.ext with
  | (error, s) =>
    let w1 : World σ := ⟨s, w.calls ++ [.updateLastLogin userId ts]⟩
    match error with
    | some _ => (.ok (), w1)
    | none => (.ok (), w1)

/-- The helper `dbHelpers.getUserById` (supabase.js:74-86): every `error` of
the response is thrown as `Failed to get user: <message>`. -/
def dbHelpers.getUserById {σ : Type} (env : Env σ) (userId : UserId) (w : World σ) :
    Except String (Option User) × World σ :=
  match env.selectByIdSingle userId w.ext with
  | (res, s) =>
    let w1 : World σ := ⟨s, w.calls ++ [.selectById userId]⟩
    match res.error with
    | some error => (.error ("Failed to get user: " ++ error.message), w1)
    | none => (.ok res.data, w1)

/-! ## Request handlers (routes/auth.js) -/

/-- Body of a login request after `loginSchema` accepted it. -/
structure LoginBody where
  email : String
  password : String
deriving DecidableEq, Repr

/-- Body of a register request after `registerSchema` accepted it; an absent
optional key is `none`. -/
structure RegisterBody where
  name : String
  email : String
  password : String
  role : Option String
  phone : Option String
  location : Option String
  region : Option String
  state : Option String
  district : Option String
deriving DecidableEq, Repr

/-- The part of a request the token endpoints read: `req.headers.authorization`. -/
structure AuthRequest where
  authorization : Option String
deriving DecidableEq, Repr

/-- The 401 body of auth.js:40-44 and auth.js:50-54. -/
def invalidCredentials : Response :=
  ⟨401, .obj [("success", .bool false), ("error", .str "Invalid credentials"),
    ("message", .str "Email or password is incorrect")]⟩

/-- The `catch` block of the login handler (auth.js:92-99). -/
def loginFailed (message : String) : Response :=
  ⟨500, .obj [("success", .bool false), ("error", .str "Login failed"),
    ("message", .str message)]⟩

/-- The `user` object of the login response (auth.js:78-89). -/
def loginUserJson (user : User) (lastLogin : Timestamp) : Json :=
  .obj [("id", .num user.id), ("name", .str user.name), ("email", .str user.email),
    ("role", .str user.role), ("phone", .ofOptStr user.phone),
    ("location", .ofOptStr user.location), ("region", .ofOptStr user.region),
    ("state", .ofOptStr user.state), ("district", .ofOptStr user.district),
    ("lastLogin", .num lastLogin)]

/-- The handler of `POST /login` (auth.js:33-100). -/
def login {σ : Type} (env : Env σ) (body : LoginBody) (w : World σ) : Response × World σ :=
  match dbHelpers.findUserByEmail env body.email w with
  | (.error message, w1) => (loginFailed message, w1)
  | (.ok none, w1) =>
    (⟨401, .obj [("success", .bool false), ("error", .str "Invalid credentials"),
      ("message", .str "Email or password is incorrect")]⟩, w1)
  | (.ok (some user), w1) =>
    match comparePassword env body.password user.password_hash w1 with
    | (.error message, w2) => (loginFailed message, w2)
    | (.ok false, w2) =>
      (⟨401, .obj [("success", .bool false), ("error", .str "Invalid credentials"),
        ("message", .str "Email or password is incorrect")]⟩, w2)
    | (.ok true, w2) =>
      match signToken env ⟨user.id, user.email, user.role, user.name⟩ w2 with
      | (token, w3) =>
        match dbHelpers.updateLastLogin env user.id w3 with
        | (.error message, w4) => (loginFailed message, w4)
        | (.ok (), w4) =>
          (⟨200, .obj [("success", .bool true),
            ("data", .obj [("token", .str token),
              ("user", loginUserJson user (env.now w4.ext))])]⟩, w4)

/-- The 409 response of auth.js:110-114. -/
def userAlreadyExists : Response :=
  ⟨409, .obj [("success", .bool false), ("error", .str "User already exists"),
    ("message", .str "A user with this email already exists")]⟩

/-- The `catch` block of the register handler (auth.js:165-172). -/
def registrationFailed (message : String) : Response :=
  ⟨500, .obj [("success", .bool false), ("error", .str "Registration failed"),
    ("message", .str message)]⟩

/-- The `user` object of the register response (auth.js:151-162). -/
def registerUserJson (newUser : User) : Json :=
  .obj [("id", .num newUser.id), ("name", .str newUser.name), ("email", .str newUser.email),
    ("role", .str newUser.role), ("phone", .ofOptStr newUser.phone),
    ("location", .ofOptStr newUser.location), ("region", .ofOptStr newUser.region),
    ("state", .ofOptStr newUser.state), ("district", .ofOptStr newUser.district),
    ("createdAt", .num newUser.created_at)]

/-- The object passed to `createUser` by the register handler (auth.js:121-131). -/
def registerUserData (body : RegisterBody) (hashedPassword : String) : UserData :=
  { name := body.name, email := body.email, password := hashedPassword, role := body.role,
    phone := body.phone, location := body.location, region := body.region,
    state := body.state, district := body.district }

/-- The message of the `TypeError` raised by `newUser.id` when `newUser` is
`null`. -/
def nullIdTypeError : String := "Cannot read properties of null (reading 'id')"

/-- The handler of `POST /register` (auth.js:103-173). -/
def register {σ : Type} (env : Env σ) (body : RegisterBody) (w : World σ) :
    Response × World σ :=
  match dbHelpers.findUserByEmail env body.email w with
  | (.error message, w1) => (registrationFailed message, w1)
  | (.ok (some _), w1) =>
    (⟨409, .obj [("success", .bool false), ("error", .str "User already exists"),
      ("message", .str "A user with this email already exists")]⟩, w1)
  | (.ok none, w1) =>
    match hashPassword env body.password 10 w1 with
    | (.error message, w2) => (registrationFailed message, w2)
    | (.ok hashedPassword, w2) =>
      match dbHelpers.createUser env (registerUserData body hashedPassword) w2 with
      | (.error message, w3) => (registrationFailed message, w3)
      | (.ok none, w3) => (registrationFailed nullIdTypeError, w3)
      | (.ok (some newUser), w3) =>
        match signToken env ⟨newUser.id, newUser.email, newUser.role, newUser.name⟩ w3 with
        | (token, w4) =>
          (⟨201, .obj [("success", .bool true),
            ("data", .obj [("token", .str token), ("user", registerUserJson newUser)])]⟩, w4)

/-- The 401 response of auth.js:181-184 and auth.js:229-232. -/
def accessTokenRequired : Response :=
  ⟨401, .obj [("success", .bool false), ("error", .str "Access token required")]⟩

/-- The `catch` block of the profile and refresh handlers (auth.js:214-220,
auth.js:264-270). -/
def invalidToken : Response :=
  ⟨401, .obj [("success", .bool false), ("error", .str "Invalid token")]⟩

/-- The 404 response of auth.js:192-195 and auth.js:240-243. -/
def userNotFound : Response :=
  ⟨404, .obj [("success", .bool false), ("error", .str "User not found")]⟩

/-- The test `!authHeader || !authHeader.startsWith('Bearer ')`. -/
def missingBearer (authorization : Option String) : Bool :=
  match authorization with
  | none => true
  | some authHeader =>
    authHeader.toList.isEmpty || !("Bearer ".toList.isPrefixOf authHeader.toList)

/-- The expression `authHeader.substring(7)`. -/
def substring7 (authHeader : String) : String :=
  String.mk (authHeader.toList.drop 7)

/-- The `data` object of the profile response (auth.js:200-212). -/
def profileJson (user : User) : Json :=
  .obj [("id", .num user.id), ("name", .str user.name), ("email", .str user.email),
    ("role", .str user.role), ("phone", .ofOptStr user.phone),
    ("location", .ofOptStr user.location), ("region", .ofOptStr user.region),
    ("state", .ofOptStr user.state), ("district", .ofOptStr user.district),
    ("createdAt", .num user.created_at), ("lastLogin", .ofOptNum user.last_login)]

/-- The handler of `GET /profile` (auth.js:176-221). -/
def profile {σ : Type} (env : Env σ) (req : AuthRequest) (w : World σ) : Response × World σ :=
  if missingBearer req.authorization then
    (⟨401, .obj [("success", .bool false), ("error", .str "Access token required")]⟩, w)
  else
    let token := substring7 (req.authorization.getD "")
    match verifyToken env token w with
    | (.error _, w1) => (invalidToken, w1)
    | (.ok decoded, w1) =>
      match dbHelpers.getUserById env decoded.id w1 with
      | (.error _, w2) => (invalidToken, w2)
      | (.ok none, w2) =>
        (⟨404, .obj [("success", .bool false), ("error", .str "User not found")]⟩, w2)
      | (.ok (some user), w2) =>
        (⟨200, .obj [("success", .bool true), ("data", profileJson user)]⟩, w2)

/-- The handler of `POST /refresh` (auth.js:224-271). -/
def refresh {σ : Type} (env : Env σ) (req : AuthRequest) (w : World σ) : Response × World σ :=
  if missingBearer req.authorization then
    (⟨401, .obj [("success", .bool false), ("error", .str "Access token required")]⟩, w)
  else
    let token := substring7 (req.authorization.getD "")
    match verifyToken env token w with
    | (.error _, w1) => (invalidToken, w1)
    | (.ok decoded, w1) =>
      match dbHelpers.getUserById env decoded.id w1 with
      | (.error _, w2) => (invalidToken, w2)
      | (.ok none, w2) =>
        (⟨404, .obj [("success", .bool false), ("error", .str "User not found")]⟩, w2)
      | (.ok (some user), w2) =>
        match signToken env ⟨user.id, user.email, user.role, user.name⟩ w2 with
        | (newToken, w3) =>
          (⟨200, .obj [("success", .bool true), ("data", .obj [("token", .str newToken)])]⟩, w3)

/-- The handler of `POST /logout` (auth.js:274-289); `res.json` does not throw,
so the `catch` block is never entered. -/
def logout {σ : Type} (_env : Env σ) (w : World σ) : Response × World σ :=
  (⟨200, .obj [("success", .bool true), ("message", .str "Logged out successfully")]⟩, w)

/-! ## Request validation (the Joi schemas of auth.js:12-27) -/

/-- JavaScript `s.length`: the number of UTF-16 code units. -/
def jsLength (s : String) : Nat :=
  (s.toList.map (fun c => if 0x10000 ≤ c.val.toNat then 2 else 1)).sum

/-- A value found under a key of `req.body`; `undefined` is an absent key. -/
inductive JVal where
  | undefined
  | null
  | bool (b : Bool)
  | num (n : Int)
  | str (s : String)
deriving DecidableEq, Repr

/-- The parsed JSON object `req.body`. -/
abbrev RawBody := List (String × JVal)

/-- The value `body[key]`. -/
def RawBody.get (body : RawBody) (key : String) : JVal :=
  match body.find? (fun kv => kv.1 == key) with
  | some kv => kv.2
  | none => .undefined

/-- The rules the two schemas put on `Joi.string()`. -/
inductive StringRule where
  | email
  | min (limit : Nat)
  | max (limit : Nat)
  | valid (allowed : List String)
deriving DecidableEq, Repr

/-- One rule on one string; `isEmail` is Joi's address check. -/
def StringRule.holds (isEmail : String → Bool) : StringRule → String → Bool
  | .email, s => isEmail s
  | .min limit, s => decide (limit ≤ jsLength s)
  | .max limit, s => decide (jsLength s ≤ limit)
  | .valid allowed, s => allowed.contains s

/-- Presence modes of a key: `.required()`, `.optional()`, `.default(v)`. -/
inductive Presence where
  | required
  | optional
  | default (value : String)
deriving DecidableEq, Repr

/-- Joi validation of one `Joi.string()` key: `undefined` is judged by the
presence mode; a value must be a non-empty string satisfying every rule.  The
wording of Joi's error details is not modelled. -/
def joiString (isEmail : String → Bool) (key : String) (rules : List StringRule)
    (presence : Presence) (v : JVal) : Except String (Option String) :=
  match v with
  | .undefined =>
    match presence with
    | .required => .error (key ++ " is required")
    | .optional => .ok none
    | .default value => .ok (some value)
  | .str s =>
    if s = "" then .error (key ++ " is not allowed to be empty")
    else if rules.all (fun r => r.holds isEmail s) then .ok (some s)
    else .error (key ++ " is invalid")
  | _ => .error (key ++ " must be a string")

/-- Joi objects reject keys the schema does not name. -/
def unknownKeys (known : List String) (body : RawBody) : List String :=
  (body.map (fun kv => kv.1)).filter (fun k => !known.contains k)

/-- The schema `loginSchema` (auth.js:12-15). -/
def loginSchema (isEmail : String → Bool) (body : RawBody) : Except String LoginBody :=
  match unknownKeys ["email", "password"] body with
  | k :: _ => .error (k ++ " is not allowed")
  | [] =>
    match joiString isEmail "email" [.email] .required (body.get "email"),
          joiString isEmail "password" [.min 6] .required (body.get "password") with
    | .error e, _ => .error e
    | _, .error e => .error e
    | .ok (some email), .ok (some password) => .ok ⟨email, password⟩
    | _, _ => .error "value is required"

/-- The role names of `registerSchema` (auth.js:21). -/
def registerRoles : List String := ["farmer", "veterinarian", "expert", "flw", "admin"]

/-- The schema `registerSchema` (auth.js:17-27); the value it yields carries the
default role. -/
def registerSchema (isEmail : String → Bool) (body : RawBody) : Except String RegisterBody :=
  match unknownKeys ["name", "email", "password", "role", "phone", "location", "region",
      "state", "district"] body with
  | k :: _ => .error (k ++ " is not allowed")
  | [] =>
    match joiString isEmail "name" [.min 2, .max 100] .required (body.get "name"),
          joiString isEmail "email" [.email] .required (body.get "email"),
          joiString isEmail "password" [.min 6] .required (body.get "password"),
          joiString isEmail "role" [.valid registerRoles] (.default "farmer") (body.get "role"),
          joiString isEmail "phone" [] .optional (body.get "phone"),
          joiString isEmail "location" [] .optional (body.get "location"),
          joiString isEmail "region" [] .optional (body.get "region"),
          joiString isEmail "state" [] .optional (body.get "state"),
          joiString isEmail "district" [] .optional (body.get "district") with
    | .ok (some name), .ok (some email), .ok (some password), .ok role, .ok phone,
      .ok location, .ok region, .ok state, .ok district =>
      .ok ⟨name, email, password, role, phone, location, region, state, district⟩
    | _, _, _, _, _, _, _, _, _ => .error "validation failed"

/-- Modelled from the spec: the middleware `validateRequest` of
`../middleware/validation.js`, which is not among the sources.  Following
section 7 ("validation errors are rejected before any store or crypto call",
"ValidationError (malformed input, HTTP 400)"): a body the schema rejects is
answered 400 and the handler does not run; otherwise the handler runs on the
body.  The spec fixes only the status of the rejection, so its JSON body is
the parameter `rejection`. -/
def validateRequest {σ β : Type} (rejection : String → Json)
    (schema : RawBody → Except String β)
    (handler : β → World σ → Response × World σ) (body : RawBody) (w : World σ) :
    Response × World σ :=
  match schema body with
  | .error details => (⟨400, rejection details⟩, w)
  | .ok value => handler value w

/-- The route `router.post('/login', validateRequest(loginSchema), handler)`. -/
def loginRoute {σ : Type} (env : Env σ) (isEmail : String → Bool) (rejection : String → Json)
    (body : RawBody) (w : World σ) : Response × World σ :=
  validateRequest rejection (loginSchema isEmail) (login env) body w

/-- The route `router.post('/register', validateRequest(registerSchema), handler)`. -/
def registerRoute {σ : Type} (env : Env σ) (isEmail : String → Bool)
    (rejection : String → Json) (body : RawBody) (w : World σ) : Response × World σ :=
  validateRequest rejection (registerSchema isEmail) (register env) body w

/-! ## A reference store: the `users` table -/

/-- The `users` table with its clock, the salt source of the hasher, and a
schedule of injected failures: each store call consumes the head of `faults`
and fails with it when it is an error (connectivity, a violated length limit,
or any other rejection the table model below does not produce itself). -/
structure PgStore where
  rows : List User
  clock : Timestamp
  salt : Nat
  faults : List (Option PgError)
deriving DecidableEq, Repr

/-- The error PostgREST reports when `.single()` does not find exactly one
row; the code names it at supabase.js:54 (`PGRST116 is "not found"`). -/
def notSingleRow : PgError :=
  ⟨"PGRST116", "JSON object requested, multiple (or no) rows returned"⟩

/-- The error of an insert that violates `email VARCHAR(255) UNIQUE`
(supabase.js:104); `23505` is the SQLSTATE of a unique violation. -/
def uniqueViolation : PgError :=
  ⟨"23505", "duplicate key value violates unique constraint users_email_key"⟩

/-- The modifier `.single()`: the one matching row, else `PGRST116`. -/
def single (found : List User) : PgResult :=
  match found with
  | [u] => ⟨some u, none⟩
  | _ => ⟨none, some notSingleRow⟩

/-- Take the next entry of the failure schedule. -/
def PgStore.nextFault (s : PgStore) : Option PgError × PgStore :=
  match s.faults with
  | [] => (none, s)
  | f :: rest => (f, { s with faults := rest })

/-- An identifier no row carries, standing for `gen_random_uuid()`. -/
def freshId (rows : List User) : UserId :=
  (rows.map (fun u => u.id)).foldr max 0 + 1

/-- The row the table stores for an insert. -/
def NewUser.toUser (row : NewUser) (id : UserId) : User :=
  { id := id, name := row.name, email := row.email, password_hash := row.password_hash,
    role := row.role, phone := row.phone, location := row.location, region := row.region,
    state := row.state, district := row.district, created_at := row.created_at,
    last_login := row.last_login }

/-- Filter `.eq('email', email)`: SQL equality on a `VARCHAR` column, which
compares the strings character by character. -/
def PgStore.byEmail (s : PgStore) (email : String) : List User :=
  s.rows.filter (fun u => decide (u.email = email))

/-- Filter `.eq('id', id)`. -/
def PgStore.byId (s : PgStore) (id : UserId) : List User :=
  s.rows.filter (fun u => decide (u.id = id))

/-- Insert with `.select().single()`. -/
def PgStore.insertSingle (row : NewUser) (s : PgStore) : PgResult × PgStore :=
  match s.nextFault with
  | (some e, s1) => (⟨none, some e⟩, s1)
  | (none, s1) =>
    if (s1.byEmail row.email).isEmpty then
      let u := row.toUser (freshId s1.rows)
      (⟨some u, none⟩, { s1 with rows := s1.rows ++ [u] })
    else (⟨none, some uniqueViolation⟩, s1)

/-- Select by email with `.single()`. -/
def PgStore.selectByEmailSingle (email : String) (s : PgStore) : PgResult × PgStore :=
  match s.nextFault with
  | (some e, s1) => (⟨none, some e⟩, s1)
  | (none, s1) => (single (s1.byEmail email), s1)

/-- Select by id with `.single()`. -/
def PgStore.selectByIdSingle (id : UserId) (s : PgStore) : PgResult × PgStore :=
  match s.nextFault with
  | (some e, s1) => (⟨none, some e⟩, s1)
  | (none, s1) => (single (s1.byId id), s1)

/-- Update of `last_login` on the rows with the given id. -/
def PgStore.updateLastLoginById (id : UserId) (ts : Timestamp) (s : PgStore) :
    Option PgError × PgStore :=
  match s.nextFault with
  | (some e, s1) => (some e, s1)
  | (none, s1) =>
    (none, { s1 with
      rows := s1.rows.map (fun u => if u.id = id then { u with last_login := some ts } else u) })

/-- The libraries beside the store, as pure functions. -/
structure Libs where
  bcryptCompare : String → String → Except String Bool
  /-- Password, rounds and salt. -/
  bcryptHash : String → Nat → Nat → Except String String
  jwtSign : JwtPayload → String → Nat → Timestamp → String
  jwtVerify : String → String → Timestamp → Except String Decoded
  JWT_SECRET : Option String

/-- The environment made of the reference store and the given libraries. -/
def pgEnv (libs : Libs) : Env PgStore :=
  { insertSingle := PgStore.insertSingle
    selectByEmailSingle := PgStore.selectByEmailSingle
    updateLastLoginById := PgStore.updateLastLoginById
    selectByIdSingle := PgStore.selectByIdSingle
    bcryptCompare := libs.bcryptCompare
    bcryptHash := fun password rounds s =>
      (libs.bcryptHash password rounds s.salt, { s with salt := s.salt + 1 })
    jwtSign := libs.jwtSign
    jwtVerify := libs.jwtVerify
    now := fun s => s.clock
    JWT_SECRET := libs.JWT_SECRET }

/-! ## Concurrent registrations -/

/-- Where a register request stands between two of its `await`s. -/
inductive RegisterStage where
  /-- Nothing done yet. -/
  | start
  /-- The existence check found no user (auth.js:108-115). -/
  | checked
  /-- The password is hashed (auth.js:118). -/
  | hashed (hashedPassword : String)
  /-- The response is sent. -/
  | done (res : Response)

/-- The register handler cut at its `await`s: each step runs the handler up to
and including the next awaited call (existence check, hash, insert). -/
def registerStep {σ : Type} (env : Env σ) (body : RegisterBody) :
    RegisterStage → World σ → RegisterStage × World σ
  | .start, w =>
    match dbHelpers.findUserByEmail env body.email w with
    | (.error message, w1) => (.done (registrationFailed message), w1)
    | (.ok (some _), w1) =>
      (.done ⟨409, .obj [("success", .bool false), ("error", .str "User already exists"),
        ("message", .str "A user with this email already exists")]⟩, w1)
    | (.ok none, w1) => (.checked, w1)
  | .checked, w =>
    match hashPassword env body.password 10 w with
    | (.error message, w2) => (.done (registrationFailed message), w2)
    | (.ok hashedPassword, w2) => (.hashed hashedPassword, w2)
  | .hashed hashedPassword, w =>
    match dbHelpers.createUser env (registerUserData body hashedPassword) w with
    | (.error message, w3) => (.done (registrationFailed message), w3)
    | (.ok none, w3) => (.done (registrationFailed nullIdTypeError), w3)
    | (.ok (some newUser), w3) =>
      match signToken env ⟨newUser.id, newUser.email, newUser.role, newUser.name⟩ w3 with
      | (token, w4) =>
        (.done ⟨201, .obj [("success", .bool true),
          ("data", .obj [("token", .str token), ("user", registerUserJson newUser)])]⟩, w4)
  | .done res, w => (.done res, w)

/-- Two register requests in flight on one store. -/
structure Race (σ : Type) where
  first : RegisterStage
  second : RegisterStage
  world : World σ

/-- The event loop resumes one of the two requests. -/
def raceStep {σ : Type} (env : Env σ) (body₁ body₂ : RegisterBody) (r : Race σ)
    (resumeFirst : Bool) : Race σ :=
  if resumeFirst then
    match registerStep env body₁ r.first r.world with
    | (stage, w) => ⟨stage, r.second, w⟩
  else
    match registerStep env body₂ r.second r.world with
    | (stage, w) => ⟨r.first, stage, w⟩

/-- Run two register requests under a schedule: the list says, resumption by
resumption, which request continues. -/
def race {σ : Type} (env : Env σ) (body₁ body₂ : RegisterBody) (schedule : List Bool)
    (w : World σ) : Race σ :=
  schedule.foldl (raceStep env body₁ body₂) ⟨.start, .start, w⟩

/-- The stage is one before the response. -/
def RegisterStage.pending : RegisterStage → Prop
  | .done _ => False
  | _ => True

/-- The row a rival registration inserts. -/
def rivalRow (email : String) : NewUser :=
  { name := "Rival", email := email, password_hash := "$2a$10$rival00", role := "farmer",
    phone := none, location := none, region := none, state := none, district := none,
    created_at := 1500, last_login := none }

/-- The reference environment with a rival: right after every existence check
a concurrent registration of `rival` reaches the table (through the table's own
insert, so the unique constraint applies to it as well). -/
def racingEnv (libs : Libs) (rival : NewUser) : Env PgStore :=
  { pgEnv libs with
    selectByEmailSingle := fun email s =>
      match PgStore.selectByEmailSingle email s with
      | (res, s1) => (res, (PgStore.insertSingle rival s1).2) }

/-- Two strings are equal up to letter case. -/
def sameUpToCase (a b : String) : Prop :=
  a.toList.map Char.toLower = b.toList.map Char.toLower

/-- How many awaits of the register handler lie behind a stage (3: answered). -/
def RegisterStage.rank : RegisterStage → Nat
  | .start => 0
  | .checked => 1
  | .hashed _ => 2
  | .done _ => 3

/-- What the register handler answers when the table rejects its insert as a
duplicate. -/
def duplicateInsertFailure : Response :=
  registrationFailed ("Failed to create user: " ++ uniqueViolation.message)

/-- The request has been answered 201. -/
def RegisterStage.created : RegisterStage → Prop
  | .done res => res.status = 201
  | _ => False

/-- The request is still under way, or it has been answered 409 `User already
exists` or 500 for a duplicate insert. -/
def RegisterStage.notCreated : RegisterStage → Prop
  | .done res => res = userAlreadyExists ∨ res = duplicateInsertFailure
  | _ => True

/-- Invariant of two registrations of `email` racing on a table that had no row
with it: no failure is scheduled, and either no row carries the email and both
requests are under way, or exactly one row carries it, one request has been
answered 201 and the other has not created a user. -/
def RaceInv (email : String) (r : Race PgStore) : Prop :=
  r.world.ext.faults = [] ∧
  ((r.world.ext.byEmail email = [] ∧ r.first.pending ∧ r.second.pending) ∨
   ((r.world.ext.byEmail email).length = 1 ∧ r.first.created ∧ r.second.notCreated) ∨
   ((r.world.ext.byEmail email).length = 1 ∧ r.second.created ∧ r.first.notCreated))

/-! ## Sample data -/

/-- Libraries of the examples: a transparent stand-in for the hasher and a
token service that knows one token. -/
def sampleLibs : Libs :=
  { bcryptCompare := fun password hash => .ok (decide (hash = "$2a$10$" ++ password))
    bcryptHash := fun password _ _ => .ok ("$2a$10$" ++ password)
    jwtSign := fun payload _ _ _ => "jwt:" ++ payload.email
    jwtVerify := fun token _ now =>
      if token = "jwt:asha@example.com" then
        .ok ⟨1, "asha@example.com", "farmer", "Asha", now / 1000, now / 1000 + expiresIn24h⟩
      else .error "invalid signature"
    JWT_SECRET := none }

/-- The registered user of the examples. -/
def asha : User :=
  { id := 1, name := "Asha", email := "asha@example.com", password_hash := "$2a$10$secret1",
    role := "farmer", phone := none, location := none, region := none, state := none,
    district := none, created_at := 1000, last_login := none }

/-- A store holding `asha` only. -/
def ashaStore : PgStore := ⟨[asha], 2000, 0, []⟩

/-- A store without rows. -/
def emptyStore : PgStore := ⟨[], 2000, 0, []⟩

/-- The registration body of the scenario in section 8 of the spec. -/
def ashaBody : RegisterBody :=
  ⟨"Asha", "asha@example.com", "secret1", none, none, none, none, none, none⟩

/-- A crude address check for the examples. -/
def sampleIsEmail (s : String) : Bool := s.toList.contains (Char.ofNat 64)

/-- A rejection body for the examples. -/
def sampleRejection (details : String) : Json :=
  .obj [("success", .bool false), ("error", .str "Validation error"), ("message", .str details)]

/-- The connectivity error of the examples. -/
def connectionLost : PgError := ⟨"08006", "connection to db.internal:5432 refused"⟩

/-- Another store error of the examples. -/
def tooManyClients : PgError := ⟨"53300", "too many connections for role app"⟩

/-- The store holding `asha` whose store calls fail as scheduled. -/
def ashaStoreFailing (faults : List (Option PgError)) : PgStore := ⟨[asha], 2000, 0, faults⟩

/-- A request carrying the token the sample token service accepts. -/
def ashaBearer : AuthRequest := ⟨some "Bearer jwt:asha@example.com"⟩

/-! ## Reading a response -/

/-- The string held by a JSON string value. -/
def Json.asStr : Json → Option String
  | .str s => some s
  | _ => none

/-- The member `data.token` of a response body. -/
def Response.token (res : Response) : Option String :=
  match res.body.field "data" with
  | some data =>
    match data.field "token" with
    | some t => t.asStr
    | none => none
  | none => none

/-- The member `data.user` of a response body. -/
def Response.user (res : Response) : Option Json :=
  match res.body.field "data" with
  | some data => data.field "user"
  | none => none

/-- The payloads handed to `jwt.sign` in a trace, oldest first. -/
def signedPayloads (calls : List Call) : List JwtPayload :=
  calls.filterMap (fun c =>
    match c with
    | .jwtSign payload _ => some payload
    | _ => none)

/-- The handler of `POST /logout` as the router calls it: the request is
passed in and never read. -/
def logoutRoute {σ : Type} (env : Env σ) (_req : AuthRequest) (_body : RawBody)
    (w : World σ) : Response × World σ :=
  logout env w

/-! ## The token library -/

/-- The behaviour of `jsonwebtoken` the theorems on decoded tokens rely on:
a token signed at time `issued` (milliseconds) with `expiresIn` seconds
carries `iat = floor(issued / 1000)` and `exp = iat + expiresIn`, and
`jwt.verify` with the same secret returns the payload with these two claims
as long as the current second is before `exp`. -/
def JwtRoundTrip {σ : Type} (env : Env σ) : Prop :=
  ∀ (payload : JwtPayload) (secret : String) (expiresIn : Nat) (issued now : Timestamp),
    now / 1000 < issued / 1000 + expiresIn →
    env.jwtVerify (env.jwtSign payload secret expiresIn issued) secret now =
      .ok ⟨payload.id, payload.email, payload.role, payload.name,
        issued / 1000, issued / 1000 + expiresIn⟩

/-- What a token states, in a symbolic model of `jsonwebtoken`: the payload,
the two time claims and the key it was signed with. -/
structure TokenContent where
  payload : JwtPayload
  iat : Nat
  exp : Nat
  key : String
deriving DecidableEq, Repr

/-- A number written in unary and closed by a dot. -/
def encodeNat (n : Nat) : List Char :=
  List.replicate n 'i' ++ ['.']

/-- Read a number written by `encodeNat`; the rest of the text is returned. -/
def decodeNat : List Char → Option (Nat × List Char)
  | [] => none
  | c :: rest =>
    if c = '.' then some (0, rest)
    else if c = 'i' then
      match decodeNat rest with
      | some (n, tail) => some (n + 1, tail)
      | none => none
    else none

/-- A text written as its length followed by its characters. -/
def encodeText (s : String) : List Char :=
  encodeNat s.toList.length ++ s.toList

/-- Read a text written by `encodeText`. -/
def decodeText (l : List Char) : Option (String × List Char) :=
  match decodeNat l with
  | some (n, rest) =>
    if n ≤ rest.length then some (String.mk (rest.take n), rest.drop n) else none
  | none => none

/-- The characters of a symbolic token. -/
def encodeToken (t : TokenContent) : List Char :=
  encodeNat t.payload.id ++ (encodeText t.payload.email ++ (encodeText t.payload.role ++
    (encodeText t.payload.name ++ (encodeNat t.iat ++ (encodeNat t.exp ++ encodeText t.key)))))

/-- Read a symbolic token; anything else is malformed. -/
def decodeToken (l : List Char) : Option TokenContent :=
  match decodeNat l with
  | none => none
  | some (id, l1) =>
    match decodeText l1 with
    | none => none
    | some (email, l2) =>
      match decodeText l2 with
      | none => none
      | some (role, l3) =>
        match decodeText l3 with
        | none => none
        | some (name, l4) =>
          match decodeNat l4 with
          | none => none
          | some (iat, l5) =>
            match decodeNat l5 with
            | none => none
            | some (exp, l6) =>
              match decodeText l6 with
              | some (key, []) => some ⟨⟨id, email, role, name⟩, iat, exp, key⟩
              | _ => none

/-- Symbolic `jwt.sign`: the token states payload, times and signing key. -/
def symbolicSign (payload : JwtPayload) (secret : String) (expiresIn : Nat)
    (issued : Timestamp) : String :=
  String.mk (encodeToken ⟨payload, issued / 1000, issued / 1000 + expiresIn, secret⟩)

/-- Symbolic `jwt.verify`: it throws `jwt malformed` on a text that is no
token, `invalid signature` on a token signed with another key, `jwt expired`
from the second `exp` on, and otherwise returns the claims. -/
def symbolicVerify (token : String) (secret : String) (now : Timestamp) :
    Except String Decoded :=
  match decodeToken token.toList with
  | none => .error "jwt malformed"
  | some t =>
    if t.key ≠ secret then .error "invalid signature"
    else if t.exp ≤ now / 1000 then .error "jwt expired"
    else .ok ⟨t.payload.id, t.payload.email, t.payload.role, t.payload.name, t.iat, t.exp⟩

/-- The libraries of the examples with the symbolic token service. -/
def symbolicLibs : Libs :=
  { bcryptCompare := fun password hash => .ok (decide (hash = "$2a$10$" ++ password))
    bcryptHash := fun password _ _ => .ok ("$2a$10$" ++ password)
    jwtSign := symbolicSign
    jwtVerify := symbolicVerify
    JWT_SECRET := none }

/-- A token signed at `issued` is accepted with the claims of a 24 hour token
at every time before its expiry: `iat` is the second of issuance and `exp` is
`iat + 86400`. -/
def ValidFor24h {σ : Type} (env : Env σ) (token : String) (issued : Timestamp) : Prop :=
  ∀ now : Timestamp, now / 1000 < issued / 1000 + 86400 →
    ∃ d : Decoded, env.jwtVerify token (jwtSecret env) now = .ok d ∧
      d.iat = issued / 1000 ∧ d.exp = d.iat + 86400

/-- The row of `asha` after an administrator renamed her and changed her role. -/
def ashaRenamed : User := { asha with name := "Asha Devi", role := "expert" }

/-- A token the symbolic service signed for `asha` at second 1, under the role
and name she had then. -/
@[irreducible] def ashaOldToken : String :=
  symbolicSign ⟨1, "asha@example.com", "farmer", "Asha"⟩ "your-secret-key" expiresIn24h 1000

/-- A request presenting `ashaOldToken`. -/
def ashaOldBearer : AuthRequest := ⟨some ("Bearer " ++ ashaOldToken)⟩

/-- A row with its `last_login` blanked: everything of a row that no endpoint
may change. -/
def User.sansLastLogin (u : User) : User := { u with last_login := none }

/-! ## Accepted bodies -/

/-- A validation result is an acceptance. -/
def accepted {α : Type} : Except String α → Bool
  | .ok _ => true
  | .error _ => false

/-- A register body with the three required keys only. -/
def registerRaw (name password : String) : RawBody :=
  [("name", .str name), ("email", .str "asha@example.com"), ("password", .str password)]

/-- A register body with the three required keys and a role. -/
def registerRawWithRole (role : String) : RawBody :=
  [("name", .str "Asha"), ("email", .str "asha@example.com"), ("password", .str "secret1"),
    ("role", .str role)]

/-- A text of `n` letters. -/
def letters (n : Nat) : String := String.mk (List.replicate n 'a')

/-! ## Further readings of traces, rows and responses -/

/-- The row the reference table stores when `body` is registered with the
digest `hashedPassword` on the store `s`. -/
def registeredRow (body : RegisterBody) (hashedPassword : String) (s : PgStore) : User :=
  (newUserRow (registerUserData body hashedPassword) s.clock).toUser (freshId s.rows)

/-- The secrets handed to `jwt.sign` and `jwt.verify` in a trace. -/
def secretsUsed (calls : List Call) : List String :=
  calls.filterMap (fun c =>
    match c with
    | .jwtSign _ secret => some secret
    | .jwtVerify _ secret => some secret
    | _ => none)

/-- The texts of a row that the user objects of the responses show. -/
def userTexts (u : User) : List String :=
  [u.name, u.email, u.role] ++ u.phone.toList ++ u.location.toList ++ u.region.toList ++
    u.state.toList ++ u.district.toList

/-- The member `data` of a response body. -/
def Response.data (res : Response) : Option Json :=
  res.body.field "data"

/-- The store that differs from `s` in the `password_hash` values only: row
by row the hash is replaced by `rehash`. -/
def PgStore.rehashed (s : PgStore) (rehash : User → String) : PgStore :=
  { s with rows := s.rows.map (fun u => { u with password_hash := rehash u }) }

/-- The token passes profile and refresh in every world whose clock, counted
in whole seconds as `jsonwebtoken` does, is less than 86400 seconds after the
second of issuance: `jwt.verify` with the secret of the handlers returns
claims with the given id, and when the row of that id is found, profile
answers 200 with the row and refresh answers 200. -/
def AcceptedWithin24h {σ : Type} (env : Env σ) (token : String) (id : UserId)
    (issued : Timestamp) : Prop :=
  ∀ v : World σ, env.now v.ext / 1000 < issued / 1000 + 86400 →
    (∃ d : Decoded, (verifyToken env token v).1 = .ok d ∧ d.id = id) ∧
    ∀ (user : User) (v2 : World σ),
      dbHelpers.getUserById env id
        ⟨v.ext, v.calls ++ [.jwtVerify token (jwtSecret env)]⟩ = (.ok (some user), v2) →
      (profile env ⟨some ("Bearer " ++ token)⟩ v).1 =
        ⟨200, .obj [("success", .bool true), ("data", profileJson user)]⟩ ∧
      (refresh env ⟨some ("Bearer " ++ token)⟩ v).1.status = 200

/-! ## Theorems -/

/-! ### Login: unknown email and wrong password -/

/-- An unknown email is answered with `invalidCredentials` right after the
lookup. -/
theorem login_of_absent {σ : Type} (env : Env σ) (body : LoginBody) (w : World σ)
    (hAbsent : (dbHelpers.findUserByEmail env body.email w).1 = .ok none) :
    login env body w = (invalidCredentials, (dbHelpers.findUserByEmail env body.email w).2) := by
  rcases h : dbHelpers.findUserByEmail env body.email w with ⟨r, v⟩
  rw [h] at hAbsent
  simp only at hAbsent
  subst hAbsent
  simp [login, h, invalidCredentials]

/-- A password that does not verify is answered with `invalidCredentials`. -/
theorem login_of_wrong_password {σ : Type} (env : Env σ) (body : LoginBody) (w : World σ)
    (user : User)
    (hPresent : (dbHelpers.findUserByEmail env body.email w).1 = .ok (some user))
    (hWrong : env.bcryptCompare body.password user.password_hash = .ok false) :
    (login env body w).1 = invalidCredentials := by
  rcases h : dbHelpers.findUserByEmail env body.email w with ⟨r, v⟩
  rw [h] at hPresent
  simp only at hPresent
  subst hPresent
  simp [login, h, comparePassword, hWrong, invalidCredentials]

/-- A body accepted by `loginSchema` carries its password as a string of at
least six code units. -/
theorem loginSchema_password_length (isEmail : String → Bool) (raw : RawBody) (body : LoginBody)
    (h : loginSchema isEmail raw = .ok body) :
    raw.get "password" = .str body.password ∧ 6 ≤ jsLength body.password := by
  unfold loginSchema at h
  split at h
  · simp at h
  · split at h
    · simp at h
    · simp at h
    · rename_i email password hE hP
      simp at h
      subst h
      simp only
      unfold joiString at hP
      split at hP
      · split at hP <;> simp_all
      · split at hP
        · simp at hP
        · split at hP
          · rename_i s _ hs hall
            simp [StringRule.holds] at hall hP
            subst hP
            exact ⟨by assumption, hall⟩
          · simp at hP
      · simp at hP
    · simp at h

/-- The schema `loginSchema` rejects every body whose password is a string
shorter than six code units. -/
theorem loginSchema_short_password (isEmail : String → Bool) (raw : RawBody) (p : String)
    (hp : raw.get "password" = .str p) (hshort : jsLength p < 6) :
    ∃ details, loginSchema isEmail raw = .error details := by
  cases h : loginSchema isEmail raw with
  | error d => exact ⟨d, rfl⟩
  | ok body =>
    have := loginSchema_password_length isEmail raw body h
    rw [hp] at this
    simp at this
    obtain ⟨h1, h2⟩ := this
    subst h1
    omega

/-- C1: the login handler answers an unknown email and a wrong password with
the same response, status 401 and the body `success: false`, `error: 'Invalid
credentials'`, `message: 'Email or password is incorrect'`, whatever the two
requests and the two store states are. -/
theorem login_unknown_email_same_as_wrong_password {σ : Type} (env : Env σ)
    (body₁ body₂ : LoginBody) (w₁ w₂ : World σ) (user : User)
    (hAbsent : (dbHelpers.findUserByEmail env body₁.email w₁).1 = .ok none)
    (hPresent : (dbHelpers.findUserByEmail env body₂.email w₂).1 = .ok (some user))
    (hWrong : env.bcryptCompare body₂.password user.password_hash = .ok false) :
    (login env body₁ w₁).1 = (login env body₂ w₂).1 ∧
    (login env body₁ w₁).1 =
      ⟨401, .obj [("success", .bool false), ("error", .str "Invalid credentials"),
        ("message", .str "Email or password is incorrect")]⟩ := by
  rw [login_of_absent env body₁ w₁ hAbsent,
    login_of_wrong_password env body₂ w₂ user hPresent hWrong]
  exact ⟨rfl, rfl⟩

/-- Witness of C1: an unregistered address and a wrong password for `asha` on
the store that holds `asha`. -/
theorem login_unknown_email_same_as_wrong_password_witness :
    (login (pgEnv sampleLibs) ⟨"nobody@example.com", "secret1"⟩ ⟨ashaStore, []⟩).1 =
      (login (pgEnv sampleLibs) ⟨"asha@example.com", "not-secret1"⟩ ⟨ashaStore, []⟩).1 ∧
    (login (pgEnv sampleLibs) ⟨"nobody@example.com", "secret1"⟩ ⟨ashaStore, []⟩).1 =
      ⟨401, .obj [("success", .bool false), ("error", .str "Invalid credentials"),
        ("message", .str "Email or password is incorrect")]⟩ :=
  login_unknown_email_same_as_wrong_password (pgEnv sampleLibs)
    ⟨"nobody@example.com", "secret1"⟩ ⟨"asha@example.com", "not-secret1"⟩
    ⟨ashaStore, []⟩ ⟨ashaStore, []⟩ asha rfl rfl rfl

/-- C2, as stated, fails: for the registered user `asha` the password `wrong`
differs from the registered one, yet `POST /login` is answered 400 by the
validation step, not 401: `loginSchema` rejects a password of five characters,
and no library call is made. -/
theorem login_short_wrong_password_answered_400 :
    asha ∈ ashaStore.rows ∧
    sampleLibs.bcryptCompare "wrong" asha.password_hash = .ok false ∧
    (∃ details, loginSchema sampleIsEmail
      [("email", .str "asha@example.com"), ("password", .str "wrong")] = .error details) ∧
    (loginRoute (pgEnv sampleLibs) sampleIsEmail sampleRejection
      [("email", .str "asha@example.com"), ("password", .str "wrong")] ⟨ashaStore, []⟩).1.status
      = 400 ∧
    (loginRoute (pgEnv sampleLibs) sampleIsEmail sampleRejection
      [("email", .str "asha@example.com"), ("password", .str "wrong")] ⟨ashaStore, []⟩).2.calls
      = [] := by
  refine ⟨by simp [ashaStore], rfl, ⟨_, rfl⟩, rfl, rfl⟩

/-- C2, amended: a login body that `loginSchema` accepts has a password of at
least six UTF-16 code units, and for such a body, when the email is registered
and the password does not verify, `POST /login` is answered 401 `Invalid
credentials`; a body whose password is a string shorter than six code units
is answered 400 by validation, the handler does not run and the world is
unchanged. -/
theorem loginRoute_wrong_password {σ : Type} (env : Env σ) (isEmail : String → Bool)
    (rejection : String → Json) (raw : RawBody) (w : World σ) :
    (∀ (body : LoginBody) (user : User), loginSchema isEmail raw = .ok body →
        (dbHelpers.findUserByEmail env body.email w).1 = .ok (some user) →
        env.bcryptCompare body.password user.password_hash = .ok false →
        6 ≤ jsLength body.password ∧
        (loginRoute env isEmail rejection raw w).1 =
          ⟨401, .obj [("success", .bool false), ("error", .str "Invalid credentials"),
            ("message", .str "Email or password is incorrect")]⟩) ∧
    (∀ p : String, raw.get "password" = .str p → jsLength p < 6 →
        (loginRoute env isEmail rejection raw w).1.status = 400 ∧
        (loginRoute env isEmail rejection raw w).2 = w) := by
  constructor
  · intro body user hValid hPresent hWrong
    refine ⟨(loginSchema_password_length isEmail raw body hValid).2, ?_⟩
    simp only [loginRoute, validateRequest, hValid]
    rw [login_of_wrong_password env body w user hPresent hWrong]
    rfl
  · intro p hp hshort
    obtain ⟨details, hd⟩ := loginSchema_short_password isEmail raw p hp hshort
    simp [loginRoute, validateRequest, hd]

/-- Witness of C2 (amended): `asha` with the wrong password `not-secret1` (eleven
characters) gets 401, and with the wrong password `wrong` gets 400. -/
theorem loginRoute_wrong_password_witness :
    (6 ≤ jsLength "not-secret1" ∧
      (loginRoute (pgEnv sampleLibs) sampleIsEmail sampleRejection
        [("email", .str "asha@example.com"), ("password", .str "not-secret1")]
        ⟨ashaStore, []⟩).1 =
        ⟨401, .obj [("success", .bool false), ("error", .str "Invalid credentials"),
          ("message", .str "Email or password is incorrect")]⟩) ∧
    ((loginRoute (pgEnv sampleLibs) sampleIsEmail sampleRejection
        [("email", .str "asha@example.com"), ("password", .str "wrong")]
        ⟨ashaStore, []⟩).1.status = 400 ∧
      (loginRoute (pgEnv sampleLibs) sampleIsEmail sampleRejection
        [("email", .str "asha@example.com"), ("password", .str "wrong")]
        ⟨ashaStore, []⟩).2 = ⟨ashaStore, []⟩) :=
  ⟨(loginRoute_wrong_password (pgEnv sampleLibs) sampleIsEmail sampleRejection
      [("email", .str "asha@example.com"), ("password", .str "not-secret1")] ⟨ashaStore, []⟩).1
      ⟨"asha@example.com", "not-secret1"⟩ asha rfl rfl rfl,
   (loginRoute_wrong_password (pgEnv sampleLibs) sampleIsEmail sampleRejection
      [("email", .str "asha@example.com"), ("password", .str "wrong")] ⟨ashaStore, []⟩).2
      "wrong" rfl (by decide)⟩

/-! ### Registration: a rejected insert -/

/-- Any error of the insert makes `createUser` throw the generic message. -/
theorem createUser_of_insert_error {σ : Type} (env : Env σ) (userData : UserData) (w : World σ)
    (e : PgError)
    (hInsert : (env.insertSingle (newUserRow userData (env.now w.ext)) w.ext).1.error = some e) :
    (dbHelpers.createUser env userData w).1 =
      .error ("Failed to create user: " ++ e.message) := by
  rcases hI : env.insertSingle (newUserRow userData (env.now w.ext)) w.ext with ⟨res, s⟩
  rw [hI] at hInsert
  simp only at hInsert
  simp [dbHelpers.createUser, hI, hInsert]

/-- C3, as stated, fails: while `asha@example.com` is being registered a rival
request stores the same address between the existence check and the insert;
the check finds no user, the table rejects the insert with the unique
violation `23505`, `createUser` throws the generic `Failed to create user: ...`
and the handler answers 500 `Registration failed`, not 409. -/
theorem register_unique_violation_answered_500 :
    (dbHelpers.findUserByEmail (racingEnv sampleLibs (rivalRow "asha@example.com"))
      ashaBody.email ⟨emptyStore, []⟩).1 = .ok none ∧
    (PgStore.insertSingle (newUserRow (registerUserData ashaBody "$2a$10$secret1") 2000)
      (dbHelpers.findUserByEmail (racingEnv sampleLibs (rivalRow "asha@example.com"))
        ashaBody.email ⟨emptyStore, []⟩).2.ext).1 = ⟨none, some uniqueViolation⟩ ∧
    (register (racingEnv sampleLibs (rivalRow "asha@example.com")) ashaBody
      ⟨emptyStore, []⟩).1.status = 500 ∧
    (register (racingEnv sampleLibs (rivalRow "asha@example.com")) ashaBody
      ⟨emptyStore, []⟩).1.body.field "error" = some (.str "Registration failed") ∧
    (register (racingEnv sampleLibs (rivalRow "asha@example.com")) ashaBody
      ⟨emptyStore, []⟩).1.status ≠ 409 := by
  refine ⟨rfl, rfl, rfl, rfl, by decide⟩

/-- C3, amended: when the existence check finds no user, the hash succeeds and
the store rejects the insert with an error `e` (a unique violation on email
included), `createUser` throws `Failed to create user: ` followed by the
message of `e`, and the register handler answers 500 with error `Registration
failed` and that text as message. -/
theorem register_insert_rejected {σ : Type} (env : Env σ) (body : RegisterBody)
    (w w1 w2 : World σ) (hashedPassword : String) (e : PgError)
    (hFind : dbHelpers.findUserByEmail env body.email w = (.ok none, w1))
    (hHash : hashPassword env body.password 10 w1 = (.ok hashedPassword, w2))
    (hInsert : (env.insertSingle (newUserRow (registerUserData body hashedPassword)
        (env.now w2.ext)) w2.ext).1.error = some e) :
    (dbHelpers.createUser env (registerUserData body hashedPassword) w2).1 =
      .error ("Failed to create user: " ++ e.message) ∧
    (register env body w).1 =
      ⟨500, .obj [("success", .bool false), ("error", .str "Registration failed"),
        ("message", .str ("Failed to create user: " ++ e.message))]⟩ := by
  have hCreate := createUser_of_insert_error env (registerUserData body hashedPassword) w2 e hInsert
  refine ⟨hCreate, ?_⟩
  rcases hC : dbHelpers.createUser env (registerUserData body hashedPassword) w2 with ⟨r, w3⟩
  rw [hC] at hCreate
  simp only at hCreate
  subst hCreate
  simp [register, hFind, hHash, hC, registrationFailed]

/-- Witness of C3 (amended): the rival scenario, where `e` is the unique
violation raised by the table. -/
theorem register_insert_rejected_witness :
    (dbHelpers.createUser (racingEnv sampleLibs (rivalRow "asha@example.com"))
      (registerUserData ashaBody "$2a$10$secret1")
      (hashPassword (racingEnv sampleLibs (rivalRow "asha@example.com")) ashaBody.password 10
        (dbHelpers.findUserByEmail (racingEnv sampleLibs (rivalRow "asha@example.com"))
          ashaBody.email ⟨emptyStore, []⟩).2).2).1 =
      .error ("Failed to create user: " ++ uniqueViolation.message) ∧
    (register (racingEnv sampleLibs (rivalRow "asha@example.com")) ashaBody ⟨emptyStore, []⟩).1 =
      ⟨500, .obj [("success", .bool false), ("error", .str "Registration failed"),
        ("message", .str ("Failed to create user: " ++ uniqueViolation.message))]⟩ :=
  register_insert_rejected (racingEnv sampleLibs (rivalRow "asha@example.com")) ashaBody
    ⟨emptyStore, []⟩ _ _ "$2a$10$secret1" uniqueViolation rfl rfl rfl


/-! ### The reference store -/

/-- Consuming the failure schedule leaves the rows alone. -/
theorem nextFault_rows (s : PgStore) : s.nextFault.2.rows = s.rows := by
  unfold PgStore.nextFault
  split <;> rfl

/-- Consuming the failure schedule does not change what an email filter finds. -/
theorem nextFault_byEmail (s : PgStore) (email : String) :
    s.nextFault.2.byEmail email = s.byEmail email := by
  simp [PgStore.byEmail, nextFault_rows]

/-- Consuming the failure schedule does not change what an id filter finds. -/
theorem nextFault_byId (s : PgStore) (id : UserId) :
    s.nextFault.2.byId id = s.byId id := by
  simp [PgStore.byId, nextFault_rows]

/-- The modifier `.single()` reports no error or `PGRST116`. -/
theorem single_data_error (found : List User) :
    (single found).error = none ∨ (single found).error = some notSingleRow := by
  unfold single
  split <;> simp

/-- On the reference table, without a scheduled failure, `findUserByEmail`
returns the `data` of `.single()` on the rows with that email. -/
theorem pg_findUserByEmail (libs : Libs) (email : String) (w : World PgStore)
    (hNoFault : w.ext.nextFault.1 = none) :
    dbHelpers.findUserByEmail (pgEnv libs) email w =
      (.ok (single (w.ext.byEmail email)).data,
        ⟨w.ext.nextFault.2, w.calls ++ [.selectByEmail email]⟩) := by
  rcases hf : w.ext.nextFault with ⟨f, s1⟩
  rw [hf] at hNoFault
  simp only at hNoFault
  subst hNoFault
  have hb : s1.byEmail email = w.ext.byEmail email := by
    have := nextFault_byEmail w.ext email
    rw [hf] at this
    exact this
  unfold dbHelpers.findUserByEmail
  simp only [pgEnv, PgStore.selectByEmailSingle, hf, hb]
  rcases single_data_error (w.ext.byEmail email) with h | h <;> simp [h, notSingleRow]

/-- On the reference table `findUserByEmail` never changes the rows. -/
theorem pg_findUserByEmail_rows (libs : Libs) (email : String) (w : World PgStore) :
    (dbHelpers.findUserByEmail (pgEnv libs) email w).2.ext.rows = w.ext.rows := by
  rcases hf : w.ext.nextFault with ⟨f, s1⟩
  have hr : s1.rows = w.ext.rows := by
    have := nextFault_rows w.ext
    rw [hf] at this
    exact this
  unfold dbHelpers.findUserByEmail
  simp only [pgEnv, PgStore.selectByEmailSingle, hf]
  cases f with
  | none =>
    simp only
    rcases single_data_error (s1.byEmail email) with h | h <;> simp [h, notSingleRow, hr]
  | some e =>
    simp only
    split <;> simp [hr]

/-- In a list without duplicate keys, filtering by the key of a member leaves
that member alone. -/
theorem filter_key_of_nodup {α β : Type} [DecidableEq β] (f : α → β) (l : List α) (a : α)
    (hUnique : (l.map f).Nodup) (hMem : a ∈ l) :
    l.filter (fun b => decide (f b = f a)) = [a] := by
  induction l with
  | nil => simp at hMem
  | cons x xs ih =>
    simp only [List.map_cons, List.nodup_cons, List.mem_map, not_exists, not_and] at hUnique
    rcases List.mem_cons.mp hMem with h | h
    · subst h
      have : xs.filter (fun b => decide (f b = f a)) = [] := by
        rw [List.filter_eq_nil_iff]
        intro b hb
        simpa using hUnique.1 b hb
      simp [List.filter_cons, this]
    · have hx : f x ≠ f a := fun hxa => hUnique.1 a h hxa.symm
      simp [List.filter_cons, hx, ih hUnique.2 h]


/-- The helper `findUserByEmail` makes exactly one library call, the select by
email. -/
theorem findUserByEmail_calls {σ : Type} (env : Env σ) (email : String) (w : World σ) :
    (dbHelpers.findUserByEmail env email w).2.calls = w.calls ++ [.selectByEmail email] := by
  unfold dbHelpers.findUserByEmail
  rcases env.selectByEmailSingle email w.ext with ⟨res, s⟩
  simp only
  split
  · split <;> rfl
  · rfl

/-- A found email ends the register handler with `userAlreadyExists` right
after the lookup. -/
theorem register_of_existing {σ : Type} (env : Env σ) (body : RegisterBody) (w : World σ)
    (u : User) (hFind : (dbHelpers.findUserByEmail env body.email w).1 = .ok (some u)) :
    register env body w = (userAlreadyExists, (dbHelpers.findUserByEmail env body.email w).2) := by
  rcases h : dbHelpers.findUserByEmail env body.email w with ⟨r, v⟩
  rw [h] at hFind
  simp only at hFind
  subst hFind
  simp [register, h, userAlreadyExists]

/-- A 201 of the register handler means: lookup empty, hash done, insert
returned a row. -/
theorem register_status_201 {σ : Type} (env : Env σ) (body : RegisterBody) (w : World σ)
    (h : (register env body w).1.status = 201) :
    ∃ w1 hashedPassword w2 newUser w3,
      dbHelpers.findUserByEmail env body.email w = (.ok none, w1) ∧
      hashPassword env body.password 10 w1 = (.ok hashedPassword, w2) ∧
      dbHelpers.createUser env (registerUserData body hashedPassword) w2 =
        (.ok (some newUser), w3) ∧
      (register env body w).2 =
        (signToken env ⟨newUser.id, newUser.email, newUser.role, newUser.name⟩ w3).2 := by
  rcases hF : dbHelpers.findUserByEmail env body.email w with ⟨rF, w1⟩
  rcases rF with m | _ | u
  · simp [register, hF, registrationFailed] at h
  · rcases hH : hashPassword env body.password 10 w1 with ⟨rH, w2⟩
    rcases rH with m | hashed
    · simp [register, hF, hH, registrationFailed] at h
    · rcases hC : dbHelpers.createUser env (registerUserData body hashed) w2 with ⟨rC, w3⟩
      rcases rC with m | _ | newUser
      · simp [register, hF, hH, hC, registrationFailed] at h
      · simp [register, hF, hH, hC, registrationFailed] at h
      · exact ⟨w1, hashed, w2, newUser, w3, rfl, hH, hC, by simp [register, hF, hH, hC]⟩
  · simp [register, hF] at h

/-- On the reference environment hashing touches neither rows nor failure
schedule. -/
theorem pg_hashPassword_rows (libs : Libs) (password : String) (rounds : Nat)
    (w : World PgStore) :
    (hashPassword (pgEnv libs) password rounds w).2.ext.rows = w.ext.rows ∧
    (hashPassword (pgEnv libs) password rounds w).2.ext.faults = w.ext.faults := by
  simp [hashPassword, pgEnv]

/-- Signing a token leaves the external state alone. -/
theorem signToken_ext {σ : Type} (env : Env σ) (payload : JwtPayload) (w : World σ) :
    (signToken env payload w).2.ext = w.ext := rfl

/-- On the reference table a successful `createUser` appended its row and
found no row with the email before. -/
theorem pg_createUser_ok (libs : Libs) (userData : UserData) (w w3 : World PgStore) (u : User)
    (h : dbHelpers.createUser (pgEnv libs) userData w = (.ok (some u), w3)) :
    w3.ext.rows = w.ext.rows ++ [u] ∧ u.email = userData.email ∧
    w.ext.byEmail userData.email = [] ∧ w3.ext.faults = w.ext.nextFault.2.faults := by
  rcases hf : w.ext.nextFault with ⟨f, s1⟩
  have hr : s1.rows = w.ext.rows := by
    have := nextFault_rows w.ext
    rw [hf] at this
    exact this
  have hb : s1.byEmail userData.email = w.ext.byEmail userData.email := by
    have := nextFault_byEmail w.ext userData.email
    rw [hf] at this
    exact this
  unfold dbHelpers.createUser at h
  simp only [pgEnv, PgStore.insertSingle, hf] at h
  cases f with
  | some e => simp at h
  | none =>
    simp only [newUserRow, hb] at h
    by_cases hE : (w.ext.byEmail userData.email).isEmpty
    · simp only [hE, if_true] at h
      simp only [Prod.mk.injEq, Except.ok.injEq, Option.some.injEq] at h
      obtain ⟨hu, hw⟩ := h
      subst hw
      subst hu
      simp [hr, NewUser.toUser, List.isEmpty_iff.mp hE]
    · simp [hE] at h


/-! ### Two registrations of one address -/

/-- With an empty failure schedule the next call does not fail. -/
theorem nextFault_of_no_faults (s : PgStore) (h : s.faults = []) : s.nextFault = (none, s) := by
  simp [PgStore.nextFault, h]

/-- First step when no row carries the email: the check passes. -/
theorem registerStep_start_absent (libs : Libs) (body : RegisterBody) (w : World PgStore)
    (hFaults : w.ext.faults = []) (hAbsent : w.ext.byEmail body.email = []) :
    registerStep (pgEnv libs) body .start w =
      (.checked, ⟨w.ext, w.calls ++ [.selectByEmail body.email]⟩) := by
  have hN := nextFault_of_no_faults w.ext hFaults
  have hF := pg_findUserByEmail libs body.email w (by rw [hN])
  simp [registerStep, hF, hAbsent, single, hN]

/-- First step when one row carries the email: the request is answered 409. -/
theorem registerStep_start_present (libs : Libs) (body : RegisterBody) (w : World PgStore)
    (hFaults : w.ext.faults = []) (hPresent : (w.ext.byEmail body.email).length = 1) :
    registerStep (pgEnv libs) body .start w =
      (.done userAlreadyExists, ⟨w.ext, w.calls ++ [.selectByEmail body.email]⟩) := by
  have hN := nextFault_of_no_faults w.ext hFaults
  have hF := pg_findUserByEmail libs body.email w (by rw [hN])
  obtain ⟨u, hu⟩ := List.length_eq_one.mp hPresent
  simp [registerStep, hF, hu, single, hN, userAlreadyExists]

/-- Second step: the password is hashed. -/
theorem registerStep_checked (libs : Libs) (body : RegisterBody) (w : World PgStore)
    (hashedPassword : String)
    (hHash : libs.bcryptHash body.password 10 w.ext.salt = .ok hashedPassword) :
    registerStep (pgEnv libs) body .checked w =
      (.hashed hashedPassword,
        ⟨{ w.ext with salt := w.ext.salt + 1 }, w.calls ++ [.bcryptHash body.password 10]⟩) := by
  simp [registerStep, hashPassword, pgEnv, hHash]

/-- Third step when no row carries the email: the row is appended and the
request answered 201. -/
theorem registerStep_hashed_absent (libs : Libs) (body : RegisterBody) (w : World PgStore)
    (hashedPassword : String)
    (hFaults : w.ext.faults = []) (hAbsent : w.ext.byEmail body.email = []) :
    (registerStep (pgEnv libs) body (.hashed hashedPassword) w).1.created ∧
    (registerStep (pgEnv libs) body (.hashed hashedPassword) w).2.ext =
      { w.ext with rows := w.ext.rows ++
        [(newUserRow (registerUserData body hashedPassword) w.ext.clock).toUser
          (freshId w.ext.rows)] } := by
  have hN := nextFault_of_no_faults w.ext hFaults
  simp [registerStep, dbHelpers.createUser, pgEnv, PgStore.insertSingle, hN, newUserRow,
    registerUserData, hAbsent, signToken, RegisterStage.created]

/-- Third step when one row carries the email: the insert is rejected and the
request answered 500. -/
theorem registerStep_hashed_present (libs : Libs) (body : RegisterBody) (w : World PgStore)
    (hashedPassword : String)
    (hFaults : w.ext.faults = []) (hPresent : (w.ext.byEmail body.email).length = 1) :
    (registerStep (pgEnv libs) body (.hashed hashedPassword) w).1 =
      .done duplicateInsertFailure ∧
    (registerStep (pgEnv libs) body (.hashed hashedPassword) w).2.ext = w.ext := by
  have hN := nextFault_of_no_faults w.ext hFaults
  obtain ⟨u, hu⟩ := List.length_eq_one.mp hPresent
  simp [registerStep, dbHelpers.createUser, pgEnv, PgStore.insertSingle, hN, newUserRow,
    registerUserData, hu, duplicateInsertFailure]


/-- A step of a request under way while no row carries the email: no row
appears and it stays under way, or it creates the one row and is answered 201. -/
theorem registerStep_while_absent (libs : Libs) (body : RegisterBody) (stage : RegisterStage)
    (w : World PgStore)
    (hHash : ∀ p r salt, ∃ h, libs.bcryptHash p r salt = .ok h)
    (hFaults : w.ext.faults = []) (hAbsent : w.ext.byEmail body.email = [])
    (hPending : stage.pending) :
    (registerStep (pgEnv libs) body stage w).2.ext.faults = [] ∧
    (((registerStep (pgEnv libs) body stage w).1.pending ∧
        (registerStep (pgEnv libs) body stage w).2.ext.byEmail body.email = []) ∨
      ((registerStep (pgEnv libs) body stage w).1.created ∧
        ((registerStep (pgEnv libs) body stage w).2.ext.byEmail body.email).length = 1)) := by
  cases stage with
  | start =>
    rw [registerStep_start_absent libs body w hFaults hAbsent]
    exact ⟨hFaults, Or.inl ⟨trivial, hAbsent⟩⟩
  | checked =>
    obtain ⟨h, hh⟩ := hHash body.password 10 w.ext.salt
    rw [registerStep_checked libs body w h hh]
    exact ⟨hFaults, Or.inl ⟨trivial, hAbsent⟩⟩
  | hashed h =>
    obtain ⟨hCreated, hExt⟩ := registerStep_hashed_absent libs body w h hFaults hAbsent
    refine ⟨by rw [hExt]; exact hFaults, Or.inr ⟨hCreated, ?_⟩⟩
    rw [hExt]
    have hA : w.ext.rows.filter (fun u => decide (u.email = body.email)) = [] := hAbsent
    simp [PgStore.byEmail, List.filter_append, hA, NewUser.toUser, newUserRow, registerUserData]
  | done res => exact absurd hPending (by simp [RegisterStage.pending])

/-- A step of a request that has not created a user while one row carries the
email: it still has not created one and the rows with the email stay. -/
theorem registerStep_while_present (libs : Libs) (body : RegisterBody) (stage : RegisterStage)
    (w : World PgStore)
    (hHash : ∀ p r salt, ∃ h, libs.bcryptHash p r salt = .ok h)
    (hFaults : w.ext.faults = []) (hPresent : (w.ext.byEmail body.email).length = 1)
    (hStage : stage.notCreated) :
    (registerStep (pgEnv libs) body stage w).1.notCreated ∧
    (registerStep (pgEnv libs) body stage w).2.ext.faults = [] ∧
    (registerStep (pgEnv libs) body stage w).2.ext.byEmail body.email =
      w.ext.byEmail body.email := by
  cases stage with
  | start =>
    rw [registerStep_start_present libs body w hFaults hPresent]
    exact ⟨Or.inl rfl, hFaults, rfl⟩
  | checked =>
    obtain ⟨h, hh⟩ := hHash body.password 10 w.ext.salt
    rw [registerStep_checked libs body w h hh]
    exact ⟨trivial, hFaults, rfl⟩
  | hashed h =>
    obtain ⟨hStage', hExt⟩ := registerStep_hashed_present libs body w h hFaults hPresent
    rw [hStage', hExt]
    exact ⟨Or.inr rfl, hFaults, rfl⟩
  | done res => exact ⟨hStage, hFaults, rfl⟩

/-- A request answered 201 does not move any more. -/
theorem registerStep_of_created {σ : Type} (env : Env σ) (body : RegisterBody)
    (stage : RegisterStage) (w : World σ) (hCreated : stage.created) :
    registerStep env body stage w = (stage, w) := by
  cases stage with
  | done res => rfl
  | start => exact absurd hCreated (by simp [RegisterStage.created])
  | checked => exact absurd hCreated (by simp [RegisterStage.created])
  | hashed h => exact absurd hCreated (by simp [RegisterStage.created])

/-- A request under way has not created a user. -/
theorem notCreated_of_pending (stage : RegisterStage) (h : stage.pending) : stage.notCreated := by
  cases stage with
  | done res => exact absurd h (by simp [RegisterStage.pending])
  | start => trivial
  | checked => trivial
  | hashed h => trivial

/-- One resumption preserves the invariant of the race. -/
theorem raceStep_inv (libs : Libs) (body₁ body₂ : RegisterBody) (r : Race PgStore)
    (resumeFirst : Bool)
    (hHash : ∀ p r salt, ∃ h, libs.bcryptHash p r salt = .ok h)
    (hSame : body₂.email = body₁.email)
    (hInv : RaceInv body₁.email r) :
    RaceInv body₁.email (raceStep (pgEnv libs) body₁ body₂ r resumeFirst) := by
  obtain ⟨hFaults, hCases⟩ := hInv
  cases resumeFirst with
  | true =>
    simp only [raceStep, if_true]
    rcases hCases with ⟨hAbsent, hP₁, hP₂⟩ | ⟨hLen, hC₁, hN₂⟩ | ⟨hLen, hC₂, hN₁⟩
    · obtain ⟨hF, hOr⟩ := registerStep_while_absent libs body₁ r.first r.world hHash hFaults
        hAbsent hP₁
      rcases hOr with ⟨hp, ha⟩ | ⟨hc, hl⟩
      · exact ⟨hF, Or.inl ⟨ha, hp, hP₂⟩⟩
      · exact ⟨hF, Or.inr (Or.inl ⟨hl, hc, notCreated_of_pending _ hP₂⟩)⟩
    · rw [registerStep_of_created (pgEnv libs) body₁ r.first r.world hC₁]
      exact ⟨hFaults, Or.inr (Or.inl ⟨hLen, hC₁, hN₂⟩)⟩
    · obtain ⟨hn, hF, hB⟩ := registerStep_while_present libs body₁ r.first r.world hHash hFaults
        hLen hN₁
      exact ⟨hF, Or.inr (Or.inr ⟨by simp only [hB]; exact hLen, hC₂, hn⟩)⟩
  | false =>
    simp only [raceStep, Bool.false_eq_true, if_false]
    rw [← hSame] at hCases ⊢
    rcases hCases with ⟨hAbsent, hP₁, hP₂⟩ | ⟨hLen, hC₁, hN₂⟩ | ⟨hLen, hC₂, hN₁⟩
    · obtain ⟨hF, hOr⟩ := registerStep_while_absent libs body₂ r.second r.world hHash hFaults
        hAbsent hP₂
      rcases hOr with ⟨hp, ha⟩ | ⟨hc, hl⟩
      · exact ⟨hF, Or.inl ⟨ha, hP₁, hp⟩⟩
      · exact ⟨hF, Or.inr (Or.inr ⟨hl, hc, notCreated_of_pending _ hP₁⟩)⟩
    · obtain ⟨hn, hF, hB⟩ := registerStep_while_present libs body₂ r.second r.world hHash
        hFaults hLen hN₂
      exact ⟨hF, Or.inr (Or.inl ⟨by simp only [hB]; exact hLen, hC₁, hn⟩)⟩
    · rw [registerStep_of_created (pgEnv libs) body₂ r.second r.world hC₂]
      exact ⟨hFaults, Or.inr (Or.inr ⟨hLen, hC₂, hN₁⟩)⟩

/-- Every schedule preserves the invariant of the race. -/
theorem foldl_raceStep_inv (libs : Libs) (body₁ body₂ : RegisterBody) (schedule : List Bool)
    (r : Race PgStore)
    (hHash : ∀ p r salt, ∃ h, libs.bcryptHash p r salt = .ok h)
    (hSame : body₂.email = body₁.email)
    (hInv : RaceInv body₁.email r) :
    RaceInv body₁.email (schedule.foldl (raceStep (pgEnv libs) body₁ body₂) r) := by
  induction schedule generalizing r with
  | nil => exact hInv
  | cons b rest ih =>
    exact ih _ (raceStep_inv libs body₁ body₂ r b hHash hSame hInv)


/-- Each step takes a request at least one await further, up to its answer. -/
theorem registerStep_rank {σ : Type} (env : Env σ) (body : RegisterBody)
    (stage : RegisterStage) (w : World σ) :
    min 3 (stage.rank + 1) ≤ (registerStep env body stage w).1.rank := by
  cases stage with
  | start =>
    rcases hF : dbHelpers.findUserByEmail env body.email w with ⟨rF, w1⟩
    rcases rF with m | _ | u <;> simp [registerStep, hF, RegisterStage.rank]
  | checked =>
    rcases hH : hashPassword env body.password 10 w with ⟨rH, w2⟩
    rcases rH with m | h <;> simp [registerStep, hH, RegisterStage.rank]
  | hashed h =>
    rcases hC : dbHelpers.createUser env (registerUserData body h) w with ⟨rC, w3⟩
    rcases rC with m | _ | u <;> simp [registerStep, hC, RegisterStage.rank]
  | done res => simp [registerStep, RegisterStage.rank]

/-- A request resumed `k` times is at least `k` awaits on, up to its answer. -/
theorem foldl_raceStep_rank {σ : Type} (env : Env σ) (body₁ body₂ : RegisterBody)
    (schedule : List Bool) (r : Race σ) :
    min 3 (r.first.rank + schedule.count true) ≤
      (schedule.foldl (raceStep env body₁ body₂) r).first.rank ∧
    min 3 (r.second.rank + schedule.count false) ≤
      (schedule.foldl (raceStep env body₁ body₂) r).second.rank := by
  induction schedule generalizing r with
  | nil => simp
  | cons b rest ih =>
    obtain ⟨ih₁, ih₂⟩ := ih (raceStep env body₁ body₂ r b)
    cases b with
    | true =>
      have hStep := registerStep_rank env body₁ r.first r.world
      have hFirst : (raceStep env body₁ body₂ r true).first =
          (registerStep env body₁ r.first r.world).1 := by simp [raceStep]
      have hSecond : (raceStep env body₁ body₂ r true).second = r.second := by simp [raceStep]
      rw [hFirst] at ih₁
      rw [hSecond] at ih₂
      simp only [List.foldl_cons, List.count_cons_self, List.count_cons_of_ne (by decide : true ≠ false)]
      constructor
      · omega
      · simpa using ih₂
    | false =>
      have hStep := registerStep_rank env body₂ r.second r.world
      have hFirst : (raceStep env body₁ body₂ r false).first = r.first := by simp [raceStep]
      have hSecond : (raceStep env body₁ body₂ r false).second =
          (registerStep env body₂ r.second r.world).1 := by simp [raceStep]
      rw [hFirst] at ih₁
      rw [hSecond] at ih₂
      simp only [List.foldl_cons, List.count_cons_self, List.count_cons_of_ne (by decide : false ≠ true)]
      constructor
      · simpa using ih₁
      · omega

/-- Three awaits behind means answered. -/
theorem done_of_rank (stage : RegisterStage) (h : 3 ≤ stage.rank) : ∃ res, stage = .done res := by
  cases stage with
  | done res => exact ⟨res, rfl⟩
  | start => simp [RegisterStage.rank] at h
  | checked => simp [RegisterStage.rank] at h
  | hashed p => simp [RegisterStage.rank] at h

/-- Three steps from the start are the register handler. -/
theorem registerStep_thrice {σ : Type} (env : Env σ) (body : RegisterBody) (w : World σ) :
    registerStep env body
      (registerStep env body (registerStep env body .start w).1
        (registerStep env body .start w).2).1
      (registerStep env body (registerStep env body .start w).1
        (registerStep env body .start w).2).2 =
    (.done (register env body w).1, (register env body w).2) := by
  rcases hF : dbHelpers.findUserByEmail env body.email w with ⟨rF, w1⟩
  rcases rF with m | _ | u
  · simp [registerStep, register, hF]
  · rcases hH : hashPassword env body.password 10 w1 with ⟨rH, w2⟩
    rcases rH with m | hashed
    · simp [registerStep, register, hF, hH]
    · rcases hC : dbHelpers.createUser env (registerUserData body hashed) w2 with ⟨rC, w3⟩
      rcases rC with m | _ | newUser <;> simp [registerStep, register, hF, hH, hC]
  · simp [registerStep, register, hF]

/-- A request that runs alone in the race behaves as the register handler. -/
theorem race_alone_is_register {σ : Type} (env : Env σ) (body₁ body₂ : RegisterBody)
    (w : World σ) :
    (race env body₁ body₂ [true, true, true] w).first = .done (register env body₁ w).1 ∧
    (race env body₁ body₂ [true, true, true] w).world = (register env body₁ w).2 ∧
    (race env body₁ body₂ [false, false, false] w).second = .done (register env body₂ w).1 ∧
    (race env body₁ body₂ [false, false, false] w).world = (register env body₂ w).2 := by
  refine ⟨?_, ?_, ?_, ?_⟩
  · simpa [race, raceStep] using congrArg Prod.fst (registerStep_thrice env body₁ w)
  · simpa [race, raceStep] using congrArg Prod.snd (registerStep_thrice env body₁ w)
  · simpa [race, raceStep] using congrArg Prod.fst (registerStep_thrice env body₂ w)
  · simpa [race, raceStep] using congrArg Prod.snd (registerStep_thrice env body₂ w)

/-- C4, as stated, fails: two registrations of `asha@example.com` on an empty
table.  When the requests alternate (check, check, hash, hash, insert, insert)
the first is answered 201 and the second 500 `Registration failed`, not 409;
when the first completes before the second starts, the second is answered 409.
The answer to the second request depends on the interleaving. -/
theorem concurrent_register_loser_answered_500 :
    (∃ res, (race (pgEnv sampleLibs) ashaBody ashaBody [true, false, true, false, true, false]
      ⟨emptyStore, []⟩).first = .done res ∧ res.status = 201) ∧
    (race (pgEnv sampleLibs) ashaBody ashaBody [true, false, true, false, true, false]
      ⟨emptyStore, []⟩).second =
      .done ⟨500, .obj [("success", .bool false), ("error", .str "Registration failed"),
        ("message", .str
          "Failed to create user: duplicate key value violates unique constraint users_email_key")]⟩ ∧
    (race (pgEnv sampleLibs) ashaBody ashaBody [true, false, true, false, true, false]
      ⟨emptyStore, []⟩).world.ext.rows.length = 1 ∧
    (race (pgEnv sampleLibs) ashaBody ashaBody [true, true, true, false, false, false]
      ⟨emptyStore, []⟩).second =
      .done ⟨409, .obj [("success", .bool false), ("error", .str "User already exists"),
        ("message", .str "A user with this email already exists")]⟩ := by
  refine ⟨⟨_, rfl, rfl⟩, rfl, rfl, rfl⟩

/-- C4, amended: two registrations of one email that no row carries yet, run
under any schedule of their steps (existence check, hash, insert) on the
reference table, with no store failure and a hasher that does not fail.  At no
point do two rows carry the email; and a schedule that resumes each request at
least three times leaves both answered, exactly one row with the email, one
request answered 201 and the other answered either 409 `User already exists`
or 500 `Registration failed` for the rejected duplicate insert. -/
theorem concurrent_register_one_user (libs : Libs) (body₁ body₂ : RegisterBody)
    (schedule : List Bool) (s : PgStore) (calls : List Call)
    (hHash : ∀ p r salt, ∃ h, libs.bcryptHash p r salt = .ok h)
    (hFaults : s.faults = [])
    (hSame : body₂.email = body₁.email)
    (hFresh : s.byEmail body₁.email = []) :
    ((race (pgEnv libs) body₁ body₂ schedule ⟨s, calls⟩).world.ext.byEmail
      body₁.email).length ≤ 1 ∧
    (3 ≤ schedule.count true → 3 ≤ schedule.count false →
      ∃ res₁ res₂ : Response,
        (race (pgEnv libs) body₁ body₂ schedule ⟨s, calls⟩).first = .done res₁ ∧
        (race (pgEnv libs) body₁ body₂ schedule ⟨s, calls⟩).second = .done res₂ ∧
        ((race (pgEnv libs) body₁ body₂ schedule ⟨s, calls⟩).world.ext.byEmail
          body₁.email).length = 1 ∧
        ((res₁.status = 201 ∧
            (res₂ = ⟨409, .obj [("success", .bool false), ("error", .str "User already exists"),
                ("message", .str "A user with this email already exists")]⟩ ∨
             res₂ = ⟨500, .obj [("success", .bool false), ("error", .str "Registration failed"),
                ("message", .str ("Failed to create user: " ++ uniqueViolation.message))]⟩)) ∨
         (res₂.status = 201 ∧
            (res₁ = ⟨409, .obj [("success", .bool false), ("error", .str "User already exists"),
                ("message", .str "A user with this email already exists")]⟩ ∨
             res₁ = ⟨500, .obj [("success", .bool false), ("error", .str "Registration failed"),
                ("message", .str ("Failed to create user: " ++ uniqueViolation.message))]⟩)))) := by
  have hInv : RaceInv body₁.email (race (pgEnv libs) body₁ body₂ schedule ⟨s, calls⟩) :=
    foldl_raceStep_inv libs body₁ body₂ schedule ⟨.start, .start, ⟨s, calls⟩⟩ hHash hSame
      ⟨hFaults, Or.inl ⟨hFresh, trivial, trivial⟩⟩
  obtain ⟨_, hCases⟩ := hInv
  constructor
  · rcases hCases with ⟨hAbsent, _, _⟩ | ⟨hLen, _, _⟩ | ⟨hLen, _, _⟩
    · simp [hAbsent]
    · exact le_of_eq hLen
    · exact le_of_eq hLen
  · intro hFirst hSecond
    obtain ⟨hR₁, hR₂⟩ := foldl_raceStep_rank (pgEnv libs) body₁ body₂ schedule
      ⟨.start, .start, ⟨s, calls⟩⟩
    have hR₁' : min 3 (0 + schedule.count true) ≤
        (race (pgEnv libs) body₁ body₂ schedule ⟨s, calls⟩).first.rank := hR₁
    have hR₂' : min 3 (0 + schedule.count false) ≤
        (race (pgEnv libs) body₁ body₂ schedule ⟨s, calls⟩).second.rank := hR₂
    obtain ⟨res₁, h₁⟩ := done_of_rank
      (race (pgEnv libs) body₁ body₂ schedule ⟨s, calls⟩).first (by omega)
    obtain ⟨res₂, h₂⟩ := done_of_rank
      (race (pgEnv libs) body₁ body₂ schedule ⟨s, calls⟩).second (by omega)
    refine ⟨res₁, res₂, h₁, h₂, ?_⟩
    rw [h₁, h₂] at hCases
    rcases hCases with ⟨_, hP, _⟩ | ⟨hLen, hC, hN⟩ | ⟨hLen, hC, hN⟩
    · exact absurd hP (by simp [RegisterStage.pending])
    · exact ⟨hLen, Or.inl ⟨hC, hN⟩⟩
    · exact ⟨hLen, Or.inr ⟨hC, hN⟩⟩

/-- Witness of C4 (amended): the two registrations of `asha@example.com` on an
empty table under the alternating schedule. -/
theorem concurrent_register_one_user_witness :
    ((race (pgEnv sampleLibs) ashaBody ashaBody [true, false, true, false, true, false]
      ⟨emptyStore, []⟩).world.ext.byEmail ashaBody.email).length ≤ 1 ∧
    ∃ res₁ res₂ : Response,
      (race (pgEnv sampleLibs) ashaBody ashaBody [true, false, true, false, true, false]
        ⟨emptyStore, []⟩).first = .done res₁ ∧
      (race (pgEnv sampleLibs) ashaBody ashaBody [true, false, true, false, true, false]
        ⟨emptyStore, []⟩).second = .done res₂ ∧
      ((race (pgEnv sampleLibs) ashaBody ashaBody [true, false, true, false, true, false]
        ⟨emptyStore, []⟩).world.ext.byEmail ashaBody.email).length = 1 ∧
      ((res₁.status = 201 ∧
          (res₂ = ⟨409, .obj [("success", .bool false), ("error", .str "User already exists"),
              ("message", .str "A user with this email already exists")]⟩ ∨
           res₂ = ⟨500, .obj [("success", .bool false), ("error", .str "Registration failed"),
              ("message", .str ("Failed to create user: " ++ uniqueViolation.message))]⟩)) ∨
       (res₂.status = 201 ∧
          (res₁ = ⟨409, .obj [("success", .bool false), ("error", .str "User already exists"),
              ("message", .str "A user with this email already exists")]⟩ ∨
           res₁ = ⟨500, .obj [("success", .bool false), ("error", .str "Registration failed"),
              ("message", .str ("Failed to create user: " ++ uniqueViolation.message))]⟩))) :=
  ⟨(concurrent_register_one_user sampleLibs ashaBody ashaBody
      [true, false, true, false, true, false] emptyStore []
      (fun p _ _ => ⟨"$2a$10$" ++ p, rfl⟩) rfl rfl rfl).1,
   (concurrent_register_one_user sampleLibs ashaBody ashaBody
      [true, false, true, false, true, false] emptyStore []
      (fun p _ _ => ⟨"$2a$10$" ++ p, rfl⟩) rfl rfl rfl).2 (by decide) (by decide)⟩

/-! ### Lookup by email -/

/-- C5, as stated, fails: `asha@example.com` is stored, `Asha@Example.com` is
the same address up to letter case, yet `findUserByEmail` returns no user for
it, and a registration under that spelling is answered 201 and stores a second
row. -/
theorem findUserByEmail_distinguishes_case :
    asha ∈ ashaStore.rows ∧ sameUpToCase "Asha@Example.com" asha.email ∧
    (dbHelpers.findUserByEmail (pgEnv sampleLibs) "Asha@Example.com" ⟨ashaStore, []⟩).1 =
      .ok none ∧
    (register (pgEnv sampleLibs) { ashaBody with email := "Asha@Example.com" }
      ⟨ashaStore, []⟩).1.status = 201 ∧
    (register (pgEnv sampleLibs) { ashaBody with email := "Asha@Example.com" }
      ⟨ashaStore, []⟩).2.ext.rows.length = 2 := by
  refine ⟨by simp [ashaStore], by unfold sameUpToCase; decide, rfl, rfl, rfl⟩

/-- C5, amended: `findUserByEmail` compares the address exactly.  On a table
with unique emails whose next call does not fail, it returns the stored user
for exactly that user's email and no user for an address that no row carries
character by character; a registration whose email is exactly a stored one is
answered 409 and leaves the rows as they were. -/
theorem findUserByEmail_exact_match (libs : Libs) (s : PgStore) (calls : List Call) (u : User)
    (hNoFault : s.nextFault.1 = none)
    (hUnique : (s.rows.map (fun v => v.email)).Nodup)
    (hMem : u ∈ s.rows) :
    (dbHelpers.findUserByEmail (pgEnv libs) u.email ⟨s, calls⟩).1 = .ok (some u) ∧
    (∀ email : String, (∀ v ∈ s.rows, v.email ≠ email) →
      (dbHelpers.findUserByEmail (pgEnv libs) email ⟨s, calls⟩).1 = .ok none) ∧
    (∀ body : RegisterBody, body.email = u.email →
      (register (pgEnv libs) body ⟨s, calls⟩).1 =
        ⟨409, .obj [("success", .bool false), ("error", .str "User already exists"),
          ("message", .str "A user with this email already exists")]⟩ ∧
      (register (pgEnv libs) body ⟨s, calls⟩).2.ext.rows = s.rows) := by
  have hFound : s.byEmail u.email = [u] :=
    filter_key_of_nodup (fun v : User => v.email) s.rows u hUnique hMem
  have hFind : (dbHelpers.findUserByEmail (pgEnv libs) u.email ⟨s, calls⟩).1 = .ok (some u) := by
    rw [pg_findUserByEmail libs u.email ⟨s, calls⟩ hNoFault]
    simp [hFound, single]
  refine ⟨hFind, ?_, ?_⟩
  · intro email hNone
    have hEmpty : s.byEmail email = [] := by
      unfold PgStore.byEmail
      rw [List.filter_eq_nil_iff]
      intro v hv
      simpa using hNone v hv
    rw [pg_findUserByEmail libs email ⟨s, calls⟩ hNoFault]
    simp [hEmpty, single]
  · intro body hEq
    rw [← hEq] at hFind
    rw [register_of_existing (pgEnv libs) body ⟨s, calls⟩ u hFind]
    exact ⟨rfl, pg_findUserByEmail_rows libs body.email ⟨s, calls⟩⟩

/-- Witness of C5 (amended): the store that holds `asha`. -/
theorem findUserByEmail_exact_match_witness :
    (dbHelpers.findUserByEmail (pgEnv sampleLibs) asha.email ⟨ashaStore, []⟩).1 =
      .ok (some asha) ∧
    (∀ email : String, (∀ v ∈ ashaStore.rows, v.email ≠ email) →
      (dbHelpers.findUserByEmail (pgEnv sampleLibs) email ⟨ashaStore, []⟩).1 = .ok none) ∧
    (∀ body : RegisterBody, body.email = asha.email →
      (register (pgEnv sampleLibs) body ⟨ashaStore, []⟩).1 =
        ⟨409, .obj [("success", .bool false), ("error", .str "User already exists"),
          ("message", .str "A user with this email already exists")]⟩ ∧
      (register (pgEnv sampleLibs) body ⟨ashaStore, []⟩).2.ext.rows = ashaStore.rows) :=
  findUserByEmail_exact_match sampleLibs ashaStore [] asha rfl (by simp [ashaStore])
    (by simp [ashaStore])

/-! ### Registration of an address that is already stored -/

/-- C6: a registration whose email `findUserByEmail` finds is answered 409
`User already exists`; the only library call of the handler is the lookup (no
hash, no insert), and on the reference store the rows are unchanged.  In
sequence: when a first registration is answered 201 and the next store call
does not fail, a second registration of the same email is answered 409, leaves
the rows unchanged, and exactly one row carries that email; and the first
registration is answered 201 when no row carries the email, no store failure
is scheduled and the hash succeeds. -/
theorem register_existing_email (libs : Libs) (s : PgStore) (calls : List Call)
    (first second : RegisterBody) :
    (∀ {σ : Type} (env : Env σ) (body : RegisterBody) (w : World σ) (u : User),
      (dbHelpers.findUserByEmail env body.email w).1 = .ok (some u) →
      (register env body w).1 =
        ⟨409, .obj [("success", .bool false), ("error", .str "User already exists"),
          ("message", .str "A user with this email already exists")]⟩ ∧
      (register env body w).2.calls = w.calls ++ [.selectByEmail body.email]) ∧
    (∀ u : User, (dbHelpers.findUserByEmail (pgEnv libs) second.email ⟨s, calls⟩).1 =
        .ok (some u) →
      (register (pgEnv libs) second ⟨s, calls⟩).2.ext.rows = s.rows) ∧
    (second.email = first.email →
      (register (pgEnv libs) first ⟨s, calls⟩).1.status = 201 →
      (register (pgEnv libs) first ⟨s, calls⟩).2.ext.nextFault.1 = none →
      (register (pgEnv libs) second (register (pgEnv libs) first ⟨s, calls⟩).2).1 =
        ⟨409, .obj [("success", .bool false), ("error", .str "User already exists"),
          ("message", .str "A user with this email already exists")]⟩ ∧
      (register (pgEnv libs) second (register (pgEnv libs) first ⟨s, calls⟩).2).2.ext.rows =
        (register (pgEnv libs) first ⟨s, calls⟩).2.ext.rows ∧
      ((register (pgEnv libs) second (register (pgEnv libs) first ⟨s, calls⟩).2).2.ext.byEmail
        first.email).length = 1 ∧
      (register (pgEnv libs) first ⟨s, calls⟩).2.ext.rows.length = s.rows.length + 1) ∧
    (s.faults = [] → s.byEmail first.email = [] →
      (∃ h, libs.bcryptHash first.password 10 s.salt = .ok h) →
      (register (pgEnv libs) first ⟨s, calls⟩).1.status = 201 ∧
      (register (pgEnv libs) first ⟨s, calls⟩).2.ext.nextFault.1 = none) := by
  refine ⟨?_, ?_, ?_, ?_⟩
  · intro σ env body w u hFind
    rw [register_of_existing env body w u hFind]
    exact ⟨rfl, findUserByEmail_calls env body.email w⟩
  · intro u hFind
    rw [register_of_existing (pgEnv libs) second ⟨s, calls⟩ u hFind]
    exact pg_findUserByEmail_rows libs second.email ⟨s, calls⟩
  · intro hEq hCreated hNoFault
    obtain ⟨w1, hashed, w2, newUser, w3, hF, hH, hC, hEnd⟩ :=
      register_status_201 (pgEnv libs) first ⟨s, calls⟩ hCreated
    obtain ⟨hRows3, hEmail, hNone, _⟩ :=
      pg_createUser_ok libs (registerUserData first hashed) w2 w3 newUser hC
    have hRows1 : w1.ext.rows = s.rows := by
      have := pg_findUserByEmail_rows libs first.email ⟨s, calls⟩
      rw [hF] at this
      exact this
    have hRows2 : w2.ext.rows = w1.ext.rows := by
      have := (pg_hashPassword_rows libs first.password 10 w1).1
      rw [hH] at this
      exact this
    have hExt : (register (pgEnv libs) first ⟨s, calls⟩).2.ext = w3.ext := by
      rw [hEnd]
      rfl
    have hBy : (register (pgEnv libs) first ⟨s, calls⟩).2.ext.byEmail first.email = [newUser] := by
      have hN : w2.ext.rows.filter (fun v => decide (v.email = first.email)) = [] := hNone
      have hE : newUser.email = first.email := hEmail
      simp [PgStore.byEmail, hExt, hRows3, List.filter_append, hN, hE]
    have hFind2 : (dbHelpers.findUserByEmail (pgEnv libs) second.email
        (register (pgEnv libs) first ⟨s, calls⟩).2).1 = .ok (some newUser) := by
      rw [pg_findUserByEmail libs second.email _ hNoFault, hEq, hBy]
      rfl
    have hRowsSecond :
        (register (pgEnv libs) second (register (pgEnv libs) first ⟨s, calls⟩).2).2.ext.rows =
        (register (pgEnv libs) first ⟨s, calls⟩).2.ext.rows := by
      rw [register_of_existing (pgEnv libs) second _ newUser hFind2]
      exact pg_findUserByEmail_rows libs second.email _
    refine ⟨?_, hRowsSecond, ?_, ?_⟩
    · rw [register_of_existing (pgEnv libs) second _ newUser hFind2]
      rfl
    · have : (register (pgEnv libs) second (register (pgEnv libs) first ⟨s, calls⟩).2).2.ext.byEmail
          first.email = [newUser] := by
        unfold PgStore.byEmail
        rw [hRowsSecond]
        exact hBy
      rw [this]
      rfl
    · rw [hExt, hRows3, hRows2, hRows1]
      simp
  · intro hFaults hFresh hHash
    obtain ⟨h, hh⟩ := hHash
    have k := registerStep_thrice (pgEnv libs) first ⟨s, calls⟩
    rw [registerStep_start_absent libs first ⟨s, calls⟩ hFaults hFresh] at k
    simp only at k
    rw [registerStep_checked libs first ⟨s, calls ++ [Call.selectByEmail first.email]⟩ h hh] at k
    simp only at k
    obtain ⟨hCreated, hExt⟩ := registerStep_hashed_absent libs first
      ⟨{ s with salt := s.salt + 1 },
        calls ++ [Call.selectByEmail first.email] ++ [Call.bcryptHash first.password 10]⟩
      h hFaults hFresh
    rw [k] at hCreated hExt
    refine ⟨hCreated, ?_⟩
    simp only at hExt
    rw [hExt]
    simp [PgStore.nextFault, hFaults]

/-- Witness of C6: `asha@example.com` registered twice on an empty table. -/
theorem register_existing_email_witness :
    (register (pgEnv sampleLibs) ashaBody ⟨emptyStore, []⟩).1.status = 201 ∧
    (register (pgEnv sampleLibs) ashaBody
      (register (pgEnv sampleLibs) ashaBody ⟨emptyStore, []⟩).2).1 =
        ⟨409, .obj [("success", .bool false), ("error", .str "User already exists"),
          ("message", .str "A user with this email already exists")]⟩ ∧
    (register (pgEnv sampleLibs) ashaBody
      (register (pgEnv sampleLibs) ashaBody ⟨emptyStore, []⟩).2).2.ext.rows =
      (register (pgEnv sampleLibs) ashaBody ⟨emptyStore, []⟩).2.ext.rows ∧
    ((register (pgEnv sampleLibs) ashaBody
      (register (pgEnv sampleLibs) ashaBody ⟨emptyStore, []⟩).2).2.ext.byEmail
        ashaBody.email).length = 1 ∧
    (register (pgEnv sampleLibs) ashaBody ⟨emptyStore, []⟩).2.ext.rows.length =
      emptyStore.rows.length + 1 :=
  ⟨((register_existing_email sampleLibs emptyStore [] ashaBody ashaBody).2.2.2 rfl rfl
      ⟨_, rfl⟩).1,
   (register_existing_email sampleLibs emptyStore [] ashaBody ashaBody).2.2.1 rfl rfl rfl⟩


/-! ### Profile and refresh when the lookup by id does not return a row -/

/-- Any error of the select by id makes `getUserById` throw. -/
theorem getUserById_of_error {σ : Type} (env : Env σ) (userId : UserId) (w : World σ)
    (e : PgError) (hErr : (env.selectByIdSingle userId w.ext).1.error = some e) :
    (dbHelpers.getUserById env userId w).1 = .error ("Failed to get user: " ++ e.message) := by
  rcases h : env.selectByIdSingle userId w.ext with ⟨res, s⟩
  rw [h] at hErr
  simp only at hErr
  simp [dbHelpers.getUserById, h, hErr]

/-- With a verified token, an error of the select by id ends profile and
refresh in their `catch` block. -/
theorem profile_refresh_of_lookup_error {σ : Type} (env : Env σ) (req : AuthRequest)
    (w : World σ) (decoded : Decoded) (e : PgError)
    (hBearer : missingBearer req.authorization = false)
    (hVerify : env.jwtVerify (substring7 (req.authorization.getD "")) (jwtSecret env)
      (env.now w.ext) = .ok decoded)
    (hErr : (env.selectByIdSingle decoded.id w.ext).1.error = some e) :
    (profile env req w).1 = invalidToken ∧ (refresh env req w).1 = invalidToken := by
  have hGet := getUserById_of_error env decoded.id
    ⟨w.ext, w.calls ++ [.jwtVerify (substring7 (req.authorization.getD "")) (jwtSecret env)]⟩
    e hErr
  rcases hG : dbHelpers.getUserById env decoded.id
    ⟨w.ext, w.calls ++ [.jwtVerify (substring7 (req.authorization.getD "")) (jwtSecret env)]⟩
    with ⟨r, w2⟩
  rw [hG] at hGet
  simp only at hGet
  subst hGet
  constructor
  · simp [profile, hBearer, verifyToken, hVerify, hG]
  · simp [refresh, hBearer, verifyToken, hVerify, hG]

/-- On the reference table a select by an id that no row carries reports an
error. -/
theorem pg_selectById_absent (id : UserId) (s : PgStore) (hAbsent : s.byId id = []) :
    ∃ e, (PgStore.selectByIdSingle id s).1.error = some e := by
  rcases hf : s.nextFault with ⟨f, s1⟩
  have hb : s1.byId id = s.byId id := by
    have := nextFault_byId s id
    rw [hf] at this
    exact this
  cases f with
  | some e => exact ⟨e, by simp [PgStore.selectByIdSingle, hf]⟩
  | none => exact ⟨notSingleRow, by simp [PgStore.selectByIdSingle, hf, hb, hAbsent, single]⟩

/-- On the reference table, a verified token whose id no row carries is
answered `invalidToken` by profile and refresh, for every store state. -/
theorem pg_profile_refresh_absent_user (libs : Libs) (req : AuthRequest) (w : World PgStore)
    (decoded : Decoded)
    (hBearer : missingBearer req.authorization = false)
    (hVerify : libs.jwtVerify (substring7 (req.authorization.getD ""))
      (jwtSecret (pgEnv libs)) w.ext.clock = .ok decoded)
    (hAbsent : w.ext.byId decoded.id = []) :
    (profile (pgEnv libs) req w).1 = invalidToken ∧
    (refresh (pgEnv libs) req w).1 = invalidToken := by
  obtain ⟨e, he⟩ := pg_selectById_absent decoded.id w.ext hAbsent
  exact profile_refresh_of_lookup_error (pgEnv libs) req w decoded e hBearer hVerify he

/-- On the reference table `getUserById` throws or returns a row; it never
returns `null`. -/
theorem pg_getUserById_not_null (libs : Libs) (userId : UserId) (w : World PgStore) :
    (dbHelpers.getUserById (pgEnv libs) userId w).1 ≠ .ok none := by
  rcases hf : w.ext.nextFault with ⟨f, s1⟩
  cases f with
  | some e => simp [dbHelpers.getUserById, pgEnv, PgStore.selectByIdSingle, hf]
  | none =>
    simp only [dbHelpers.getUserById, pgEnv, PgStore.selectByIdSingle, hf]
    rcases hb : s1.byId userId with _ | ⟨u, _ | ⟨v, rest⟩⟩ <;> simp [single]

/-- C7, evaluated where the code departs from it: the token of `asha` (id 1)
verifies, the table holds no row with id 1, the store works; `.single()` then
reports `PGRST116`, `getUserById` throws it, and both `GET /profile` and
`POST /refresh` answer 401 `Invalid token` instead of 404 `User not found`.
On the reference table the 404 branch is never taken, whatever the request and
the store state. -/
theorem profile_refresh_deleted_user_answered_401 :
    (verifyToken (pgEnv sampleLibs) (substring7 "Bearer jwt:asha@example.com")
      ⟨emptyStore, []⟩).1 =
      .ok ⟨1, "asha@example.com", "farmer", "Asha", 2, 2 + expiresIn24h⟩ ∧
    emptyStore.byId 1 = [] ∧
    (PgStore.selectByIdSingle 1 emptyStore).1 = ⟨none, some notSingleRow⟩ ∧
    (profile (pgEnv sampleLibs) ashaBearer ⟨emptyStore, []⟩).1 =
      ⟨401, .obj [("success", .bool false), ("error", .str "Invalid token")]⟩ ∧
    (refresh (pgEnv sampleLibs) ashaBearer ⟨emptyStore, []⟩).1 =
      ⟨401, .obj [("success", .bool false), ("error", .str "Invalid token")]⟩ ∧
    (∀ (libs : Libs) (req : AuthRequest) (w : World PgStore),
      (profile (pgEnv libs) req w).1.status ≠ 404 ∧
      (refresh (pgEnv libs) req w).1.status ≠ 404) := by
  refine ⟨rfl, rfl, rfl, rfl, rfl, ?_⟩
  intro libs req w
  constructor
  · unfold profile
    split
    · simp
    · simp only [verifyToken]
      split
      · simp [invalidToken]
      · rename_i decoded w1 hV
        have hNot := pg_getUserById_not_null libs decoded.id w1
        split
        · simp [invalidToken]
        · rename_i hG
          rw [hG] at hNot
          exact absurd rfl hNot
        · simp
  · unfold refresh
    split
    · simp
    · simp only [verifyToken]
      split
      · simp [invalidToken]
      · rename_i decoded w1 hV
        have hNot := pg_getUserById_not_null libs decoded.id w1
        split
        · simp [invalidToken]
        · rename_i hG
          rw [hG] at hNot
          exact absurd rfl hNot
        · simp [signToken]

/-! ### Failures of the store and of the hasher -/

/-- An error other than `PGRST116` makes `findUserByEmail` throw. -/
theorem findUserByEmail_of_error {σ : Type} (env : Env σ) (email : String) (w : World σ)
    (e : PgError) (hErr : (env.selectByEmailSingle email w.ext).1.error = some e)
    (hCode : e.code ≠ "PGRST116") :
    (dbHelpers.findUserByEmail env email w).1 =
      .error ("Failed to find user: " ++ e.message) := by
  rcases h : env.selectByEmailSingle email w.ext with ⟨res, s⟩
  rw [h] at hErr
  simp only at hErr
  simp [dbHelpers.findUserByEmail, h, hErr, hCode]

/-- A throwing lookup ends login in its `catch` block. -/
theorem login_of_find_error {σ : Type} (env : Env σ) (body : LoginBody) (w : World σ)
    (message : String)
    (hFind : (dbHelpers.findUserByEmail env body.email w).1 = .error message) :
    (login env body w).1 = loginFailed message := by
  rcases h : dbHelpers.findUserByEmail env body.email w with ⟨r, v⟩
  rw [h] at hFind
  simp only at hFind
  subst hFind
  simp [login, h]

/-- A throwing lookup ends register in its `catch` block. -/
theorem register_of_find_error {σ : Type} (env : Env σ) (body : RegisterBody) (w : World σ)
    (message : String)
    (hFind : (dbHelpers.findUserByEmail env body.email w).1 = .error message) :
    (register env body w).1 = registrationFailed message := by
  rcases h : dbHelpers.findUserByEmail env body.email w with ⟨r, v⟩
  rw [h] at hFind
  simp only at hFind
  subst hFind
  simp [register, h]

/-- A failure body contains the tail of its message. -/
theorem containsText_message (success : Bool) (error lead text : String) :
    (Json.obj [("success", .bool success), ("error", .str error),
      ("message", .str (lead ++ text))]).containsText text := by
  refine ⟨lead ++ text, by simp [Json.strings, Json.fieldStrings], ?_⟩
  exact ⟨lead.toList, [], by simp⟩

/-- C8, as stated, fails: with the store unreachable, the body of the login
response carries the text of the store error, and two runs that differ only in
that text get different bodies (same for register). -/
theorem login_register_failure_carries_store_text :
    (login (pgEnv sampleLibs) ⟨"asha@example.com", "secret1"⟩
      ⟨ashaStoreFailing [some connectionLost], []⟩).1.body.field "message" =
      some (.str "Failed to find user: connection to db.internal:5432 refused") ∧
    (login (pgEnv sampleLibs) ⟨"asha@example.com", "secret1"⟩
      ⟨ashaStoreFailing [some tooManyClients], []⟩).1.body.field "message" =
      some (.str "Failed to find user: too many connections for role app") ∧
    (login (pgEnv sampleLibs) ⟨"asha@example.com", "secret1"⟩
      ⟨ashaStoreFailing [some connectionLost], []⟩).1.body.containsText
        connectionLost.message ∧
    (login (pgEnv sampleLibs) ⟨"asha@example.com", "secret1"⟩
      ⟨ashaStoreFailing [some connectionLost], []⟩).1.body.strings ≠
    (login (pgEnv sampleLibs) ⟨"asha@example.com", "secret1"⟩
      ⟨ashaStoreFailing [some tooManyClients], []⟩).1.body.strings ∧
    (register (pgEnv sampleLibs) ashaBody
      ⟨ashaStoreFailing [some connectionLost], []⟩).1.body.field "message" =
      some (.str "Failed to find user: connection to db.internal:5432 refused") := by
  refine ⟨rfl, rfl, ?_, by decide, rfl⟩
  exact containsText_message false "Login failed" "Failed to find user: " connectionLost.message

/-- C8, amended: when a store or hashing call fails during login or register,
the handler answers 500 and puts the text of the thrown error into the
`message` field of the body: `Failed to find user: m` for a failed lookup
(error code other than `PGRST116`), `Failed to create user: m` for a failed
insert, and the text `m` itself for a failed `bcrypt.compare` or `bcrypt.hash`;
in each case the body contains `m`. -/
theorem login_register_failure_message {σ : Type} (env : Env σ) (lb : LoginBody)
    (rb : RegisterBody) (w : World σ) :
    (∀ e : PgError, (env.selectByEmailSingle lb.email w.ext).1.error = some e →
      e.code ≠ "PGRST116" →
      (login env lb w).1 =
        ⟨500, .obj [("success", .bool false), ("error", .str "Login failed"),
          ("message", .str ("Failed to find user: " ++ e.message))]⟩ ∧
      (login env lb w).1.body.containsText e.message) ∧
    (∀ (user : User) (m : String),
      (dbHelpers.findUserByEmail env lb.email w).1 = .ok (some user) →
      env.bcryptCompare lb.password user.password_hash = .error m →
      (login env lb w).1 =
        ⟨500, .obj [("success", .bool false), ("error", .str "Login failed"),
          ("message", .str m)]⟩ ∧
      (login env lb w).1.body.containsText m) ∧
    (∀ e : PgError, (env.selectByEmailSingle rb.email w.ext).1.error = some e →
      e.code ≠ "PGRST116" →
      (register env rb w).1 =
        ⟨500, .obj [("success", .bool false), ("error", .str "Registration failed"),
          ("message", .str ("Failed to find user: " ++ e.message))]⟩ ∧
      (register env rb w).1.body.containsText e.message) ∧
    (∀ (w1 w2 : World σ) (m : String),
      dbHelpers.findUserByEmail env rb.email w = (.ok none, w1) →
      hashPassword env rb.password 10 w1 = (.error m, w2) →
      (register env rb w).1 =
        ⟨500, .obj [("success", .bool false), ("error", .str "Registration failed"),
          ("message", .str m)]⟩ ∧
      (register env rb w).1.body.containsText m) ∧
    (∀ (w1 w2 : World σ) (hashedPassword : String) (e : PgError),
      dbHelpers.findUserByEmail env rb.email w = (.ok none, w1) →
      hashPassword env rb.password 10 w1 = (.ok hashedPassword, w2) →
      (env.insertSingle (newUserRow (registerUserData rb hashedPassword) (env.now w2.ext))
        w2.ext).1.error = some e →
      (register env rb w).1 =
        ⟨500, .obj [("success", .bool false), ("error", .str "Registration failed"),
          ("message", .str ("Failed to create user: " ++ e.message))]⟩ ∧
      (register env rb w).1.body.containsText e.message) := by
  refine ⟨?_, ?_, ?_, ?_, ?_⟩
  · intro e hErr hCode
    rw [login_of_find_error env lb w _ (findUserByEmail_of_error env lb.email w e hErr hCode)]
    exact ⟨rfl, containsText_message false "Login failed" "Failed to find user: " e.message⟩
  · intro user m hFind hCompare
    rcases h : dbHelpers.findUserByEmail env lb.email w with ⟨r, v⟩
    rw [h] at hFind
    simp only at hFind
    subst hFind
    have hResp : (login env lb w).1 = loginFailed m := by
      simp [login, h, comparePassword, hCompare]
    rw [hResp]
    refine ⟨rfl, ?_⟩
    have := containsText_message false "Login failed" "" m
    simpa [loginFailed] using this
  · intro e hErr hCode
    rw [register_of_find_error env rb w _
      (findUserByEmail_of_error env rb.email w e hErr hCode)]
    exact ⟨rfl,
      containsText_message false "Registration failed" "Failed to find user: " e.message⟩
  · intro w1 w2 m hFind hHash
    have hResp : (register env rb w).1 = registrationFailed m := by
      simp [register, hFind, hHash]
    rw [hResp]
    refine ⟨rfl, ?_⟩
    have := containsText_message false "Registration failed" "" m
    simpa [registrationFailed] using this
  · intro w1 w2 hashedPassword e hFind hHash hInsert
    have hCreate :=
      createUser_of_insert_error env (registerUserData rb hashedPassword) w2 e hInsert
    rcases hC : dbHelpers.createUser env (registerUserData rb hashedPassword) w2 with ⟨r, w3⟩
    rw [hC] at hCreate
    simp only at hCreate
    subst hCreate
    have hResp : (register env rb w).1 =
        registrationFailed ("Failed to create user: " ++ e.message) := by
      simp [register, hFind, hHash, hC]
    rw [hResp]
    exact ⟨rfl,
      containsText_message false "Registration failed" "Failed to create user: " e.message⟩

/-- Witness of C8 (amended): the lookup fails with a connectivity error, for
login and for register. -/
theorem login_register_failure_message_witness :
    ((login (pgEnv sampleLibs) ⟨"asha@example.com", "secret1"⟩
        ⟨ashaStoreFailing [some connectionLost], []⟩).1 =
        ⟨500, .obj [("success", .bool false), ("error", .str "Login failed"),
          ("message", .str ("Failed to find user: " ++ connectionLost.message))]⟩ ∧
      (login (pgEnv sampleLibs) ⟨"asha@example.com", "secret1"⟩
        ⟨ashaStoreFailing [some connectionLost], []⟩).1.body.containsText
          connectionLost.message) ∧
    ((register (pgEnv sampleLibs) ashaBody
        ⟨ashaStoreFailing [some connectionLost], []⟩).1 =
        ⟨500, .obj [("success", .bool false), ("error", .str "Registration failed"),
          ("message", .str ("Failed to find user: " ++ connectionLost.message))]⟩ ∧
      (register (pgEnv sampleLibs) ashaBody
        ⟨ashaStoreFailing [some connectionLost], []⟩).1.body.containsText
          connectionLost.message) :=
  ⟨(login_register_failure_message (pgEnv sampleLibs) ⟨"asha@example.com", "secret1"⟩ ashaBody
      ⟨ashaStoreFailing [some connectionLost], []⟩).1 connectionLost rfl (by decide),
   (login_register_failure_message (pgEnv sampleLibs) ⟨"asha@example.com", "secret1"⟩ ashaBody
      ⟨ashaStoreFailing [some connectionLost], []⟩).2.2.1 connectionLost rfl (by decide)⟩


/-- C9, evaluated where the code departs from it: `asha` is stored and her
token verifies, but the lookup by id fails with a connectivity error;
`getUserById` throws, the shared `catch` block answers 401 `Invalid token` for
`GET /profile` and `POST /refresh`, whereas login and register answer 500 for
the same store failure. -/
theorem profile_refresh_store_failure_answered_401 :
    (verifyToken (pgEnv sampleLibs) (substring7 "Bearer jwt:asha@example.com")
      ⟨ashaStoreFailing [some connectionLost], []⟩).1 =
      .ok ⟨1, "asha@example.com", "farmer", "Asha", 2, 2 + expiresIn24h⟩ ∧
    (ashaStoreFailing [some connectionLost]).byId 1 = [asha] ∧
    (dbHelpers.getUserById (pgEnv sampleLibs) 1
      ⟨ashaStoreFailing [some connectionLost], []⟩).1 =
      .error "Failed to get user: connection to db.internal:5432 refused" ∧
    (profile (pgEnv sampleLibs) ashaBearer ⟨ashaStoreFailing [some connectionLost], []⟩).1 =
      ⟨401, .obj [("success", .bool false), ("error", .str "Invalid token")]⟩ ∧
    (refresh (pgEnv sampleLibs) ashaBearer ⟨ashaStoreFailing [some connectionLost], []⟩).1 =
      ⟨401, .obj [("success", .bool false), ("error", .str "Invalid token")]⟩ ∧
    (login (pgEnv sampleLibs) ⟨"asha@example.com", "secret1"⟩
      ⟨ashaStoreFailing [some connectionLost], []⟩).1.status = 500 ∧
    (register (pgEnv sampleLibs) ashaBody
      ⟨ashaStoreFailing [some connectionLost], []⟩).1.status = 500 := by
  refine ⟨rfl, rfl, rfl, rfl, rfl, rfl, rfl⟩

/-! ### The last-login update is best effort -/

/-- C10: `updateLastLogin` never throws, and when the email is found and the
password verifies, the login handler answers 200 with `success: true`, the
token signed for the user and the user object, whatever the last-login update
returned (an error included); the body has no `error` and no `message` field. -/
theorem login_ignores_failed_last_login_update {σ : Type} (env : Env σ) (body : LoginBody)
    (w w1 : World σ) (user : User) (e : PgError) (s : σ)
    (hFind : dbHelpers.findUserByEmail env body.email w = (.ok (some user), w1))
    (hCompare : env.bcryptCompare body.password user.password_hash = .ok true)
    (hUpdate : env.updateLastLoginById user.id (env.now w1.ext) w1.ext = (some e, s)) :
    (∀ (userId : UserId) (v : World σ), (dbHelpers.updateLastLogin env userId v).1 = .ok ()) ∧
    (login env body w).1 =
      ⟨200, .obj [("success", .bool true),
        ("data", .obj [("token", .str (env.jwtSign ⟨user.id, user.email, user.role, user.name⟩
            (jwtSecret env) expiresIn24h (env.now w1.ext))),
          ("user", loginUserJson user (env.now s))])]⟩ ∧
    (login env body w).1.body.field "success" = some (.bool true) ∧
    (login env body w).1.body.field "error" = none ∧
    (login env body w).1.body.field "message" = none ∧
    (∀ (env₀ : Env σ) (s₀ : σ),
      dbHelpers.findUserByEmail env₀ body.email w = (.ok (some user), w1) →
      env₀.bcryptCompare = env.bcryptCompare → env₀.jwtSign = env.jwtSign →
      env₀.now = env.now → env₀.JWT_SECRET = env.JWT_SECRET →
      env₀.updateLastLoginById user.id (env.now w1.ext) w1.ext = (none, s₀) →
      env.now s₀ = env.now s →
      (login env₀ body w).1 = (login env body w).1) := by
  have hOk : ∀ (env₁ : Env σ) (userId : UserId) (v : World σ),
      (dbHelpers.updateLastLogin env₁ userId v).1 = .ok () := by
    intro env₁ userId v
    rcases h : env₁.updateLastLoginById userId (env₁.now v.ext) v.ext with ⟨r, t⟩
    cases r <;> simp [dbHelpers.updateLastLogin, h]
  have hResp : (login env body w).1 =
      ⟨200, .obj [("success", .bool true),
        ("data", .obj [("token", .str (env.jwtSign ⟨user.id, user.email, user.role, user.name⟩
            (jwtSecret env) expiresIn24h (env.now w1.ext))),
          ("user", loginUserJson user (env.now s))])]⟩ := by
    simp [login, hFind, comparePassword, hCompare, signToken, dbHelpers.updateLastLogin, hUpdate]
  refine ⟨hOk env, hResp, ?_, ?_, ?_, ?_⟩
  · rw [hResp]; rfl
  · rw [hResp]; rfl
  · rw [hResp]; rfl
  · intro env₀ s₀ hFind₀ hC hS hN hK hUpdate₀ hClock
    rw [hResp]
    rw [← hC] at hCompare
    simp [login, hFind₀, comparePassword, hCompare, signToken, dbHelpers.updateLastLogin,
      hUpdate₀, hS, hN, hClock, jwtSecret, hK]

/-- Witness of C10: `asha` logs in with her password while the update of
`last_login` fails with a connectivity error. -/
theorem login_ignores_failed_last_login_update_witness :
    (∀ (userId : UserId) (v : World PgStore),
      (dbHelpers.updateLastLogin (pgEnv sampleLibs) userId v).1 = .ok ()) ∧
    (login (pgEnv sampleLibs) ⟨"asha@example.com", "secret1"⟩
      ⟨ashaStoreFailing [none, some connectionLost], []⟩).1 =
      ⟨200, .obj [("success", .bool true),
        ("data", .obj [("token", .str "jwt:asha@example.com"),
          ("user", loginUserJson asha 2000)])]⟩ ∧
    (login (pgEnv sampleLibs) ⟨"asha@example.com", "secret1"⟩
      ⟨ashaStoreFailing [none, some connectionLost], []⟩).2.ext.rows = [asha] :=
  ⟨(login_ignores_failed_last_login_update (pgEnv sampleLibs) ⟨"asha@example.com", "secret1"⟩
      ⟨ashaStoreFailing [none, some connectionLost], []⟩ _ asha connectionLost _
      rfl rfl rfl).1,
   (login_ignores_failed_last_login_update (pgEnv sampleLibs) ⟨"asha@example.com", "secret1"⟩
      ⟨ashaStoreFailing [none, some connectionLost], []⟩ _ asha connectionLost _
      rfl rfl rfl).2.1,
   rfl⟩

/-! ### The symbolic token service -/

/-- Reading back a number that was written. -/
theorem decodeNat_encodeNat (n : Nat) (rest : List Char) :
    decodeNat (encodeNat n ++ rest) = some (n, rest) := by
  induction n with
  | zero => simp [encodeNat, decodeNat]
  | succ k ih =>
    have h : encodeNat (k + 1) ++ rest = 'i' :: (encodeNat k ++ rest) := by
      simp [encodeNat, List.replicate_succ]
    rw [h]
    simp [decodeNat, ih]

/-- Reading back a text that was written. -/
theorem decodeText_encodeText (s : String) (rest : List Char) :
    decodeText (encodeText s ++ rest) = some (s, rest) := by
  unfold decodeText encodeText
  rw [List.append_assoc, decodeNat_encodeNat]
  simp

/-- Reading back a token that was written. -/
theorem decodeToken_encodeToken (t : TokenContent) :
    decodeToken (encodeToken t) = some t := by
  unfold decodeToken encodeToken
  rw [decodeNat_encodeNat]
  simp only
  rw [decodeText_encodeText]
  simp only
  rw [decodeText_encodeText]
  simp only
  rw [decodeText_encodeText]
  simp only
  rw [decodeNat_encodeNat]
  simp only
  rw [decodeNat_encodeNat]
  simp only
  have h := decodeText_encodeText t.key []
  rw [List.append_nil] at h
  rw [h]

/-- The symbolic service returns what was signed until the token expires. -/
theorem symbolicVerify_symbolicSign (payload : JwtPayload) (secret : String)
    (expiresIn : Nat) (issued now : Timestamp) (h : now / 1000 < issued / 1000 + expiresIn) :
    symbolicVerify (symbolicSign payload secret expiresIn issued) secret now =
      .ok ⟨payload.id, payload.email, payload.role, payload.name,
        issued / 1000, issued / 1000 + expiresIn⟩ := by
  unfold symbolicVerify symbolicSign
  rw [show ∀ l : List Char, (String.mk l).toList = l from fun _ => rfl, decodeToken_encodeToken]
  simp [Nat.not_le.mpr h]

/-- The symbolic service rejects a token from the second `exp` on. -/
theorem symbolicVerify_expired (payload : JwtPayload) (secret : String)
    (expiresIn : Nat) (issued now : Timestamp) (h : issued / 1000 + expiresIn ≤ now / 1000) :
    symbolicVerify (symbolicSign payload secret expiresIn issued) secret now =
      .error "jwt expired" := by
  unfold symbolicVerify symbolicSign
  rw [show ∀ l : List Char, (String.mk l).toList = l from fun _ => rfl, decodeToken_encodeToken]
  simp [h]

/-- The symbolic service rejects a token signed with another key. -/
theorem symbolicVerify_other_key (payload : JwtPayload) (key secret : String)
    (expiresIn : Nat) (issued now : Timestamp) (h : key ≠ secret) :
    symbolicVerify (symbolicSign payload key expiresIn issued) secret now =
      .error "invalid signature" := by
  unfold symbolicVerify symbolicSign
  rw [show ∀ l : List Char, (String.mk l).toList = l from fun _ => rfl, decodeToken_encodeToken]
  simp [h]

/-- The reference environment with the symbolic token service obeys
`JwtRoundTrip`. -/
theorem symbolicLibs_roundTrip : JwtRoundTrip (pgEnv symbolicLibs) := by
  intro payload secret expiresIn issued now h
  exact symbolicVerify_symbolicSign payload secret expiresIn issued now h

/-! ### The success paths of the handlers -/

/-- The success path of login: response and trace. -/
theorem login_success {σ : Type} (env : Env σ) (body : LoginBody) (w w1 : World σ)
    (user : User)
    (hFind : dbHelpers.findUserByEmail env body.email w = (.ok (some user), w1))
    (hCompare : env.bcryptCompare body.password user.password_hash = .ok true) :
    login env body w =
      (⟨200, .obj [("success", .bool true),
        ("data", .obj [("token", .str (env.jwtSign ⟨user.id, user.email, user.role, user.name⟩
            (jwtSecret env) expiresIn24h (env.now w1.ext))),
          ("user", loginUserJson user
            (env.now (env.updateLastLoginById user.id (env.now w1.ext) w1.ext).2))])]⟩,
       ⟨(env.updateLastLoginById user.id (env.now w1.ext) w1.ext).2,
        w1.calls ++ [.bcryptCompare body.password user.password_hash,
          .jwtSign ⟨user.id, user.email, user.role, user.name⟩ (jwtSecret env),
          .updateLastLogin user.id (env.now w1.ext)]⟩) := by
  rcases hU : env.updateLastLoginById user.id (env.now w1.ext) w1.ext with ⟨r, s⟩
  cases r <;>
    simp [login, hFind, comparePassword, hCompare, signToken, dbHelpers.updateLastLogin, hU]

/-- The success path of register: a 201 comes with the row `createUser`
returned, the token signed for it and the trace of the four library calls. -/
theorem register_created {σ : Type} (env : Env σ) (body : RegisterBody) (w : World σ)
    (h : (register env body w).1.status = 201) :
    ∃ (w1 : World σ) (hashedPassword : String) (w2 : World σ) (newUser : User) (w3 : World σ),
      dbHelpers.findUserByEmail env body.email w = (.ok none, w1) ∧
      hashPassword env body.password 10 w1 = (.ok hashedPassword, w2) ∧
      dbHelpers.createUser env (registerUserData body hashedPassword) w2 =
        (.ok (some newUser), w3) ∧
      register env body w =
        (⟨201, .obj [("success", .bool true),
          ("data", .obj [("token", .str (env.jwtSign
              ⟨newUser.id, newUser.email, newUser.role, newUser.name⟩
              (jwtSecret env) expiresIn24h (env.now w3.ext))),
            ("user", registerUserJson newUser)])]⟩,
         ⟨w3.ext, w3.calls ++
           [.jwtSign ⟨newUser.id, newUser.email, newUser.role, newUser.name⟩ (jwtSecret env)]⟩) := by
  rcases hF : dbHelpers.findUserByEmail env body.email w with ⟨rF, w1⟩
  rcases rF with m | _ | u
  · simp [register, hF, registrationFailed] at h
  · rcases hH : hashPassword env body.password 10 w1 with ⟨rH, w2⟩
    rcases rH with m | hashed
    · simp [register, hF, hH, registrationFailed] at h
    · rcases hC : dbHelpers.createUser env (registerUserData body hashed) w2 with ⟨rC, w3⟩
      rcases rC with m | _ | newUser
      · simp [register, hF, hH, hC, registrationFailed] at h
      · simp [register, hF, hH, hC, registrationFailed] at h
      · exact ⟨w1, hashed, w2, newUser, w3, rfl, hH, hC,
          by simp [register, hF, hH, hC, signToken]⟩
  · simp [register, hF] at h

/-- The success path of refresh: response and trace. -/
theorem refresh_success {σ : Type} (env : Env σ) (req : AuthRequest) (w w2 : World σ)
    (decoded : Decoded) (user : User)
    (hBearer : missingBearer req.authorization = false)
    (hVerify : env.jwtVerify (substring7 (req.authorization.getD "")) (jwtSecret env)
      (env.now w.ext) = .ok decoded)
    (hGet : dbHelpers.getUserById env decoded.id
      ⟨w.ext, w.calls ++ [.jwtVerify (substring7 (req.authorization.getD "")) (jwtSecret env)]⟩ =
      (.ok (some user), w2)) :
    refresh env req w =
      (⟨200, .obj [("success", .bool true),
        ("data", .obj [("token", .str (env.jwtSign ⟨user.id, user.email, user.role, user.name⟩
          (jwtSecret env) expiresIn24h (env.now w2.ext)))])]⟩,
       ⟨w2.ext, w2.calls ++
         [.jwtSign ⟨user.id, user.email, user.role, user.name⟩ (jwtSecret env)]⟩) := by
  simp [refresh, hBearer, verifyToken, hVerify, hGet, signToken]

/-- A 200 of refresh comes from a verified token and a row found by id. -/
theorem refresh_status_200 {σ : Type} (env : Env σ) (req : AuthRequest) (w : World σ)
    (h : (refresh env req w).1.status = 200) :
    ∃ (decoded : Decoded) (user : User) (w2 : World σ),
      missingBearer req.authorization = false ∧
      env.jwtVerify (substring7 (req.authorization.getD "")) (jwtSecret env)
        (env.now w.ext) = .ok decoded ∧
      dbHelpers.getUserById env decoded.id
        ⟨w.ext, w.calls ++
          [.jwtVerify (substring7 (req.authorization.getD "")) (jwtSecret env)]⟩ =
        (.ok (some user), w2) := by
  cases hB : missingBearer req.authorization with
  | true => simp [refresh, hB] at h
  | false =>
    cases hV : env.jwtVerify (substring7 (req.authorization.getD "")) (jwtSecret env)
        (env.now w.ext) with
    | error m => simp [refresh, hB, verifyToken, hV, invalidToken] at h
    | ok decoded =>
      rcases hG : dbHelpers.getUserById env decoded.id
        ⟨w.ext, w.calls ++
          [.jwtVerify (substring7 (req.authorization.getD "")) (jwtSecret env)]⟩ with ⟨rG, w2⟩
      rcases rG with m | _ | user
      · simp [refresh, hB, verifyToken, hV, hG, invalidToken] at h
      · simp [refresh, hB, verifyToken, hV, hG] at h
      · exact ⟨decoded, user, w2, rfl, rfl, hG⟩

/-- Under `JwtRoundTrip`, a token the handlers sign is a 24 hour token. -/
theorem validFor24h_of_roundTrip {σ : Type} (env : Env σ) (hLaw : JwtRoundTrip env)
    (payload : JwtPayload) (issued : Timestamp) :
    ValidFor24h env (env.jwtSign payload (jwtSecret env) expiresIn24h issued) issued := by
  intro now hNow
  refine ⟨_, hLaw payload (jwtSecret env) expiresIn24h issued now hNow, rfl, rfl⟩

/-! ### The token of a registration -/

/-- C11: when a registration is answered 201 and the token library returns
what was signed (`JwtRoundTrip`), verifying the returned token at any time
before its expiry yields claims whose id, email and role are those of the row
`createUser` returned, and the `user` object of the response carries the same
id, email and role. -/
theorem register_token_claims {σ : Type} (env : Env σ) (body : RegisterBody) (w : World σ)
    (hLaw : JwtRoundTrip env)
    (hCreated : (register env body w).1.status = 201) :
    ∃ (w1 : World σ) (hashedPassword : String) (w2 : World σ) (newUser : User) (w3 : World σ)
      (token : String),
      dbHelpers.findUserByEmail env body.email w = (.ok none, w1) ∧
      hashPassword env body.password 10 w1 = (.ok hashedPassword, w2) ∧
      dbHelpers.createUser env (registerUserData body hashedPassword) w2 =
        (.ok (some newUser), w3) ∧
      (register env body w).1.token = some token ∧
      (register env body w).1.user = some (registerUserJson newUser) ∧
      (registerUserJson newUser).field "id" = some (.num newUser.id) ∧
      (registerUserJson newUser).field "email" = some (.str newUser.email) ∧
      (registerUserJson newUser).field "role" = some (.str newUser.role) ∧
      (∀ now : Timestamp, now / 1000 < env.now w3.ext / 1000 + 86400 →
        ∃ d : Decoded, env.jwtVerify token (jwtSecret env) now = .ok d ∧
          d.id = newUser.id ∧ d.email = newUser.email ∧ d.role = newUser.role) := by
  obtain ⟨w1, hashed, w2, newUser, w3, hF, hH, hC, hR⟩ := register_created env body w hCreated
  refine ⟨w1, hashed, w2, newUser, w3,
    env.jwtSign ⟨newUser.id, newUser.email, newUser.role, newUser.name⟩ (jwtSecret env)
      expiresIn24h (env.now w3.ext), hF, hH, hC, ?_, ?_, rfl, rfl, rfl, ?_⟩
  · rw [hR]; rfl
  · rw [hR]; rfl
  · intro now hNow
    exact ⟨_, hLaw _ (jwtSecret env) expiresIn24h (env.now w3.ext) now hNow, rfl, rfl, rfl⟩

/-- Witness of C11: `asha@example.com` registered on an empty table, with the
symbolic token service. -/
theorem register_token_claims_witness :
    ∃ (w1 : World PgStore) (hashedPassword : String) (w2 : World PgStore) (newUser : User)
      (w3 : World PgStore) (token : String),
      dbHelpers.findUserByEmail (pgEnv symbolicLibs) ashaBody.email ⟨emptyStore, []⟩ =
        (.ok none, w1) ∧
      hashPassword (pgEnv symbolicLibs) ashaBody.password 10 w1 = (.ok hashedPassword, w2) ∧
      dbHelpers.createUser (pgEnv symbolicLibs) (registerUserData ashaBody hashedPassword) w2 =
        (.ok (some newUser), w3) ∧
      (register (pgEnv symbolicLibs) ashaBody ⟨emptyStore, []⟩).1.token = some token ∧
      (register (pgEnv symbolicLibs) ashaBody ⟨emptyStore, []⟩).1.user =
        some (registerUserJson newUser) ∧
      (registerUserJson newUser).field "id" = some (.num newUser.id) ∧
      (registerUserJson newUser).field "email" = some (.str newUser.email) ∧
      (registerUserJson newUser).field "role" = some (.str newUser.role) ∧
      (∀ now : Timestamp, now / 1000 < (pgEnv symbolicLibs).now w3.ext / 1000 + 86400 →
        ∃ d : Decoded,
          (pgEnv symbolicLibs).jwtVerify token (jwtSecret (pgEnv symbolicLibs)) now = .ok d ∧
          d.id = newUser.id ∧ d.email = newUser.email ∧ d.role = newUser.role) :=
  register_token_claims (pgEnv symbolicLibs) ashaBody ⟨emptyStore, []⟩ symbolicLibs_roundTrip rfl

/-! ### The validity window -/

/-- C12: a login with a found email and a password that verifies is answered
200, and under `JwtRoundTrip` its token is accepted until expiry with
`exp = iat + 86400`; every token returned by a 201 of register or a 200 of
refresh is signed with the same `expiresIn` of 86400 seconds and has the same
property. -/
theorem login_token_expires_after_24h {σ : Type} (env : Env σ) (body : LoginBody)
    (w w1 : World σ) (user : User)
    (hLaw : JwtRoundTrip env)
    (hFind : dbHelpers.findUserByEmail env body.email w = (.ok (some user), w1))
    (hCompare : env.bcryptCompare body.password user.password_hash = .ok true) :
    expiresIn24h = 86400 ∧
    (login env body w).1.status = 200 ∧
    (∃ token : String, (login env body w).1.token = some token ∧
      token = env.jwtSign ⟨user.id, user.email, user.role, user.name⟩ (jwtSecret env)
        expiresIn24h (env.now w1.ext) ∧
      ValidFor24h env token (env.now w1.ext)) ∧
    (∀ (rb : RegisterBody) (v : World σ), (register env rb v).1.status = 201 →
      ∃ (token : String) (payload : JwtPayload) (issued : Timestamp),
        (register env rb v).1.token = some token ∧
        token = env.jwtSign payload (jwtSecret env) expiresIn24h issued ∧
        ValidFor24h env token issued) ∧
    (∀ (req : AuthRequest) (v : World σ), (refresh env req v).1.status = 200 →
      ∃ (token : String) (payload : JwtPayload) (issued : Timestamp),
        (refresh env req v).1.token = some token ∧
        token = env.jwtSign payload (jwtSecret env) expiresIn24h issued ∧
        ValidFor24h env token issued) := by
  refine ⟨by decide, ?_, ?_, ?_, ?_⟩
  · rw [login_success env body w w1 user hFind hCompare]
  · refine ⟨env.jwtSign ⟨user.id, user.email, user.role, user.name⟩ (jwtSecret env)
      expiresIn24h (env.now w1.ext), ?_, rfl, validFor24h_of_roundTrip env hLaw _ _⟩
    rw [login_success env body w w1 user hFind hCompare]
    rfl
  · intro rb v hCreated
    obtain ⟨v1, hashed, v2, newUser, v3, _, _, _, hR⟩ := register_created env rb v hCreated
    refine ⟨_, ⟨newUser.id, newUser.email, newUser.role, newUser.name⟩, env.now v3.ext, ?_, rfl,
      validFor24h_of_roundTrip env hLaw _ _⟩
    rw [hR]
    rfl
  · intro req v hOk
    obtain ⟨decoded, u, v2, hB, hV, hG⟩ := refresh_status_200 env req v hOk
    refine ⟨_, ⟨u.id, u.email, u.role, u.name⟩, env.now v2.ext, ?_, rfl,
      validFor24h_of_roundTrip env hLaw _ _⟩
    rw [refresh_success env req v v2 decoded u hB hV hG]
    rfl

/-- Witness of C12: `asha` logs in with her password, with the symbolic token
service. -/
theorem login_token_expires_after_24h_witness :
    (login (pgEnv symbolicLibs) ⟨"asha@example.com", "secret1"⟩ ⟨ashaStore, []⟩).1.status = 200 ∧
    (∃ token : String,
      (login (pgEnv symbolicLibs) ⟨"asha@example.com", "secret1"⟩ ⟨ashaStore, []⟩).1.token =
        some token ∧
      token = (pgEnv symbolicLibs).jwtSign ⟨asha.id, asha.email, asha.role, asha.name⟩
        (jwtSecret (pgEnv symbolicLibs)) expiresIn24h 2000 ∧
      ValidFor24h (pgEnv symbolicLibs) token 2000) :=
  ⟨(login_token_expires_after_24h (pgEnv symbolicLibs) ⟨"asha@example.com", "secret1"⟩
      ⟨ashaStore, []⟩ ⟨ashaStore, [.selectByEmail "asha@example.com"]⟩ asha
      symbolicLibs_roundTrip rfl rfl).2.1,
   (login_token_expires_after_24h (pgEnv symbolicLibs) ⟨"asha@example.com", "secret1"⟩
      ⟨ashaStore, []⟩ ⟨ashaStore, [.selectByEmail "asha@example.com"]⟩ asha
      symbolicLibs_roundTrip rfl rfl).2.2.1⟩

/-! ### What is signed -/

/-- The helper `createUser` makes exactly one library call, the insert. -/
theorem createUser_calls {σ : Type} (env : Env σ) (userData : UserData) (w : World σ) :
    (dbHelpers.createUser env userData w).2.calls =
      w.calls ++ [.insertUser (newUserRow userData (env.now w.ext))] := by
  unfold dbHelpers.createUser
  rcases env.insertSingle (newUserRow userData (env.now w.ext)) w.ext with ⟨res, s⟩
  simp only
  split <;> rfl

/-- The helper `getUserById` makes exactly one library call, the select by id. -/
theorem getUserById_calls {σ : Type} (env : Env σ) (userId : UserId) (w : World σ) :
    (dbHelpers.getUserById env userId w).2.calls = w.calls ++ [.selectById userId] := by
  unfold dbHelpers.getUserById
  rcases env.selectByIdSingle userId w.ext with ⟨res, s⟩
  simp only
  split <;> rfl

/-- Hashing makes exactly one library call. -/
theorem hashPassword_calls {σ : Type} (env : Env σ) (password : String) (rounds : Nat)
    (w : World σ) :
    (hashPassword env password rounds w).2.calls = w.calls ++ [.bcryptHash password rounds] := by
  unfold hashPassword
  rcases env.bcryptHash password rounds w.ext with ⟨r, s⟩
  rfl

/-- Payloads of a trace that grew by calls. -/
theorem signedPayloads_append (a b : List Call) :
    signedPayloads (a ++ b) = signedPayloads a ++ signedPayloads b := by
  simp [signedPayloads, List.filterMap_append]

/-- C13: the payload signed by login, register and refresh is made of the id,
email, role and name of the user row and of nothing else: each successful run
hands exactly one payload to `jwt.sign`, built from these four fields of the
row (found by email, returned by `createUser`, found by id), so a row that
differs only in `password_hash`, and a request that differs only in the
password, lead to the same payload. -/
theorem signed_payload_is_id_email_role_name {σ : Type} (env : Env σ) :
    (∀ (body : LoginBody) (w w1 : World σ) (user : User),
      dbHelpers.findUserByEmail env body.email w = (.ok (some user), w1) →
      env.bcryptCompare body.password user.password_hash = .ok true →
      signedPayloads (login env body w).2.calls =
        signedPayloads w.calls ++ [⟨user.id, user.email, user.role, user.name⟩]) ∧
    (∀ (body : RegisterBody) (w : World σ), (register env body w).1.status = 201 →
      ∃ (hashedPassword : String) (w2 w3 : World σ) (newUser : User),
        dbHelpers.createUser env (registerUserData body hashedPassword) w2 =
          (.ok (some newUser), w3) ∧
        signedPayloads (register env body w).2.calls =
          signedPayloads w.calls ++
            [⟨newUser.id, newUser.email, newUser.role, newUser.name⟩]) ∧
    (∀ (req : AuthRequest) (w : World σ), (refresh env req w).1.status = 200 →
      ∃ (decoded : Decoded) (w1 w2 : World σ) (user : User),
        dbHelpers.getUserById env decoded.id w1 = (.ok (some user), w2) ∧
        signedPayloads (refresh env req w).2.calls =
          signedPayloads w.calls ++ [⟨user.id, user.email, user.role, user.name⟩]) ∧
    (∀ (body body' : LoginBody) (w w1 w' w1' : World σ) (user : User) (otherHash : String),
      dbHelpers.findUserByEmail env body.email w = (.ok (some user), w1) →
      dbHelpers.findUserByEmail env body'.email w' =
        (.ok (some { user with password_hash := otherHash }), w1') →
      env.bcryptCompare body.password user.password_hash = .ok true →
      env.bcryptCompare body'.password otherHash = .ok true →
      signedPayloads w.calls = signedPayloads w'.calls →
      signedPayloads (login env body w).2.calls = signedPayloads (login env body' w').2.calls ∧
      (env.now w1.ext = env.now w1'.ext →
        (login env body w).1.token = (login env body' w').1.token)) := by
  have hLogin : ∀ (body : LoginBody) (w w1 : World σ) (user : User),
      dbHelpers.findUserByEmail env body.email w = (.ok (some user), w1) →
      env.bcryptCompare body.password user.password_hash = .ok true →
      signedPayloads (login env body w).2.calls =
        signedPayloads w.calls ++ [⟨user.id, user.email, user.role, user.name⟩] := by
    intro body w w1 user hFind hCompare
    have hCalls := findUserByEmail_calls env body.email w
    rw [hFind] at hCalls
    simp only at hCalls
    rw [login_success env body w w1 user hFind hCompare]
    simp [hCalls, signedPayloads]
  refine ⟨hLogin, ?_, ?_, ?_⟩
  · intro body w hCreated
    obtain ⟨w1, hashed, w2, newUser, w3, hF, hH, hC, hR⟩ := register_created env body w hCreated
    refine ⟨hashed, w2, w3, newUser, hC, ?_⟩
    have h1 := findUserByEmail_calls env body.email w
    have h2 := hashPassword_calls env body.password 10 w1
    have h3 := createUser_calls env (registerUserData body hashed) w2
    rw [hF] at h1
    rw [hH] at h2
    rw [hC] at h3
    simp only at h1 h2 h3
    rw [hR]
    simp [h3, h2, h1, signedPayloads]
  · intro req w hOk
    obtain ⟨decoded, user, w2, hB, hV, hG⟩ := refresh_status_200 env req w hOk
    refine ⟨decoded, _, w2, user, hG, ?_⟩
    have h1 := getUserById_calls env decoded.id
      ⟨w.ext, w.calls ++ [.jwtVerify (substring7 (req.authorization.getD "")) (jwtSecret env)]⟩
    rw [hG] at h1
    simp only at h1
    rw [refresh_success env req w w2 decoded user hB hV hG]
    simp [h1, signedPayloads]
  · intro body body' w w1 w' w1' user otherHash hF hF' hC hC' hSame
    have hCompareOther : env.bcryptCompare body'.password
        ({ user with password_hash := otherHash } : User).password_hash = .ok true := hC'
    constructor
    · rw [hLogin body w w1 user hF hC,
        hLogin body' w' w1' { user with password_hash := otherHash } hF' hCompareOther, hSame]
    · intro hClock
      rw [login_success env body w w1 user hF hC,
        login_success env body' w' w1' { user with password_hash := otherHash } hF' hCompareOther]
      simp [Response.token, Json.field, Json.asStr, hClock]

/-- Witness of C13: `asha` logs in on two stores that differ only in her
password hash; the same payload is signed. -/
theorem signed_payload_is_id_email_role_name_witness :
    signedPayloads (login (pgEnv sampleLibs) ⟨"asha@example.com", "secret1"⟩
      ⟨ashaStore, []⟩).2.calls = [] ++ [⟨asha.id, asha.email, asha.role, asha.name⟩] ∧
    (signedPayloads (login (pgEnv sampleLibs) ⟨"asha@example.com", "secret1"⟩
        ⟨ashaStore, []⟩).2.calls =
      signedPayloads (login (pgEnv sampleLibs) ⟨"asha@example.com", "another-password"⟩
        ⟨{ ashaStore with
            rows := [{ asha with password_hash := "$2a$10$another-password" }] }, []⟩).2.calls ∧
      ((pgEnv sampleLibs).now ashaStore = (pgEnv sampleLibs).now ashaStore →
        (login (pgEnv sampleLibs) ⟨"asha@example.com", "secret1"⟩ ⟨ashaStore, []⟩).1.token =
        (login (pgEnv sampleLibs) ⟨"asha@example.com", "another-password"⟩
          ⟨{ ashaStore with
              rows := [{ asha with password_hash := "$2a$10$another-password" }] }, []⟩).1.token)) :=
  ⟨(signed_payload_is_id_email_role_name (pgEnv sampleLibs)).1
      ⟨"asha@example.com", "secret1"⟩ ⟨ashaStore, []⟩ _ asha rfl rfl,
   (signed_payload_is_id_email_role_name (pgEnv sampleLibs)).2.2.2
      ⟨"asha@example.com", "secret1"⟩ ⟨"asha@example.com", "another-password"⟩
      ⟨ashaStore, []⟩ ⟨ashaStore, [.selectByEmail "asha@example.com"]⟩
      ⟨{ ashaStore with rows := [{ asha with password_hash := "$2a$10$another-password" }] }, []⟩
      ⟨{ ashaStore with rows := [{ asha with password_hash := "$2a$10$another-password" }] },
        [.selectByEmail "asha@example.com"]⟩
      asha "$2a$10$another-password" rfl rfl rfl rfl rfl⟩

/-! ### The bearer header -/

/-- A header made of `Bearer ` and a token passes the header test. -/
theorem missingBearer_bearer (token : String) :
    missingBearer (some ("Bearer " ++ token)) = false := by
  have h : ("Bearer " ++ token).toList = "Bearer ".toList ++ token.toList := rfl
  simp only [missingBearer, h]
  simp [List.isPrefixOf_iff_prefix]

/-- Cutting seven characters off `Bearer ` and a token leaves the token. -/
theorem substring7_bearer (token : String) : substring7 ("Bearer " ++ token) = token := by
  have h : ("Bearer " ++ token).toList = "Bearer ".toList ++ token.toList := rfl
  unfold substring7
  rw [h]
  rfl

/-- A header that passes the header test is `Bearer ` followed by what
`substring7` keeps. -/
theorem bearer_of_not_missing (authHeader : String)
    (h : missingBearer (some authHeader) = false) :
    authHeader = "Bearer " ++ substring7 authHeader := by
  simp only [missingBearer, Bool.or_eq_false_iff, Bool.not_eq_false'] at h
  obtain ⟨t, ht⟩ := List.isPrefixOf_iff_prefix.mp h.2
  have hd : authHeader.toList.drop 7 = t := by
    rw [← ht]
    rfl
  have : authHeader.toList = ("Bearer " ++ substring7 authHeader).toList := by
    show authHeader.toList = "Bearer ".toList ++ authHeader.toList.drop 7
    rw [hd, ht]
  exact String.ext this

/-! ### Refresh -/

/-- C14: a refresh whose token verifies and whose subject id is found in the
store is answered 200 with a token signed, at the time of the refresh and with
`expiresIn` 86400, for the id, email, role and name of the row found; under
`JwtRoundTrip` verifying the new token yields these four claims of the row
(whatever the old token carried), `iat` the second of the refresh and `exp`
that second plus 86400 (whatever the old `exp` was). -/
theorem refresh_mints_from_current_row {σ : Type} (env : Env σ) (req : AuthRequest)
    (w : World σ) (decoded : Decoded) (user : User)
    (hLaw : JwtRoundTrip env)
    (hBearer : missingBearer req.authorization = false)
    (hVerify : env.jwtVerify (substring7 (req.authorization.getD "")) (jwtSecret env)
      (env.now w.ext) = .ok decoded)
    (hGet : (dbHelpers.getUserById env decoded.id
      ⟨w.ext, w.calls ++
        [.jwtVerify (substring7 (req.authorization.getD "")) (jwtSecret env)]⟩).1 =
      .ok (some user)) :
    (refresh env req w).1 =
      ⟨200, .obj [("success", .bool true),
        ("data", .obj [("token", .str (env.jwtSign ⟨user.id, user.email, user.role, user.name⟩
          (jwtSecret env) 86400 (env.now (refresh env req w).2.ext)))])]⟩ ∧
    signedPayloads (refresh env req w).2.calls =
      signedPayloads w.calls ++ [⟨user.id, user.email, user.role, user.name⟩] ∧
    (∃ token : String, (refresh env req w).1.token = some token ∧
      ∀ now : Timestamp, now / 1000 < env.now (refresh env req w).2.ext / 1000 + 86400 →
        env.jwtVerify token (jwtSecret env) now =
          .ok ⟨user.id, user.email, user.role, user.name,
            env.now (refresh env req w).2.ext / 1000,
            env.now (refresh env req w).2.ext / 1000 + 86400⟩) := by
  rcases hG : dbHelpers.getUserById env decoded.id
    ⟨w.ext, w.calls ++
      [.jwtVerify (substring7 (req.authorization.getD "")) (jwtSecret env)]⟩ with ⟨r, w2⟩
  rw [hG] at hGet
  simp only at hGet
  subst hGet
  have hCalls := getUserById_calls env decoded.id
    ⟨w.ext, w.calls ++ [.jwtVerify (substring7 (req.authorization.getD "")) (jwtSecret env)]⟩
  rw [hG] at hCalls
  simp only at hCalls
  rw [refresh_success env req w w2 decoded user hBearer hVerify hG]
  refine ⟨rfl, by simp [hCalls, signedPayloads], ?_⟩
  refine ⟨env.jwtSign ⟨user.id, user.email, user.role, user.name⟩ (jwtSecret env)
    expiresIn24h (env.now w2.ext), rfl, ?_⟩
  intro now hNow
  exact hLaw _ (jwtSecret env) expiresIn24h (env.now w2.ext) now hNow

/-- Witness of C14: `asha` presents, at second 2, a token signed at second 1
that names her `Asha`, `farmer`; her row now says `Asha Devi`, `expert`. -/
theorem refresh_mints_from_current_row_witness :
    (refresh (pgEnv symbolicLibs) ashaOldBearer ⟨⟨[ashaRenamed], 2000, 0, []⟩, []⟩).1 =
      ⟨200, .obj [("success", .bool true),
        ("data", .obj [("token", .str ((pgEnv symbolicLibs).jwtSign
          ⟨ashaRenamed.id, ashaRenamed.email, ashaRenamed.role, ashaRenamed.name⟩
          (jwtSecret (pgEnv symbolicLibs)) 86400
          ((pgEnv symbolicLibs).now (refresh (pgEnv symbolicLibs) ashaOldBearer
            ⟨⟨[ashaRenamed], 2000, 0, []⟩, []⟩).2.ext)))])]⟩ ∧
    signedPayloads (refresh (pgEnv symbolicLibs) ashaOldBearer
        ⟨⟨[ashaRenamed], 2000, 0, []⟩, []⟩).2.calls =
      signedPayloads [] ++
        [⟨ashaRenamed.id, ashaRenamed.email, ashaRenamed.role, ashaRenamed.name⟩] ∧
    (∃ token : String,
      (refresh (pgEnv symbolicLibs) ashaOldBearer
        ⟨⟨[ashaRenamed], 2000, 0, []⟩, []⟩).1.token = some token ∧
      ∀ now : Timestamp,
        now / 1000 < (pgEnv symbolicLibs).now (refresh (pgEnv symbolicLibs) ashaOldBearer
          ⟨⟨[ashaRenamed], 2000, 0, []⟩, []⟩).2.ext / 1000 + 86400 →
        (pgEnv symbolicLibs).jwtVerify token (jwtSecret (pgEnv symbolicLibs)) now =
          .ok ⟨ashaRenamed.id, ashaRenamed.email, ashaRenamed.role, ashaRenamed.name,
            (pgEnv symbolicLibs).now (refresh (pgEnv symbolicLibs) ashaOldBearer
              ⟨⟨[ashaRenamed], 2000, 0, []⟩, []⟩).2.ext / 1000,
            (pgEnv symbolicLibs).now (refresh (pgEnv symbolicLibs) ashaOldBearer
              ⟨⟨[ashaRenamed], 2000, 0, []⟩, []⟩).2.ext / 1000 + 86400⟩) :=
  refresh_mints_from_current_row (pgEnv symbolicLibs) ashaOldBearer
    ⟨⟨[ashaRenamed], 2000, 0, []⟩, []⟩
    ⟨1, "asha@example.com", "farmer", "Asha", 1, 1 + expiresIn24h⟩ ashaRenamed
    symbolicLibs_roundTrip (missingBearer_bearer ashaOldToken)
    (by
      have h : (pgEnv symbolicLibs).jwtVerify
          (substring7 (ashaOldBearer.authorization.getD "")) (jwtSecret (pgEnv symbolicLibs))
          ((pgEnv symbolicLibs).now (⟨⟨[ashaRenamed], 2000, 0, []⟩, []⟩ : World PgStore).ext) =
          symbolicVerify (substring7 ("Bearer " ++ ashaOldToken)) "your-secret-key" 2000 := rfl
      rw [h, substring7_bearer, ashaOldToken]
      exact symbolicVerify_symbolicSign _ _ _ _ _ (by decide))
    rfl

/-! ### Rejected tokens and missing headers -/

/-- C15: when the header passes the `Bearer ` test and `jwt.verify` throws on
the token (expired, bad signature or malformed), profile and refresh answer
401; the only library call they make is that `jwt.verify`, which is no store
call, and the external state is untouched. -/
theorem profile_refresh_rejected_token {σ : Type} (env : Env σ) (req : AuthRequest)
    (w : World σ) (message : String)
    (hBearer : missingBearer req.authorization = false)
    (hVerify : env.jwtVerify (substring7 (req.authorization.getD "")) (jwtSecret env)
      (env.now w.ext) = .error message) :
    (profile env req w).1.status = 401 ∧ (refresh env req w).1.status = 401 ∧
    (profile env req w).1 =
      ⟨401, .obj [("success", .bool false), ("error", .str "Invalid token")]⟩ ∧
    (refresh env req w).1 =
      ⟨401, .obj [("success", .bool false), ("error", .str "Invalid token")]⟩ ∧
    (profile env req w).2 =
      ⟨w.ext, w.calls ++
        [.jwtVerify (substring7 (req.authorization.getD "")) (jwtSecret env)]⟩ ∧
    (refresh env req w).2 =
      ⟨w.ext, w.calls ++
        [.jwtVerify (substring7 (req.authorization.getD "")) (jwtSecret env)]⟩ ∧
    (Call.jwtVerify (substring7 (req.authorization.getD "")) (jwtSecret env)).isStore = false ∧
    ((profile env req w).2.calls.filter Call.isStore = w.calls.filter Call.isStore ∧
      (refresh env req w).2.calls.filter Call.isStore = w.calls.filter Call.isStore) := by
  have hP : profile env req w = (invalidToken, ⟨w.ext, w.calls ++
      [.jwtVerify (substring7 (req.authorization.getD "")) (jwtSecret env)]⟩) := by
    simp [profile, hBearer, verifyToken, hVerify]
  have hR : refresh env req w = (invalidToken, ⟨w.ext, w.calls ++
      [.jwtVerify (substring7 (req.authorization.getD "")) (jwtSecret env)]⟩) := by
    simp [refresh, hBearer, verifyToken, hVerify]
  rw [hP, hR]
  refine ⟨rfl, rfl, rfl, rfl, rfl, rfl, rfl, ?_, ?_⟩ <;>
    simp [List.filter_append, Call.isStore]

/-- The old token of `asha` is expired at second 86401. -/
theorem ashaOldToken_expired :
    (pgEnv symbolicLibs).jwtVerify (substring7 (ashaOldBearer.authorization.getD ""))
      (jwtSecret (pgEnv symbolicLibs))
      ((pgEnv symbolicLibs).now (⟨⟨[asha], 86401000, 0, []⟩, []⟩ : World PgStore).ext) =
      .error "jwt expired" := by
  have h : (pgEnv symbolicLibs).jwtVerify
      (substring7 (ashaOldBearer.authorization.getD "")) (jwtSecret (pgEnv symbolicLibs))
      ((pgEnv symbolicLibs).now (⟨⟨[asha], 86401000, 0, []⟩, []⟩ : World PgStore).ext) =
      symbolicVerify (substring7 ("Bearer " ++ ashaOldToken)) "your-secret-key"
        86401000 := rfl
  rw [h, substring7_bearer, ashaOldToken]
  exact symbolicVerify_expired _ _ _ _ _ (by decide)

/-- Witness of C15: `asha` presents the token signed at second 1 when the
clock shows second 86401, the second of its expiry; the table is not asked. -/
theorem profile_refresh_rejected_token_witness :
    (profile (pgEnv symbolicLibs) ashaOldBearer ⟨⟨[asha], 86401000, 0, []⟩, []⟩).1.status = 401 ∧
    (refresh (pgEnv symbolicLibs) ashaOldBearer ⟨⟨[asha], 86401000, 0, []⟩, []⟩).1.status = 401 ∧
    (profile (pgEnv symbolicLibs) ashaOldBearer
        ⟨⟨[asha], 86401000, 0, []⟩, []⟩).2.calls.filter Call.isStore =
      ([] : List Call).filter Call.isStore ∧
    (refresh (pgEnv symbolicLibs) ashaOldBearer
        ⟨⟨[asha], 86401000, 0, []⟩, []⟩).2.calls.filter Call.isStore =
      ([] : List Call).filter Call.isStore :=
  ⟨(profile_refresh_rejected_token (pgEnv symbolicLibs) ashaOldBearer
      ⟨⟨[asha], 86401000, 0, []⟩, []⟩ "jwt expired" (missingBearer_bearer ashaOldToken)
      ashaOldToken_expired).1,
   (profile_refresh_rejected_token (pgEnv symbolicLibs) ashaOldBearer
      ⟨⟨[asha], 86401000, 0, []⟩, []⟩ "jwt expired" (missingBearer_bearer ashaOldToken)
      ashaOldToken_expired).2.1,
   (profile_refresh_rejected_token (pgEnv symbolicLibs) ashaOldBearer
      ⟨⟨[asha], 86401000, 0, []⟩, []⟩ "jwt expired" (missingBearer_bearer ashaOldToken)
      ashaOldToken_expired).2.2.2.2.2.2.2⟩

/-- C16: when the Authorization header is absent, empty or does not begin with
`Bearer `, and only then, profile and refresh answer 401 `Access token
required` and make no library call at all (no verification, no store call);
in every other case the first call is `jwt.verify` on the header without its
first seven characters, the header being `Bearer ` followed by that token. -/
theorem profile_refresh_bearer_header {σ : Type} (env : Env σ) (req : AuthRequest)
    (w : World σ) :
    (missingBearer req.authorization = true ↔
      (req.authorization = none ∨ req.authorization = some "" ∨
        ∃ authHeader : String, req.authorization = some authHeader ∧
          ¬ "Bearer ".toList <+: authHeader.toList)) ∧
    (missingBearer req.authorization = true →
      profile env req w =
        (⟨401, .obj [("success", .bool false), ("error", .str "Access token required")]⟩, w) ∧
      refresh env req w =
        (⟨401, .obj [("success", .bool false), ("error", .str "Access token required")]⟩, w)) ∧
    (missingBearer req.authorization = false →
      ∃ authHeader : String, req.authorization = some authHeader ∧
        authHeader = "Bearer " ++ substring7 authHeader ∧
        substring7 authHeader = String.mk (authHeader.toList.drop 7) ∧
        (∃ rest : List Call, (profile env req w).2.calls =
          w.calls ++ Call.jwtVerify (substring7 authHeader) (jwtSecret env) :: rest) ∧
        (∃ rest : List Call, (refresh env req w).2.calls =
          w.calls ++ Call.jwtVerify (substring7 authHeader) (jwtSecret env) :: rest)) := by
  refine ⟨?_, ?_, ?_⟩
  · cases hA : req.authorization with
    | none => simp [missingBearer]
    | some authHeader =>
      simp only [missingBearer, Bool.or_eq_true, Bool.not_eq_true', reduceCtorEq, false_or,
        Option.some.injEq, exists_eq_left']
      constructor
      · rintro (h | h)
        · left
          exact String.ext (by simpa using h)
        · right
          intro hp
          rw [List.isPrefixOf_iff_prefix.mpr hp] at h
          exact absurd h (by decide)
      · rintro (h | h)
        · left
          rw [h]
          rfl
        · right
          cases hb : "Bearer ".toList.isPrefixOf authHeader.toList with
          | false => rfl
          | true => exact absurd (List.isPrefixOf_iff_prefix.mp hb) h
  · intro h
    simp [profile, refresh, h]
  · intro h
    obtain ⟨auth⟩ := req
    cases auth with
    | none => simp [missingBearer] at h
    | some authHeader =>
      simp only at h
      refine ⟨authHeader, rfl, bearer_of_not_missing authHeader h, rfl, ?_, ?_⟩
      · cases hV : env.jwtVerify (substring7 authHeader) (jwtSecret env) (env.now w.ext) with
        | error m => exact ⟨[], by simp [profile, h, verifyToken, hV]⟩
        | ok decoded =>
          have hC := getUserById_calls env decoded.id
            ⟨w.ext, w.calls ++ [.jwtVerify (substring7 authHeader) (jwtSecret env)]⟩
          rcases hG : dbHelpers.getUserById env decoded.id
            ⟨w.ext, w.calls ++ [.jwtVerify (substring7 authHeader) (jwtSecret env)]⟩ with ⟨r, w2⟩
          rw [hG] at hC
          simp only at hC
          rcases r with m | _ | user <;>
            exact ⟨[.selectById decoded.id], by simp [profile, h, verifyToken, hV, hG, hC]⟩
      · cases hV : env.jwtVerify (substring7 authHeader) (jwtSecret env) (env.now w.ext) with
        | error m => exact ⟨[], by simp [refresh, h, verifyToken, hV]⟩
        | ok decoded =>
          have hC := getUserById_calls env decoded.id
            ⟨w.ext, w.calls ++ [.jwtVerify (substring7 authHeader) (jwtSecret env)]⟩
          rcases hG : dbHelpers.getUserById env decoded.id
            ⟨w.ext, w.calls ++ [.jwtVerify (substring7 authHeader) (jwtSecret env)]⟩ with ⟨r, w2⟩
          rw [hG] at hC
          simp only at hC
          rcases r with m | _ | user
          · exact ⟨[.selectById decoded.id], by simp [refresh, h, verifyToken, hV, hG, hC]⟩
          · exact ⟨[.selectById decoded.id], by simp [refresh, h, verifyToken, hV, hG, hC]⟩
          · exact ⟨[.selectById decoded.id,
              .jwtSign ⟨user.id, user.email, user.role, user.name⟩ (jwtSecret env)],
              by simp [refresh, h, verifyToken, hV, hG, hC, signToken]⟩

/-- Witness of C16: a request without header and one with a `Basic` header are
answered 401 `Access token required` and leave the world as it was; for the
header `Bearer jwt:asha@example.com` the token verified is
`jwt:asha@example.com`. -/
theorem profile_refresh_bearer_header_witness :
    (profile (pgEnv sampleLibs) ⟨none⟩ ⟨ashaStore, []⟩ =
        (⟨401, .obj [("success", .bool false), ("error", .str "Access token required")]⟩,
          ⟨ashaStore, []⟩) ∧
      refresh (pgEnv sampleLibs) ⟨none⟩ ⟨ashaStore, []⟩ =
        (⟨401, .obj [("success", .bool false), ("error", .str "Access token required")]⟩,
          ⟨ashaStore, []⟩)) ∧
    (profile (pgEnv sampleLibs) ⟨some "Basic YXNoYTpzZWNyZXQx"⟩ ⟨ashaStore, []⟩ =
        (⟨401, .obj [("success", .bool false), ("error", .str "Access token required")]⟩,
          ⟨ashaStore, []⟩) ∧
      refresh (pgEnv sampleLibs) ⟨some "Basic YXNoYTpzZWNyZXQx"⟩ ⟨ashaStore, []⟩ =
        (⟨401, .obj [("success", .bool false), ("error", .str "Access token required")]⟩,
          ⟨ashaStore, []⟩)) ∧
    (∃ authHeader : String, ashaBearer.authorization = some authHeader ∧
        authHeader = "Bearer " ++ substring7 authHeader ∧
        substring7 authHeader = String.mk (authHeader.toList.drop 7) ∧
        (∃ rest : List Call, (profile (pgEnv sampleLibs) ashaBearer ⟨ashaStore, []⟩).2.calls =
          [] ++ Call.jwtVerify (substring7 authHeader) (jwtSecret (pgEnv sampleLibs)) :: rest) ∧
        (∃ rest : List Call, (refresh (pgEnv sampleLibs) ashaBearer ⟨ashaStore, []⟩).2.calls =
          [] ++ Call.jwtVerify (substring7 authHeader) (jwtSecret (pgEnv sampleLibs)) :: rest)) ∧
    substring7 "Bearer jwt:asha@example.com" = "jwt:asha@example.com" :=
  ⟨(profile_refresh_bearer_header (pgEnv sampleLibs) ⟨none⟩ ⟨ashaStore, []⟩).2.1 rfl,
   (profile_refresh_bearer_header (pgEnv sampleLibs) ⟨some "Basic YXNoYTpzZWNyZXQx"⟩
      ⟨ashaStore, []⟩).2.1 rfl,
   (profile_refresh_bearer_header (pgEnv sampleLibs) ashaBearer ⟨ashaStore, []⟩).2.2 rfl,
   by decide⟩

/-! ### Logout -/

/-- C17: whatever the request (header, body) and the store, logout answers 200
with `success: true`, makes no library call and leaves the external state as
it was; a request to profile (or refresh) is therefore answered after the
logout exactly as it was answered before. -/
theorem logout_changes_nothing {σ : Type} (env : Env σ) (req : AuthRequest) (body : RawBody)
    (w : World σ) :
    (logoutRoute env req body w).1 =
      ⟨200, .obj [("success", .bool true), ("message", .str "Logged out successfully")]⟩ ∧
    (logoutRoute env req body w).1.status = 200 ∧
    (logoutRoute env req body w).1.body.field "success" = some (.bool true) ∧
    (logoutRoute env req body w).2 = w ∧
    (logoutRoute env req body w).2.calls.filter Call.isStore = w.calls.filter Call.isStore ∧
    (∀ presented : AuthRequest,
      profile env presented (logoutRoute env req body w).2 = profile env presented w ∧
      refresh env presented (logoutRoute env req body w).2 = refresh env presented w) ∧
    (∀ (libs : Libs) (s : PgStore) (calls : List Call),
      (logoutRoute (pgEnv libs) req body ⟨s, calls⟩).2.ext.rows = s.rows) := by
  refine ⟨rfl, rfl, rfl, rfl, rfl, fun _ => ⟨rfl, rfl⟩, fun _ _ _ => rfl⟩

/-! ### What the endpoints change in the table -/

/-- On the reference table `getUserById` never changes the rows. -/
theorem pg_getUserById_rows (libs : Libs) (userId : UserId) (w : World PgStore) :
    (dbHelpers.getUserById (pgEnv libs) userId w).2.ext.rows = w.ext.rows := by
  rcases hf : w.ext.nextFault with ⟨f, s1⟩
  have hr : s1.rows = w.ext.rows := by
    have := nextFault_rows w.ext
    rw [hf] at this
    exact this
  unfold dbHelpers.getUserById
  simp only [pgEnv, PgStore.selectByIdSingle, hf]
  cases f with
  | none =>
    simp only
    split <;> exact hr
  | some e => exact hr

/-- On the reference table a row found by email is a row of the table with
that email. -/
theorem pg_findUserByEmail_some (libs : Libs) (email : String) (w w1 : World PgStore)
    (u : User) (h : dbHelpers.findUserByEmail (pgEnv libs) email w = (.ok (some u), w1)) :
    u ∈ w.ext.rows ∧ u.email = email := by
  rcases hf : w.ext.nextFault with ⟨f, s1⟩
  have hb : s1.byEmail email = w.ext.byEmail email := by
    have := nextFault_byEmail w.ext email
    rw [hf] at this
    exact this
  unfold dbHelpers.findUserByEmail at h
  simp only [pgEnv, PgStore.selectByEmailSingle, hf] at h
  cases f with
  | some e =>
    simp only at h
    split at h <;> simp at h
  | none =>
    simp only [hb] at h
    rcases hl : w.ext.byEmail email with _ | ⟨v, _ | ⟨v', rest⟩⟩
    · simp [hl, single, notSingleRow] at h
    · simp only [hl, single] at h
      simp only [Prod.mk.injEq, Except.ok.injEq, Option.some.injEq] at h
      have hv : v ∈ w.ext.byEmail email := by rw [hl]; simp
      rw [← h.1]
      simpa [PgStore.byEmail] using hv
    · simp [hl, single, notSingleRow] at h

/-- On the reference table the last-login update leaves the rows as they are
(when the store fails) or stamps `last_login` on the rows with the given id. -/
theorem pg_updateLastLogin_rows (libs : Libs) (userId : UserId) (w : World PgStore) :
    (dbHelpers.updateLastLogin (pgEnv libs) userId w).2.ext.rows = w.ext.rows ∨
    (dbHelpers.updateLastLogin (pgEnv libs) userId w).2.ext.rows =
      w.ext.rows.map (fun u =>
        if u.id = userId then { u with last_login := some w.ext.clock } else u) := by
  rcases hf : w.ext.nextFault with ⟨f, s1⟩
  have hr : s1.rows = w.ext.rows := by
    have := nextFault_rows w.ext
    rw [hf] at this
    exact this
  cases f with
  | some e =>
    left
    simp [dbHelpers.updateLastLogin, pgEnv, PgStore.updateLastLoginById, hf, hr]
  | none =>
    right
    simp [dbHelpers.updateLastLogin, pgEnv, PgStore.updateLastLoginById, hf, hr]

/-- On the reference table `createUser` returns a row exactly when it appended
it; otherwise it throws and the rows are as before. -/
theorem pg_createUser_rows (libs : Libs) (userData : UserData) (w : World PgStore) :
    (∃ u : User, (dbHelpers.createUser (pgEnv libs) userData w).1 = .ok (some u) ∧
      u.email = userData.email ∧
      (dbHelpers.createUser (pgEnv libs) userData w).2.ext.rows = w.ext.rows ++ [u]) ∨
    (∃ m : String, (dbHelpers.createUser (pgEnv libs) userData w).1 = .error m ∧
      (dbHelpers.createUser (pgEnv libs) userData w).2.ext.rows = w.ext.rows) := by
  rcases hf : w.ext.nextFault with ⟨f, s1⟩
  have hr : s1.rows = w.ext.rows := by
    have := nextFault_rows w.ext
    rw [hf] at this
    exact this
  cases f with
  | some e =>
    right
    exact ⟨"Failed to create user: " ++ e.message,
      by simp [dbHelpers.createUser, pgEnv, PgStore.insertSingle, hf],
      by simp [dbHelpers.createUser, pgEnv, PgStore.insertSingle, hf, hr]⟩
  | none =>
    by_cases hE : (s1.byEmail userData.email).isEmpty
    · left
      refine ⟨(newUserRow userData w.ext.clock).toUser (freshId s1.rows), ?_, ?_, ?_⟩
      · simp [dbHelpers.createUser, pgEnv, PgStore.insertSingle, hf, newUserRow, hE]
      · simp [NewUser.toUser, newUserRow]
      · simp [dbHelpers.createUser, pgEnv, PgStore.insertSingle, hf, newUserRow, hE, hr]
    · right
      exact ⟨"Failed to create user: " ++ uniqueViolation.message,
        by simp [dbHelpers.createUser, pgEnv, PgStore.insertSingle, hf, newUserRow, hE],
        by simp [dbHelpers.createUser, pgEnv, PgStore.insertSingle, hf, newUserRow, hE, hr]⟩

/-- The update of `last_login` on the table: either the store fails and the
rows stay, or the rows with the id get the stamp. -/
theorem pg_update_rows (userId : UserId) (ts : Timestamp) (s : PgStore) :
    (PgStore.updateLastLoginById userId ts s).2.rows = s.rows ∨
    (PgStore.updateLastLoginById userId ts s).2.rows =
      s.rows.map (fun u => if u.id = userId then { u with last_login := some ts } else u) := by
  rcases hf : s.nextFault with ⟨f, s1⟩
  have hr : s1.rows = s.rows := by
    have := nextFault_rows s
    rw [hf] at this
    exact this
  cases f with
  | some e => left; simp [PgStore.updateLastLoginById, hf, hr]
  | none => right; simp [PgStore.updateLastLoginById, hf, hr]

/-- Stamping `last_login` changes nothing else of the rows. -/
theorem map_sansLastLogin_stamp (userId : UserId) (ts : Timestamp) (rows : List User) :
    (rows.map (fun u => if u.id = userId then { u with last_login := some ts } else u)).map
      User.sansLastLogin = rows.map User.sansLastLogin := by
  rw [List.map_map]
  apply List.map_congr_left
  intro u _
  by_cases h : u.id = userId <;> simp [h, User.sansLastLogin]

/-- The rows after login on the reference table. -/
theorem pg_login_rows (libs : Libs) (body : LoginBody) (w : World PgStore) :
    ((login (pgEnv libs) body w).1.status ≠ 200 →
      (login (pgEnv libs) body w).2.ext.rows = w.ext.rows) ∧
    ((login (pgEnv libs) body w).1.status = 200 →
      ∃ user ∈ w.ext.rows, user.email = body.email ∧
        ((login (pgEnv libs) body w).2.ext.rows = w.ext.rows ∨
         ∃ ts : Timestamp, (login (pgEnv libs) body w).2.ext.rows =
           w.ext.rows.map (fun u =>
             if u.id = user.id then { u with last_login := some ts } else u))) := by
  rcases hF : dbHelpers.findUserByEmail (pgEnv libs) body.email w with ⟨rF, w1⟩
  have hR1 : w1.ext.rows = w.ext.rows := by
    have := pg_findUserByEmail_rows libs body.email w
    rw [hF] at this
    exact this
  rcases rF with m | _ | user
  · have hL : login (pgEnv libs) body w = (loginFailed m, w1) := by simp [login, hF]
    rw [hL]
    exact ⟨fun _ => hR1, fun h => absurd h (by simp [loginFailed])⟩
  · have hL : login (pgEnv libs) body w = (invalidCredentials, w1) := by
      simp [login, hF, invalidCredentials]
    rw [hL]
    exact ⟨fun _ => hR1, fun h => absurd h (by simp [invalidCredentials])⟩
  · cases hC : (pgEnv libs).bcryptCompare body.password user.password_hash with
    | error m =>
      have hL : (login (pgEnv libs) body w).1 = loginFailed m ∧
          (login (pgEnv libs) body w).2.ext = w1.ext := by
        simp [login, hF, comparePassword, hC]
      rw [hL.1, hL.2]
      exact ⟨fun _ => hR1, fun h => absurd h (by simp [loginFailed])⟩
    | ok verified =>
      cases verified with
      | false =>
        have hL : (login (pgEnv libs) body w).1 = invalidCredentials ∧
            (login (pgEnv libs) body w).2.ext = w1.ext := by
          simp [login, hF, comparePassword, hC, invalidCredentials]
        rw [hL.1, hL.2]
        exact ⟨fun _ => hR1, fun h => absurd h (by simp [invalidCredentials])⟩
      | true =>
        obtain ⟨hMem, hEmail⟩ := pg_findUserByEmail_some libs body.email w w1 user hF
        rw [login_success (pgEnv libs) body w w1 user hF hC]
        refine ⟨fun h => absurd rfl h, fun _ => ⟨user, hMem, hEmail, ?_⟩⟩
        rcases pg_update_rows user.id w1.ext.clock w1.ext with h | h
        · left
          exact h.trans hR1
        · right
          exact ⟨w1.ext.clock, by rw [← hR1]; exact h⟩

/-- The rows after register on the reference table. -/
theorem pg_register_rows (libs : Libs) (body : RegisterBody) (w : World PgStore) :
    ((register (pgEnv libs) body w).1.status = 201 →
      ∃ u : User, u.email = body.email ∧
        (register (pgEnv libs) body w).2.ext.rows = w.ext.rows ++ [u]) ∧
    ((register (pgEnv libs) body w).1.status ≠ 201 →
      (register (pgEnv libs) body w).2.ext.rows = w.ext.rows) := by
  rcases hF : dbHelpers.findUserByEmail (pgEnv libs) body.email w with ⟨rF, w1⟩
  have hR1 : w1.ext.rows = w.ext.rows := by
    have := pg_findUserByEmail_rows libs body.email w
    rw [hF] at this
    exact this
  rcases rF with m | _ | found
  · have hL : register (pgEnv libs) body w = (registrationFailed m, w1) := by
      simp [register, hF]
    rw [hL]
    exact ⟨fun h => absurd h (by simp [registrationFailed]), fun _ => hR1⟩
  · rcases hH : hashPassword (pgEnv libs) body.password 10 w1 with ⟨rH, w2⟩
    have hR2 : w2.ext.rows = w1.ext.rows := by
      have := (pg_hashPassword_rows libs body.password 10 w1).1
      rw [hH] at this
      exact this
    rcases rH with m | hashed
    · have hL : register (pgEnv libs) body w = (registrationFailed m, w2) := by
        simp [register, hF, hH]
      rw [hL]
      exact ⟨fun h => absurd h (by simp [registrationFailed]), fun _ => hR2.trans hR1⟩
    · rcases hC : dbHelpers.createUser (pgEnv libs) (registerUserData body hashed) w2
        with ⟨rC, w3⟩
      rcases pg_createUser_rows libs (registerUserData body hashed) w2 with
        ⟨u, hu, hEmail, hRows⟩ | ⟨m, hm, hRows⟩
      · rw [hC] at hu hRows
        simp only at hu hRows
        subst hu
        have hL : (register (pgEnv libs) body w).1.status = 201 ∧
            (register (pgEnv libs) body w).2.ext = w3.ext := by
          simp [register, hF, hH, hC, signToken]
        rw [hL.1, hL.2]
        refine ⟨fun _ => ⟨u, hEmail, ?_⟩, fun h => absurd rfl h⟩
        rw [hRows, hR2, hR1]
      · rw [hC] at hm hRows
        simp only at hm hRows
        subst hm
        have hL : register (pgEnv libs) body w = (registrationFailed m, w3) := by
          simp [register, hF, hH, hC]
        rw [hL]
        exact ⟨fun h => absurd h (by simp [registrationFailed]),
          fun _ => hRows.trans (hR2.trans hR1)⟩
  · have hL : register (pgEnv libs) body w = (userAlreadyExists, w1) := by
      simp [register, hF, userAlreadyExists]
    rw [hL]
    exact ⟨fun h => absurd h (by simp [userAlreadyExists]), fun _ => hR1⟩

/-- The rows after profile and after refresh on the reference table. -/
theorem pg_profile_refresh_rows (libs : Libs) (req : AuthRequest) (w : World PgStore) :
    (profile (pgEnv libs) req w).2.ext.rows = w.ext.rows ∧
    (refresh (pgEnv libs) req w).2.ext.rows = w.ext.rows := by
  cases hB : missingBearer req.authorization with
  | true => simp [profile, refresh, hB]
  | false =>
    cases hV : (pgEnv libs).jwtVerify (substring7 (req.authorization.getD ""))
        (jwtSecret (pgEnv libs)) ((pgEnv libs).now w.ext) with
    | error m => simp [profile, refresh, hB, verifyToken, hV]
    | ok decoded =>
      have hR := pg_getUserById_rows libs decoded.id
        ⟨w.ext, w.calls ++ [.jwtVerify (substring7 (req.authorization.getD ""))
          (jwtSecret (pgEnv libs))]⟩
      rcases hG : dbHelpers.getUserById (pgEnv libs) decoded.id
        ⟨w.ext, w.calls ++ [.jwtVerify (substring7 (req.authorization.getD ""))
          (jwtSecret (pgEnv libs))]⟩ with ⟨rG, w2⟩
      rw [hG] at hR
      simp only at hR
      rcases rG with m | _ | user <;>
        simp [profile, refresh, hB, verifyToken, hV, hG, hR, signToken]

/-- C18: on the reference table, whatever the request and the state: a login
not answered 200 leaves the rows as they were, and a login answered 200
leaves them or stamps `last_login` on the rows carrying the id of the user
found by email, nothing else; a register answered 201 appends exactly one row
(with the email of the request) and any other register leaves the rows;
profile, refresh and logout leave the rows.  Rows blanked of `last_login` are
never changed or removed by login, so no endpoint deletes a row or updates
another field. -/
theorem endpoints_frame (libs : Libs) (w : World PgStore) :
    (∀ body : LoginBody,
      ((login (pgEnv libs) body w).1.status ≠ 200 →
        (login (pgEnv libs) body w).2.ext.rows = w.ext.rows) ∧
      ((login (pgEnv libs) body w).1.status = 200 →
        ∃ user ∈ w.ext.rows, user.email = body.email ∧
          ((login (pgEnv libs) body w).2.ext.rows = w.ext.rows ∨
           ∃ ts : Timestamp, (login (pgEnv libs) body w).2.ext.rows =
             w.ext.rows.map (fun u =>
               if u.id = user.id then { u with last_login := some ts } else u))) ∧
      (login (pgEnv libs) body w).2.ext.rows.map User.sansLastLogin =
        w.ext.rows.map User.sansLastLogin) ∧
    (∀ body : RegisterBody,
      ((register (pgEnv libs) body w).1.status = 201 →
        ∃ u : User, u.email = body.email ∧
          (register (pgEnv libs) body w).2.ext.rows = w.ext.rows ++ [u]) ∧
      ((register (pgEnv libs) body w).1.status ≠ 201 →
        (register (pgEnv libs) body w).2.ext.rows = w.ext.rows)) ∧
    (∀ req : AuthRequest,
      (profile (pgEnv libs) req w).2.ext.rows = w.ext.rows ∧
      (refresh (pgEnv libs) req w).2.ext.rows = w.ext.rows) ∧
    (∀ (req : AuthRequest) (body : RawBody),
      (logoutRoute (pgEnv libs) req body w).2.ext.rows = w.ext.rows) := by
  refine ⟨?_, fun body => pg_register_rows libs body w,
    fun req => pg_profile_refresh_rows libs req w, fun _ _ => rfl⟩
  intro body
  obtain ⟨hFail, hOk⟩ := pg_login_rows libs body w
  refine ⟨hFail, hOk, ?_⟩
  by_cases hS : (login (pgEnv libs) body w).1.status = 200
  · obtain ⟨user, _, _, h | ⟨ts, h⟩⟩ := hOk hS
    · rw [h]
    · rw [h, map_sansLastLogin_stamp]
  · rw [hFail hS]

/-- Witness of C18: on the store that holds `asha`, a login with her password
stamps her row, a login with a wrong password and a registration of her email
leave the rows, and a registration of a new email appends one row. -/
theorem endpoints_frame_witness :
    (login (pgEnv sampleLibs) ⟨"asha@example.com", "secret1"⟩ ⟨ashaStore, []⟩).2.ext.rows =
      [{ asha with last_login := some 2000 }] ∧
    (login (pgEnv sampleLibs) ⟨"asha@example.com", "not-secret1"⟩ ⟨ashaStore, []⟩).2.ext.rows =
      ashaStore.rows ∧
    (register (pgEnv sampleLibs) ashaBody ⟨ashaStore, []⟩).2.ext.rows = ashaStore.rows ∧
    (∃ u : User, u.email = "ravi@example.com" ∧
      (register (pgEnv sampleLibs) { ashaBody with name := "Ravi", email := "ravi@example.com" }
        ⟨ashaStore, []⟩).2.ext.rows = ashaStore.rows ++ [u]) ∧
    ((profile (pgEnv sampleLibs) ashaBearer ⟨ashaStore, []⟩).2.ext.rows = ashaStore.rows ∧
      (refresh (pgEnv sampleLibs) ashaBearer ⟨ashaStore, []⟩).2.ext.rows = ashaStore.rows) :=
  ⟨rfl,
   ((endpoints_frame sampleLibs ⟨ashaStore, []⟩).1 ⟨"asha@example.com", "not-secret1"⟩).1
      (by decide),
   ((endpoints_frame sampleLibs ⟨ashaStore, []⟩).2.1 ashaBody).2 (by decide),
   ((endpoints_frame sampleLibs ⟨ashaStore, []⟩).2.1
      { ashaBody with name := "Ravi", email := "ravi@example.com" }).1 rfl,
   (endpoints_frame sampleLibs ⟨ashaStore, []⟩).2.2.1 ashaBearer⟩

/-! ### The register schema -/

/-- The empty string has length zero. -/
theorem ne_empty_of_jsLength_pos (s : String) (h : 0 < jsLength s) : s ≠ "" := by
  intro hs
  subst hs
  simp [jsLength] at h

/-- When Joi accepts a value under a `Joi.string()` key. -/
theorem joiString_accepted_iff (isEmail : String → Bool) (key : String)
    (rules : List StringRule) (presence : Presence) (v : JVal) :
    accepted (joiString isEmail key rules presence v) = true ↔
      (v = .undefined ∧ presence ≠ .required) ∨
      (∃ s : String, v = .str s ∧ s ≠ "" ∧ rules.all (fun r => r.holds isEmail s) = true) := by
  cases v with
  | undefined => cases presence <;> simp [joiString, accepted]
  | null => simp [joiString, accepted]
  | bool b => simp [joiString, accepted]
  | num n => simp [joiString, accepted]
  | str s =>
    by_cases hs : s = ""
    · simp [joiString, accepted, hs]
    · by_cases hr : rules.all (fun r => r.holds isEmail s) = true
      · simp only [joiString, hs, if_false, hr, if_true, accepted, true_iff]
        exact Or.inr ⟨s, rfl, hs, hr⟩
      · have hj : accepted (joiString isEmail key rules presence (.str s)) = false := by
          simp [joiString, hs, hr, accepted]
        rw [hj]
        constructor
        · intro h
          exact absurd h (by decide)
        · rintro (⟨h, _⟩ | ⟨t, ht, _, hall⟩)
          · exact absurd h (by simp)
          · have : s = t := by simpa using ht
            subst this
            exact absurd hall hr

/-- A required key that Joi accepts yields a string. -/
theorem joiString_required_some (isEmail : String → Bool) (key : String)
    (rules : List StringRule) (v : JVal)
    (h : accepted (joiString isEmail key rules .required v) = true) :
    ∃ s : String, joiString isEmail key rules .required v = .ok (some s) := by
  cases v with
  | undefined => simp [joiString, accepted] at h
  | null => simp [joiString, accepted] at h
  | bool b => simp [joiString, accepted] at h
  | num n => simp [joiString, accepted] at h
  | str s =>
    by_cases hs : s = ""
    · simp [joiString, accepted, hs] at h
    · by_cases hr : rules.all (fun r => r.holds isEmail s) = true
      · exact ⟨s, by simp [joiString, hs, hr]⟩
      · simp [joiString, accepted, hs, hr] at h

/-- An accepted result is an `ok`. -/
theorem ok_of_accepted {α : Type} (r : Except String α) (h : accepted r = true) :
    ∃ a, r = .ok a := by
  cases r with
  | ok a => exact ⟨a, rfl⟩
  | error e => simp [accepted] at h

/-- The schema `registerSchema` accepts a body exactly when the body has no
unknown key and Joi accepts each of the nine keys. -/
theorem registerSchema_accepted_iff (isEmail : String → Bool) (body : RawBody) :
    accepted (registerSchema isEmail body) = true ↔
      unknownKeys ["name", "email", "password", "role", "phone", "location", "region",
        "state", "district"] body = [] ∧
      accepted (joiString isEmail "name" [.min 2, .max 100] .required (body.get "name")) = true ∧
      accepted (joiString isEmail "email" [.email] .required (body.get "email")) = true ∧
      accepted (joiString isEmail "password" [.min 6] .required (body.get "password")) = true ∧
      accepted (joiString isEmail "role" [.valid registerRoles] (.default "farmer")
        (body.get "role")) = true ∧
      accepted (joiString isEmail "phone" [] .optional (body.get "phone")) = true ∧
      accepted (joiString isEmail "location" [] .optional (body.get "location")) = true ∧
      accepted (joiString isEmail "region" [] .optional (body.get "region")) = true ∧
      accepted (joiString isEmail "state" [] .optional (body.get "state")) = true ∧
      accepted (joiString isEmail "district" [] .optional (body.get "district")) = true := by
  constructor
  · intro h
    unfold registerSchema at h
    split at h
    · simp [accepted] at h
    · rename_i hKeys
      split at h
      · rename_i h1 h2 h3 h4 h5 h6 h7 h8 h9
        simp [hKeys, h1, h2, h3, h4, h5, h6, h7, h8, h9, accepted]
      · simp [accepted] at h
  · rintro ⟨hKeys, h1, h2, h3, h4, h5, h6, h7, h8, h9⟩
    obtain ⟨n, e1⟩ := joiString_required_some isEmail _ _ _ h1
    obtain ⟨e, e2⟩ := joiString_required_some isEmail _ _ _ h2
    obtain ⟨p, e3⟩ := joiString_required_some isEmail _ _ _ h3
    obtain ⟨r, e4⟩ := ok_of_accepted _ h4
    obtain ⟨a5, e5⟩ := ok_of_accepted _ h5
    obtain ⟨a6, e6⟩ := ok_of_accepted _ h6
    obtain ⟨a7, e7⟩ := ok_of_accepted _ h7
    obtain ⟨a8, e8⟩ := ok_of_accepted _ h8
    obtain ⟨a9, e9⟩ := ok_of_accepted _ h9
    simp [registerSchema, hKeys, e1, e2, e3, e4, e5, e6, e7, e8, e9, accepted]

/-- Joi accepts the `name` key exactly for a string of 2 to 100 code units. -/
theorem name_accepted_iff (isEmail : String → Bool) (v : JVal) :
    accepted (joiString isEmail "name" [.min 2, .max 100] .required v) = true ↔
      ∃ n : String, v = .str n ∧ 2 ≤ jsLength n ∧ jsLength n ≤ 100 := by
  rw [joiString_accepted_iff]
  constructor
  · rintro (⟨_, h⟩ | ⟨s, hv, _, hall⟩)
    · exact absurd rfl h
    · exact ⟨s, hv, by simpa [StringRule.holds] using hall⟩
  · rintro ⟨n, hv, h2, h100⟩
    exact Or.inr ⟨n, hv, ne_empty_of_jsLength_pos n (by omega),
      by simp [StringRule.holds, h2, h100]⟩

/-- Joi accepts the `password` key exactly for a string of at least 6 code
units. -/
theorem password_accepted_iff (isEmail : String → Bool) (v : JVal) :
    accepted (joiString isEmail "password" [.min 6] .required v) = true ↔
      ∃ p : String, v = .str p ∧ 6 ≤ jsLength p := by
  rw [joiString_accepted_iff]
  constructor
  · rintro (⟨_, h⟩ | ⟨s, hv, _, hall⟩)
    · exact absurd rfl h
    · exact ⟨s, hv, by simpa [StringRule.holds] using hall⟩
  · rintro ⟨p, hv, h6⟩
    exact Or.inr ⟨p, hv, ne_empty_of_jsLength_pos p (by omega), by simp [StringRule.holds, h6]⟩

/-- Joi accepts a string under the `role` key exactly when it is one of the
five names of `registerRoles`. -/
theorem role_accepted_iff (isEmail : String → Bool) (r : String) :
    accepted (joiString isEmail "role" [.valid registerRoles] (.default "farmer")
      (.str r)) = true ↔ r ∈ registerRoles := by
  rw [joiString_accepted_iff]
  constructor
  · rintro (⟨h, _⟩ | ⟨s, hv, _, hall⟩)
    · exact absurd h (by simp)
    · have hs : r = s := by simpa using hv
      subst hs
      simpa [StringRule.holds] using hall
  · intro hr
    refine Or.inr ⟨r, rfl, ?_, by simpa [StringRule.holds] using hr⟩
    intro he
    subst he
    simp [registerRoles] at hr

/-- C19: for a body without unknown keys whose email, role and optional keys
Joi accepts, `registerSchema` accepts the body if and only if `name` is a
string of 2 to 100 UTF-16 code units and `password` is a string of at least 6
code units.  At the bounds: names of 1 and 101 letters and a password of 5
letters are rejected, names of 2 and 100 letters and a password of 6 letters
are accepted. -/
theorem registerSchema_name_password_bounds (isEmail : String → Bool) (body : RawBody)
    (hKeys : unknownKeys ["name", "email", "password", "role", "phone", "location", "region",
      "state", "district"] body = [])
    (hEmail : accepted (joiString isEmail "email" [.email] .required (body.get "email")) = true)
    (hRole : accepted (joiString isEmail "role" [.valid registerRoles] (.default "farmer")
      (body.get "role")) = true)
    (hPhone : accepted (joiString isEmail "phone" [] .optional (body.get "phone")) = true)
    (hLocation : accepted (joiString isEmail "location" [] .optional
      (body.get "location")) = true)
    (hRegion : accepted (joiString isEmail "region" [] .optional (body.get "region")) = true)
    (hState : accepted (joiString isEmail "state" [] .optional (body.get "state")) = true)
    (hDistrict : accepted (joiString isEmail "district" [] .optional
      (body.get "district")) = true) :
    (accepted (registerSchema isEmail body) = true ↔
      ∃ n p : String, body.get "name" = .str n ∧ 2 ≤ jsLength n ∧ jsLength n ≤ 100 ∧
        body.get "password" = .str p ∧ 6 ≤ jsLength p) ∧
    accepted (registerSchema sampleIsEmail (registerRaw (letters 1) "secret1")) = false ∧
    accepted (registerSchema sampleIsEmail (registerRaw (letters 2) "secret1")) = true ∧
    accepted (registerSchema sampleIsEmail (registerRaw (letters 100) "secret1")) = true ∧
    accepted (registerSchema sampleIsEmail (registerRaw (letters 101) "secret1")) = false ∧
    accepted (registerSchema sampleIsEmail (registerRaw "Asha" (letters 5))) = false ∧
    accepted (registerSchema sampleIsEmail (registerRaw "Asha" (letters 6))) = true := by
  refine ⟨?_, rfl, rfl, rfl, rfl, rfl, rfl⟩
  rw [registerSchema_accepted_iff, name_accepted_iff, password_accepted_iff]
  constructor
  · rintro ⟨_, ⟨n, hn, h2, h100⟩, _, ⟨p, hp, h6⟩, _⟩
    exact ⟨n, p, hn, h2, h100, hp, h6⟩
  · rintro ⟨n, p, hn, h2, h100, hp, h6⟩
    exact ⟨hKeys, ⟨n, hn, h2, h100⟩, hEmail, ⟨p, hp, h6⟩, hRole, hPhone, hLocation, hRegion,
      hState, hDistrict⟩

/-- Witness of C19: the body of the scenario, name `Asha`, password
`secret1`. -/
theorem registerSchema_name_password_bounds_witness :
    accepted (registerSchema sampleIsEmail (registerRaw "Asha" "secret1")) = true ↔
      ∃ n p : String, (registerRaw "Asha" "secret1").get "name" = .str n ∧ 2 ≤ jsLength n ∧
        jsLength n ≤ 100 ∧ (registerRaw "Asha" "secret1").get "password" = .str p ∧
        6 ≤ jsLength p :=
  (registerSchema_name_password_bounds sampleIsEmail (registerRaw "Asha" "secret1")
    rfl rfl rfl rfl rfl rfl rfl rfl).1

/-- C20, as stated, fails: a register request with role `field-worker` is
rejected by `registerSchema`, and one with role `flw`, which is not in the
enumeration of the claim, is accepted. -/
theorem registerSchema_rejects_field_worker :
    accepted (registerSchema sampleIsEmail (registerRawWithRole "field-worker")) = false ∧
    accepted (registerSchema sampleIsEmail (registerRawWithRole "flw")) = true ∧
    "flw" ∉ ["farmer", "veterinarian", "expert", "field-worker", "admin"] ∧
    accepted (registerSchema sampleIsEmail (registerRaw "Asha" "secret1")) = true := by
  refine ⟨rfl, rfl, by decide, rfl⟩

/-- The value under a key other than the one put in front. -/
theorem get_cons_role (body : RawBody) (v : JVal) (key : String) (h : key ≠ "role") :
    RawBody.get (("role", v) :: body) key = body.get key := by
  have hb : ("role" == key) = false := by
    simpa using fun he : "role" = key => h he.symm
  simp [RawBody.get, List.find?, hb]

/-- C20, amended: the roles accepted at registration are exactly `farmer`,
`veterinarian`, `expert`, `flw` and `admin`: putting a role string in front of
a body that `registerSchema` accepts gives a body that is accepted if and only
if the string is one of these five. -/
theorem registerSchema_roles (isEmail : String → Bool) (body : RawBody) (role : String)
    (hBody : accepted (registerSchema isEmail body) = true) :
    registerRoles = ["farmer", "veterinarian", "expert", "flw", "admin"] ∧
    (accepted (registerSchema isEmail (("role", .str role) :: body)) = true ↔
      role ∈ ["farmer", "veterinarian", "expert", "flw", "admin"]) := by
  refine ⟨rfl, ?_⟩
  rw [registerSchema_accepted_iff] at hBody ⊢
  obtain ⟨hKeys, h1, h2, h3, _, h5, h6, h7, h8, h9⟩ := hBody
  have hK : unknownKeys ["name", "email", "password", "role", "phone", "location", "region",
      "state", "district"] (("role", .str role) :: body) = [] := by
    have : unknownKeys ["name", "email", "password", "role", "phone", "location", "region",
        "state", "district"] (("role", .str role) :: body) =
        unknownKeys ["name", "email", "password", "role", "phone", "location", "region",
          "state", "district"] body := by
      simp [unknownKeys, List.filter_cons]
    rw [this, hKeys]
  have hR : RawBody.get (("role", JVal.str role) :: body) "role" = .str role := by
    simp [RawBody.get, List.find?]
  rw [get_cons_role body _ "name" (by decide), get_cons_role body _ "email" (by decide),
    get_cons_role body _ "password" (by decide), get_cons_role body _ "phone" (by decide),
    get_cons_role body _ "location" (by decide), get_cons_role body _ "region" (by decide),
    get_cons_role body _ "state" (by decide), get_cons_role body _ "district" (by decide),
    hR, role_accepted_iff]
  constructor
  · rintro ⟨_, _, _, _, h, _⟩
    exact h
  · intro h
    exact ⟨hK, h1, h2, h3, h, h5, h6, h7, h8, h9⟩

/-- Witness of C20 (amended): the role `flw` in front of the body of the
scenario. -/
theorem registerSchema_roles_witness :
    registerRoles = ["farmer", "veterinarian", "expert", "flw", "admin"] ∧
    (accepted (registerSchema sampleIsEmail
        (("role", .str "flw") :: registerRaw "Asha" "secret1")) = true ↔
      "flw" ∈ ["farmer", "veterinarian", "expert", "flw", "admin"]) :=
  registerSchema_roles sampleIsEmail (registerRaw "Asha" "secret1") "flw" rfl

/-! ### A registration on a table without the email -/

/-- On the reference table without failures, registering an email that no row
carries is answered 201 with the token and the user object of the stored
row, and the table gains that row. -/
theorem pg_register_fresh (libs : Libs) (body : RegisterBody) (s : PgStore)
    (calls : List Call) (hashedPassword : String)
    (hFaults : s.faults = []) (hFresh : s.byEmail body.email = [])
    (hHash : libs.bcryptHash body.password 10 s.salt = .ok hashedPassword) :
    (register (pgEnv libs) body ⟨s, calls⟩).1 =
      ⟨201, .obj [("success", .bool true),
        ("data", .obj [("token", .str (libs.jwtSign
            ⟨(registeredRow body hashedPassword s).id, (registeredRow body hashedPassword s).email,
              (registeredRow body hashedPassword s).role,
              (registeredRow body hashedPassword s).name⟩
            (jwtSecret (pgEnv libs)) expiresIn24h s.clock)),
          ("user", registerUserJson (registeredRow body hashedPassword s))])]⟩ ∧
    (register (pgEnv libs) body ⟨s, calls⟩).2.ext =
      { s with salt := s.salt + 1, rows := s.rows ++ [registeredRow body hashedPassword s] } := by
  have hEmpty : s.rows.filter (fun u => decide (u.email = body.email)) = [] := hFresh
  constructor <;>
    simp [register, dbHelpers.findUserByEmail, pgEnv, PgStore.selectByEmailSingle,
      PgStore.nextFault, hFaults, PgStore.byEmail, hEmpty, single, notSingleRow, hashPassword,
      hHash, dbHelpers.createUser, PgStore.insertSingle, newUserRow, registerUserData,
      signToken, registeredRow, jwtSecret]

/-- A body that `registerSchema` accepts without a `role` key carries the
default role `farmer`. -/
theorem registerSchema_default_role (isEmail : String → Bool) (raw : RawBody)
    (b : RegisterBody) (h : registerSchema isEmail raw = .ok b)
    (hOmitted : raw.get "role" = .undefined) : b.role = some "farmer" := by
  unfold registerSchema at h
  split at h
  · simp at h
  · split at h
    · rename_i h1 h2 h3 h4 h5 h6 h7 h8 h9
      rw [hOmitted] at h4
      simp only [joiString, Except.ok.injEq] at h4
      simp only [Except.ok.injEq] at h
      rw [← h, ← h4]
    · simp at h

/-- C21: on the reference table without failures, a registration whose body
has no role (or the role `farmer` that `registerSchema` fills in for an
omitted key) and whose email no row carries is answered 201; the row stored,
the `role` of the response's user object and, under `JwtRoundTrip`, the role
claim of the returned token are all `farmer`. -/
theorem register_default_role (libs : Libs) (body : RegisterBody) (s : PgStore)
    (calls : List Call) (hashedPassword : String)
    (hLaw : JwtRoundTrip (pgEnv libs))
    (hFaults : s.faults = []) (hFresh : s.byEmail body.email = [])
    (hHash : libs.bcryptHash body.password 10 s.salt = .ok hashedPassword)
    (hRole : body.role = none ∨ body.role = some "farmer") :
    (∀ (isEmail : String → Bool) (raw : RawBody) (b : RegisterBody),
      registerSchema isEmail raw = .ok b → raw.get "role" = .undefined →
      b.role = some "farmer") ∧
    (register (pgEnv libs) body ⟨s, calls⟩).1.status = 201 ∧
    (register (pgEnv libs) body ⟨s, calls⟩).2.ext.rows =
      s.rows ++ [registeredRow body hashedPassword s] ∧
    (registeredRow body hashedPassword s).role = "farmer" ∧
    ((register (pgEnv libs) body ⟨s, calls⟩).1.user).bind (Json.field "role") =
      some (.str "farmer") ∧
    (∃ token : String, (register (pgEnv libs) body ⟨s, calls⟩).1.token = some token ∧
      ∀ now : Timestamp, now / 1000 < s.clock / 1000 + 86400 →
        ∃ d : Decoded, libs.jwtVerify token (jwtSecret (pgEnv libs)) now = .ok d ∧
          d.role = "farmer") := by
  obtain ⟨hResp, hExt⟩ := pg_register_fresh libs body s calls hashedPassword hFaults hFresh hHash
  have hFarmer : (registeredRow body hashedPassword s).role = "farmer" := by
    rcases hRole with h | h <;>
      simp [registeredRow, NewUser.toUser, newUserRow, registerUserData, h, jsOr]
  refine ⟨registerSchema_default_role, ?_, ?_, hFarmer, ?_, ?_⟩
  · rw [hResp]
  · rw [hExt]
  · rw [hResp]
    simp [Response.user, Json.field, registerUserJson, hFarmer]
  · refine ⟨libs.jwtSign
      ⟨(registeredRow body hashedPassword s).id, (registeredRow body hashedPassword s).email,
        (registeredRow body hashedPassword s).role, (registeredRow body hashedPassword s).name⟩
      (jwtSecret (pgEnv libs)) expiresIn24h s.clock, ?_, ?_⟩
    · rw [hResp]
      rfl
    · intro now hNow
      exact ⟨_, hLaw _ (jwtSecret (pgEnv libs)) expiresIn24h s.clock now hNow, hFarmer⟩

/-- Witness of C21: the body of the scenario, `Asha` without a role, on an
empty table with the symbolic token service. -/
theorem register_default_role_witness :
    (register (pgEnv symbolicLibs) ashaBody ⟨emptyStore, []⟩).1.status = 201 ∧
    (register (pgEnv symbolicLibs) ashaBody ⟨emptyStore, []⟩).2.ext.rows =
      emptyStore.rows ++ [registeredRow ashaBody "$2a$10$secret1" emptyStore] ∧
    (registeredRow ashaBody "$2a$10$secret1" emptyStore).role = "farmer" ∧
    ((register (pgEnv symbolicLibs) ashaBody ⟨emptyStore, []⟩).1.user).bind
      (Json.field "role") = some (.str "farmer") ∧
    (∃ token : String,
      (register (pgEnv symbolicLibs) ashaBody ⟨emptyStore, []⟩).1.token = some token ∧
      ∀ now : Timestamp, now / 1000 < emptyStore.clock / 1000 + 86400 →
        ∃ d : Decoded,
          symbolicLibs.jwtVerify token (jwtSecret (pgEnv symbolicLibs)) now = .ok d ∧
          d.role = "farmer") :=
  (register_default_role symbolicLibs ashaBody emptyStore [] "$2a$10$secret1"
    symbolicLibs_roundTrip rfl rfl rfl (Or.inl rfl)).2

/-! ### Register, then login, then profile -/

/-- Every row has an id below the fresh one. -/
theorem id_lt_freshId (rows : List User) (u : User) (h : u ∈ rows) : u.id < freshId rows := by
  unfold freshId
  induction rows with
  | nil => simp at h
  | cons x xs ih =>
    simp only [List.map_cons, List.foldr_cons]
    rcases List.mem_cons.mp h with hx | hx
    · subst hx
      exact Nat.lt_succ_of_le (le_max_left _ _)
    · exact lt_of_lt_of_le (ih hx) (Nat.succ_le_succ (le_max_right _ _))

/-- On the reference table without failures, a login with the email of exactly
one row and a password that verifies is answered 200 and stamps that row. -/
theorem pg_login_found (libs : Libs) (body : LoginBody) (s : PgStore) (calls : List Call)
    (row : User) (hFaults : s.faults = []) (hFound : s.byEmail body.email = [row])
    (hCompare : libs.bcryptCompare body.password row.password_hash = .ok true) :
    (login (pgEnv libs) body ⟨s, calls⟩).1 =
      ⟨200, .obj [("success", .bool true),
        ("data", .obj [("token", .str (libs.jwtSign ⟨row.id, row.email, row.role, row.name⟩
            (jwtSecret (pgEnv libs)) expiresIn24h s.clock)),
          ("user", loginUserJson row s.clock)])]⟩ ∧
    (login (pgEnv libs) body ⟨s, calls⟩).2.ext =
      { s with rows := s.rows.map (fun u =>
          if u.id = row.id then { u with last_login := some s.clock } else u) } := by
  have hN := nextFault_of_no_faults s hFaults
  have hFind : dbHelpers.findUserByEmail (pgEnv libs) body.email ⟨s, calls⟩ =
      (.ok (some row), ⟨s, calls ++ [.selectByEmail body.email]⟩) := by
    rw [pg_findUserByEmail libs body.email ⟨s, calls⟩ (by simp only [hN])]
    simp [hFound, single, hN]
  rw [login_success (pgEnv libs) body ⟨s, calls⟩ _ row hFind hCompare]
  constructor <;> simp [pgEnv, PgStore.updateLastLoginById, hN]

/-- On the reference table without failures, a profile request whose token
verifies to an id that exactly one row carries is answered 200 with the
projection of that row. -/
theorem pg_profile_found (libs : Libs) (token : String) (s : PgStore) (calls : List Call)
    (decoded : Decoded) (row : User) (hFaults : s.faults = [])
    (hVerify : libs.jwtVerify token (jwtSecret (pgEnv libs)) s.clock = .ok decoded)
    (hFound : s.byId decoded.id = [row]) :
    (profile (pgEnv libs) ⟨some ("Bearer " ++ token)⟩ ⟨s, calls⟩).1 =
      ⟨200, .obj [("success", .bool true), ("data", profileJson row)]⟩ := by
  have hN := nextFault_of_no_faults s hFaults
  have hV : (pgEnv libs).jwtVerify token (jwtSecret (pgEnv libs)) s.clock = .ok decoded := hVerify
  simp [profile, missingBearer_bearer, substring7_bearer, verifyToken, hV,
    dbHelpers.getUserById, PgStore.selectByIdSingle, hN, hFound, single,
    show (pgEnv libs).selectByIdSingle = PgStore.selectByIdSingle from rfl,
    show ∀ t : PgStore, (pgEnv libs).now t = t.clock from fun _ => rfl]

/-- Stamping the rows with an id keeps the one row found under that id. -/
theorem byId_stamped (rows : List User) (row : User) (ts : Timestamp)
    (hOthers : ∀ u ∈ rows, u.id ≠ row.id) :
    ((rows ++ [row]).map (fun u =>
        if u.id = row.id then { u with last_login := some ts } else u)).filter
      (fun u => decide (u.id = row.id)) = [{ row with last_login := some ts }] := by
  have hRows : (rows.map (fun u =>
      if u.id = row.id then { u with last_login := some ts } else u)).filter
      (fun u => decide (u.id = row.id)) = [] := by
    rw [List.filter_eq_nil_iff]
    intro v hv
    obtain ⟨u, hu, rfl⟩ := List.mem_map.mp hv
    simp [hOthers u hu]
  simp [List.filter_append, hRows]

/-- C22: on the reference table without failures, registering an email that no
row carries stores a row whose `password_hash` is the digest the hasher
returned (the plaintext is stored only if the hasher returns it as digest)
and whose `last_login` is null; when the hasher verifies the password against
that digest, the following login with the same email and password is answered
200, and under `JwtRoundTrip` a profile request with the token of that login is
answered 200 with `lastLogin` the time of the login, not null. -/
theorem register_login_profile (libs : Libs) (body : RegisterBody) (s : PgStore)
    (calls : List Call) (hashedPassword : String)
    (hLaw : JwtRoundTrip (pgEnv libs))
    (hFaults : s.faults = []) (hFresh : s.byEmail body.email = [])
    (hHash : libs.bcryptHash body.password 10 s.salt = .ok hashedPassword)
    (hCompare : libs.bcryptCompare body.password hashedPassword = .ok true) :
    (register (pgEnv libs) body ⟨s, calls⟩).1.status = 201 ∧
    (register (pgEnv libs) body ⟨s, calls⟩).2.ext.rows =
      s.rows ++ [registeredRow body hashedPassword s] ∧
    (registeredRow body hashedPassword s).password_hash = hashedPassword ∧
    (hashedPassword ≠ body.password →
      (registeredRow body hashedPassword s).password_hash ≠ body.password) ∧
    (registeredRow body hashedPassword s).last_login = none ∧
    (login (pgEnv libs) ⟨body.email, body.password⟩
      (register (pgEnv libs) body ⟨s, calls⟩).2).1.status = 200 ∧
    (∃ token : String,
      (login (pgEnv libs) ⟨body.email, body.password⟩
        (register (pgEnv libs) body ⟨s, calls⟩).2).1.token = some token ∧
      (profile (pgEnv libs) ⟨some ("Bearer " ++ token)⟩
        (login (pgEnv libs) ⟨body.email, body.password⟩
          (register (pgEnv libs) body ⟨s, calls⟩).2).2).1.status = 200 ∧
      ((profile (pgEnv libs) ⟨some ("Bearer " ++ token)⟩
        (login (pgEnv libs) ⟨body.email, body.password⟩
          (register (pgEnv libs) body ⟨s, calls⟩).2).2).1.data).bind
        (Json.field "lastLogin") = some (.num s.clock) ∧
      ((profile (pgEnv libs) ⟨some ("Bearer " ++ token)⟩
        (login (pgEnv libs) ⟨body.email, body.password⟩
          (register (pgEnv libs) body ⟨s, calls⟩).2).2).1.data).bind
        (Json.field "lastLogin") ≠ some .null) := by
  obtain ⟨hResp, hExt⟩ := pg_register_fresh libs body s calls hashedPassword hFaults hFresh hHash
  generalize hw1 : (register (pgEnv libs) body ⟨s, calls⟩).2 = w1 at hExt ⊢
  have hEmpty : s.rows.filter (fun u => decide (u.email = body.email)) = [] := hFresh
  have hF1 : w1.ext.faults = [] := by rw [hExt]; exact hFaults
  have hC1 : w1.ext.clock = s.clock := by rw [hExt]
  have hB1 : w1.ext.byEmail body.email = [registeredRow body hashedPassword s] := by
    rw [hExt]
    simp [PgStore.byEmail, List.filter_append, hEmpty, registeredRow, NewUser.toUser,
      newUserRow, registerUserData]
  have hCmp : libs.bcryptCompare body.password
      (registeredRow body hashedPassword s).password_hash = .ok true := hCompare
  obtain ⟨hL1, hL2⟩ := pg_login_found libs ⟨body.email, body.password⟩ w1.ext w1.calls
    (registeredRow body hashedPassword s) hF1 hB1 hCmp
  have hL1' : (login (pgEnv libs) ⟨body.email, body.password⟩ w1).1 = _ := hL1
  have hL2' : (login (pgEnv libs) ⟨body.email, body.password⟩ w1).2.ext = _ := hL2
  generalize hw2 : (login (pgEnv libs) ⟨body.email, body.password⟩ w1).2 = w2 at hL2' ⊢
  have hF2 : w2.ext.faults = [] := by rw [hL2']; exact hF1
  have hC2 : w2.ext.clock = s.clock := by rw [hL2']; exact hC1
  have hOthers : ∀ u ∈ s.rows, u.id ≠ (registeredRow body hashedPassword s).id := by
    intro u hu
    have hlt : u.id < freshId s.rows := id_lt_freshId s.rows u hu
    have hid : (registeredRow body hashedPassword s).id = freshId s.rows := rfl
    rw [hid]
    exact Nat.ne_of_lt hlt
  have hI2 : w2.ext.byId (registeredRow body hashedPassword s).id =
      [{ registeredRow body hashedPassword s with last_login := some s.clock }] := by
    rw [hL2', hExt]
    exact byId_stamped s.rows (registeredRow body hashedPassword s) s.clock hOthers
  have hV : libs.jwtVerify (libs.jwtSign
      ⟨(registeredRow body hashedPassword s).id, (registeredRow body hashedPassword s).email,
        (registeredRow body hashedPassword s).role, (registeredRow body hashedPassword s).name⟩
      (jwtSecret (pgEnv libs)) expiresIn24h w1.ext.clock) (jwtSecret (pgEnv libs))
      w2.ext.clock = .ok ⟨(registeredRow body hashedPassword s).id,
        (registeredRow body hashedPassword s).email,
        (registeredRow body hashedPassword s).role,
        (registeredRow body hashedPassword s).name,
        w1.ext.clock / 1000, w1.ext.clock / 1000 + expiresIn24h⟩ :=
    hLaw _ (jwtSecret (pgEnv libs)) expiresIn24h w1.ext.clock w2.ext.clock
      (by rw [hC1, hC2]; simp [expiresIn24h])
  have hP := pg_profile_found libs _ w2.ext w2.calls _
    { registeredRow body hashedPassword s with last_login := some s.clock } hF2 hV hI2
  have hP' : (profile (pgEnv libs) ⟨some ("Bearer " ++ libs.jwtSign
      ⟨(registeredRow body hashedPassword s).id, (registeredRow body hashedPassword s).email,
        (registeredRow body hashedPassword s).role, (registeredRow body hashedPassword s).name⟩
      (jwtSecret (pgEnv libs)) expiresIn24h w1.ext.clock)⟩ w2).1 = _ := hP
  refine ⟨by rw [hResp], by rw [hExt], rfl, fun h => h, rfl, by rw [hL1'], ?_⟩
  refine ⟨libs.jwtSign
    ⟨(registeredRow body hashedPassword s).id, (registeredRow body hashedPassword s).email,
      (registeredRow body hashedPassword s).role, (registeredRow body hashedPassword s).name⟩
    (jwtSecret (pgEnv libs)) expiresIn24h w1.ext.clock, by rw [hL1']; rfl, ?_, ?_, ?_⟩
  · rw [hP']
  · rw [hP']
    rfl
  · rw [hP']
    exact fun h => by
      have h2 : (Json.num s.clock) = Json.null := Option.some.inj h
      exact Json.noConfusion h2

/-- Witness of C22: the scenario of the spec, `Asha` registers with `secret1`
on an empty table, logs in and fetches her profile. -/
theorem register_login_profile_witness :
    (register (pgEnv symbolicLibs) ashaBody ⟨emptyStore, []⟩).1.status = 201 ∧
    (register (pgEnv symbolicLibs) ashaBody ⟨emptyStore, []⟩).2.ext.rows =
      emptyStore.rows ++ [registeredRow ashaBody "$2a$10$secret1" emptyStore] ∧
    (registeredRow ashaBody "$2a$10$secret1" emptyStore).password_hash = "$2a$10$secret1" ∧
    ("$2a$10$secret1" ≠ ashaBody.password →
      (registeredRow ashaBody "$2a$10$secret1" emptyStore).password_hash ≠ ashaBody.password) ∧
    (registeredRow ashaBody "$2a$10$secret1" emptyStore).last_login = none ∧
    (login (pgEnv symbolicLibs) ⟨ashaBody.email, ashaBody.password⟩
      (register (pgEnv symbolicLibs) ashaBody ⟨emptyStore, []⟩).2).1.status = 200 ∧
    (∃ token : String,
      (login (pgEnv symbolicLibs) ⟨ashaBody.email, ashaBody.password⟩
        (register (pgEnv symbolicLibs) ashaBody ⟨emptyStore, []⟩).2).1.token = some token ∧
      (profile (pgEnv symbolicLibs) ⟨some ("Bearer " ++ token)⟩
        (login (pgEnv symbolicLibs) ⟨ashaBody.email, ashaBody.password⟩
          (register (pgEnv symbolicLibs) ashaBody ⟨emptyStore, []⟩).2).2).1.status = 200 ∧
      ((profile (pgEnv symbolicLibs) ⟨some ("Bearer " ++ token)⟩
        (login (pgEnv symbolicLibs) ⟨ashaBody.email, ashaBody.password⟩
          (register (pgEnv symbolicLibs) ashaBody ⟨emptyStore, []⟩).2).2).1.data).bind
        (Json.field "lastLogin") = some (.num emptyStore.clock) ∧
      ((profile (pgEnv symbolicLibs) ⟨some ("Bearer " ++ token)⟩
        (login (pgEnv symbolicLibs) ⟨ashaBody.email, ashaBody.password⟩
          (register (pgEnv symbolicLibs) ashaBody ⟨emptyStore, []⟩).2).2).1.data).bind
        (Json.field "lastLogin") ≠ some .null) :=
  register_login_profile symbolicLibs ashaBody emptyStore [] "$2a$10$secret1"
    symbolicLibs_roundTrip rfl rfl rfl rfl

/-! ### The time of the last login as login reports it -/

/-- A 200 of login comes from a row found by email and a password that
verifies. -/
theorem login_status_200 {σ : Type} (env : Env σ) (body : LoginBody) (w : World σ)
    (h : (login env body w).1.status = 200) :
    ∃ (user : User) (w1 : World σ),
      dbHelpers.findUserByEmail env body.email w = (.ok (some user), w1) ∧
      env.bcryptCompare body.password user.password_hash = .ok true := by
  rcases hF : dbHelpers.findUserByEmail env body.email w with ⟨rF, w1⟩
  rcases rF with m | _ | user
  · simp [login, hF, loginFailed] at h
  · simp [login, hF] at h
  · cases hC : env.bcryptCompare body.password user.password_hash with
    | error m => simp [login, hF, comparePassword, hC, loginFailed] at h
    | ok b =>
      cases b with
      | false => simp [login, hF, comparePassword, hC] at h
      | true => exact ⟨user, w1, rfl, hC⟩

/-- C25: in every login response with status 200 the field `user.lastLogin` is
the clock as the handler reads it when it builds the response, after the
update call returned: a number, never null, whatever the update of
`last_login` returned. On the table holding `asha` whose update fails with a
connectivity error, the login response reports `lastLogin` 2000, the row keeps
`last_login` null, and the profile fetched next with the returned token is
answered 200 with `lastLogin` null. -/
theorem login_reports_own_clock {σ : Type} (env : Env σ) (body : LoginBody) (w : World σ)
    (hOk : (login env body w).1.status = 200) :
    (login env body w).1.user.bind (Json.field "lastLogin") =
      some (.num (env.now (login env body w).2.ext)) ∧
    (login env body w).1.user.bind (Json.field "lastLogin") ≠ some .null ∧
    (∃ (user : User) (w1 : World σ),
      dbHelpers.findUserByEmail env body.email w = (.ok (some user), w1) ∧
      (login env body w).2.ext =
        (env.updateLastLoginById user.id (env.now w1.ext) w1.ext).2) ∧
    ((pgEnv sampleLibs).updateLastLoginById asha.id 2000
        (ashaStoreFailing [some connectionLost])).1 = some connectionLost ∧
    (login (pgEnv sampleLibs) ⟨"asha@example.com", "secret1"⟩
      ⟨ashaStoreFailing [none, some connectionLost], []⟩).1.status = 200 ∧
    (login (pgEnv sampleLibs) ⟨"asha@example.com", "secret1"⟩
      ⟨ashaStoreFailing [none, some connectionLost], []⟩).2.calls =
      [.selectByEmail "asha@example.com", .bcryptCompare "secret1" "$2a$10$secret1",
        .jwtSign ⟨1, "asha@example.com", "farmer", "Asha"⟩ "your-secret-key",
        .updateLastLogin 1 2000] ∧
    (login (pgEnv sampleLibs) ⟨"asha@example.com", "secret1"⟩
      ⟨ashaStoreFailing [none, some connectionLost], []⟩).1.token =
      some "jwt:asha@example.com" ∧
    (login (pgEnv sampleLibs) ⟨"asha@example.com", "secret1"⟩
      ⟨ashaStoreFailing [none, some connectionLost], []⟩).1.user.bind
      (Json.field "lastLogin") = some (.num 2000) ∧
    (login (pgEnv sampleLibs) ⟨"asha@example.com", "secret1"⟩
      ⟨ashaStoreFailing [none, some connectionLost], []⟩).2.ext.rows = [asha] ∧
    asha.last_login = none ∧
    (profile (pgEnv sampleLibs) ⟨some ("Bearer " ++ "jwt:asha@example.com")⟩
      (login (pgEnv sampleLibs) ⟨"asha@example.com", "secret1"⟩
        ⟨ashaStoreFailing [none, some connectionLost], []⟩).2).1.status = 200 ∧
    (profile (pgEnv sampleLibs) ⟨some ("Bearer " ++ "jwt:asha@example.com")⟩
      (login (pgEnv sampleLibs) ⟨"asha@example.com", "secret1"⟩
        ⟨ashaStoreFailing [none, some connectionLost], []⟩).2).1.data.bind
      (Json.field "lastLogin") = some .null := by
  obtain ⟨user, w1, hFind, hCompare⟩ := login_status_200 env body w hOk
  refine ⟨?_, ?_, ⟨user, w1, hFind, ?_⟩, rfl, rfl, rfl, rfl, rfl, rfl, rfl, rfl, rfl⟩
  · rw [login_success env body w w1 user hFind hCompare]
    rfl
  · rw [login_success env body w w1 user hFind hCompare]
    intro h
    have h2 : Json.num (env.now (env.updateLastLoginById user.id (env.now w1.ext) w1.ext).2) =
        Json.null := Option.some.inj h
    exact Json.noConfusion h2
  · rw [login_success env body w w1 user hFind hCompare]

/-- Witness of C25: `asha` logs in with her password on a table that answers
every call. -/
theorem login_reports_own_clock_witness :
    (login (pgEnv sampleLibs) ⟨"asha@example.com", "secret1"⟩ ⟨ashaStore, []⟩).1.status = 200 ∧
    (login (pgEnv sampleLibs) ⟨"asha@example.com", "secret1"⟩ ⟨ashaStore, []⟩).1.user.bind
      (Json.field "lastLogin") =
      some (.num ((pgEnv sampleLibs).now
        (login (pgEnv sampleLibs) ⟨"asha@example.com", "secret1"⟩ ⟨ashaStore, []⟩).2.ext)) ∧
    (login (pgEnv sampleLibs) ⟨"asha@example.com", "secret1"⟩ ⟨ashaStore, []⟩).1.user.bind
      (Json.field "lastLogin") ≠ some .null :=
  ⟨rfl,
   (login_reports_own_clock (pgEnv sampleLibs) ⟨"asha@example.com", "secret1"⟩
      ⟨ashaStore, []⟩ rfl).1,
   (login_reports_own_clock (pgEnv sampleLibs) ⟨"asha@example.com", "secret1"⟩
      ⟨ashaStore, []⟩ rfl).2.1⟩

/-! ### One secret for signing and verifying -/

/-- Secrets of a trace that grew by calls. -/
theorem secretsUsed_append (a b : List Call) :
    secretsUsed (a ++ b) = secretsUsed a ++ secretsUsed b := by
  simp [secretsUsed, List.filterMap_append]

/-- Login hands a secret to the token library on its success path only, once,
and it is `jwtSecret`. -/
theorem login_secrets {σ : Type} (env : Env σ) (body : LoginBody) (w : World σ) :
    secretsUsed (login env body w).2.calls =
      secretsUsed w.calls ++
        (if (login env body w).1.status = 200 then [jwtSecret env] else []) := by
  rcases hF : dbHelpers.findUserByEmail env body.email w with ⟨rF, w1⟩
  have h1 := findUserByEmail_calls env body.email w
  rw [hF] at h1
  simp only at h1
  rcases rF with m | _ | user
  · simp [login, hF, loginFailed, h1, secretsUsed]
  · simp [login, hF, h1, secretsUsed]
  · cases hC : env.bcryptCompare body.password user.password_hash with
    | error m => simp [login, hF, comparePassword, hC, loginFailed, h1, secretsUsed]
    | ok b =>
      cases b with
      | false => simp [login, hF, comparePassword, hC, h1, secretsUsed]
      | true =>
        rw [login_success env body w w1 user hF hC]
        simp [h1, secretsUsed]

/-- Register hands a secret to the token library on its success path only,
once, and it is `jwtSecret`. -/
theorem register_secrets {σ : Type} (env : Env σ) (body : RegisterBody) (w : World σ) :
    secretsUsed (register env body w).2.calls =
      secretsUsed w.calls ++
        (if (register env body w).1.status = 201 then [jwtSecret env] else []) := by
  rcases hF : dbHelpers.findUserByEmail env body.email w with ⟨rF, w1⟩
  have h1 := findUserByEmail_calls env body.email w
  rw [hF] at h1
  simp only at h1
  rcases rF with m | _ | u
  · simp [register, hF, registrationFailed, h1, secretsUsed]
  · rcases hH : hashPassword env body.password 10 w1 with ⟨rH, w2⟩
    have h2 := hashPassword_calls env body.password 10 w1
    rw [hH] at h2
    simp only at h2
    rcases rH with m | hashed
    · simp [register, hF, hH, registrationFailed, h2, h1, secretsUsed]
    · rcases hC : dbHelpers.createUser env (registerUserData body hashed) w2 with ⟨rC, w3⟩
      have h3 := createUser_calls env (registerUserData body hashed) w2
      rw [hC] at h3
      simp only at h3
      rcases rC with m | _ | newUser
      · simp [register, hF, hH, hC, registrationFailed, h3, h2, h1, secretsUsed]
      · simp [register, hF, hH, hC, registrationFailed, h3, h2, h1, secretsUsed]
      · simp [register, hF, hH, hC, signToken, h3, h2, h1, secretsUsed]
  · simp [register, hF, h1, secretsUsed]

/-- Profile hands a secret to the token library once a bearer header is
present, and it is `jwtSecret`. -/
theorem profile_secrets {σ : Type} (env : Env σ) (req : AuthRequest) (w : World σ) :
    secretsUsed (profile env req w).2.calls =
      secretsUsed w.calls ++
        (if missingBearer req.authorization = true then [] else [jwtSecret env]) := by
  cases hB : missingBearer req.authorization with
  | true => simp [profile, hB]
  | false =>
    cases hV : env.jwtVerify (substring7 (req.authorization.getD "")) (jwtSecret env)
        (env.now w.ext) with
    | error m => simp [profile, hB, verifyToken, hV, invalidToken, secretsUsed]
    | ok decoded =>
      rcases hG : dbHelpers.getUserById env decoded.id
        ⟨w.ext, w.calls ++
          [.jwtVerify (substring7 (req.authorization.getD "")) (jwtSecret env)]⟩ with ⟨rG, w2⟩
      have h1 := getUserById_calls env decoded.id
        ⟨w.ext, w.calls ++ [.jwtVerify (substring7 (req.authorization.getD "")) (jwtSecret env)]⟩
      rw [hG] at h1
      simp only at h1
      rcases rG with m | _ | user <;>
        simp [profile, hB, verifyToken, hV, hG, invalidToken, h1, secretsUsed]

/-- Refresh hands `jwtSecret` to `jwt.verify` once a bearer header is present,
and to `jwt.sign` on its success path. -/
theorem refresh_secrets {σ : Type} (env : Env σ) (req : AuthRequest) (w : World σ) :
    secretsUsed (refresh env req w).2.calls =
      secretsUsed w.calls ++
        (if missingBearer req.authorization = true then []
         else if (refresh env req w).1.status = 200 then [jwtSecret env, jwtSecret env]
         else [jwtSecret env]) := by
  cases hB : missingBearer req.authorization with
  | true => simp [refresh, hB]
  | false =>
    cases hV : env.jwtVerify (substring7 (req.authorization.getD "")) (jwtSecret env)
        (env.now w.ext) with
    | error m => simp [refresh, hB, verifyToken, hV, invalidToken, secretsUsed]
    | ok decoded =>
      rcases hG : dbHelpers.getUserById env decoded.id
        ⟨w.ext, w.calls ++
          [.jwtVerify (substring7 (req.authorization.getD "")) (jwtSecret env)]⟩ with ⟨rG, w2⟩
      have h1 := getUserById_calls env decoded.id
        ⟨w.ext, w.calls ++ [.jwtVerify (substring7 (req.authorization.getD "")) (jwtSecret env)]⟩
      rw [hG] at h1
      simp only at h1
      rcases rG with m | _ | user <;>
        simp [refresh, hB, verifyToken, hV, hG, invalidToken, signToken, h1, secretsUsed]

/-- Under `JwtRoundTrip`, a token signed by the handlers passes profile and
refresh within the validity window. -/
theorem acceptedWithin24h_of_roundTrip {σ : Type} (env : Env σ) (hLaw : JwtRoundTrip env)
    (payload : JwtPayload) (issued : Timestamp) :
    AcceptedWithin24h env (env.jwtSign payload (jwtSecret env) expiresIn24h issued)
      payload.id issued := by
  intro v hNow
  have hV : env.jwtVerify (env.jwtSign payload (jwtSecret env) expiresIn24h issued)
      (jwtSecret env) (env.now v.ext) =
      .ok ⟨payload.id, payload.email, payload.role, payload.name,
        issued / 1000, issued / 1000 + expiresIn24h⟩ :=
    hLaw payload (jwtSecret env) expiresIn24h issued (env.now v.ext) hNow
  refine ⟨⟨_, hV, rfl⟩, ?_⟩
  intro user v2 hG
  have hB := missingBearer_bearer (env.jwtSign payload (jwtSecret env) expiresIn24h issued)
  have hS := substring7_bearer (env.jwtSign payload (jwtSecret env) expiresIn24h issued)
  constructor
  · simp [profile, hB, hS, verifyToken, hV, hG]
  · simp [refresh, hB, hS, verifyToken, hV, hG, signToken]

/-- With the symbolic token service and no `JWT_SECRET`, a token of the
handlers is answered 401 `Invalid token` by profile and by refresh from the
second `exp` on. -/
theorem symbolic_profile_refresh_expired (payload : JwtPayload) (issued : Timestamp)
    (s : PgStore) (calls : List Call) (h : issued / 1000 + expiresIn24h ≤ s.clock / 1000) :
    (profile (pgEnv symbolicLibs)
      ⟨some ("Bearer " ++ symbolicSign payload "your-secret-key" expiresIn24h issued)⟩
      ⟨s, calls⟩).1 = ⟨401, .obj [("success", .bool false), ("error", .str "Invalid token")]⟩ ∧
    (refresh (pgEnv symbolicLibs)
      ⟨some ("Bearer " ++ symbolicSign payload "your-secret-key" expiresIn24h issued)⟩
      ⟨s, calls⟩).1 = ⟨401, .obj [("success", .bool false), ("error", .str "Invalid token")]⟩ := by
  have hV : (pgEnv symbolicLibs).jwtVerify
      (symbolicSign payload "your-secret-key" expiresIn24h issued)
      (jwtSecret (pgEnv symbolicLibs)) ((pgEnv symbolicLibs).now s) = .error "jwt expired" :=
    symbolicVerify_expired payload "your-secret-key" expiresIn24h issued s.clock h
  have hB := missingBearer_bearer (symbolicSign payload "your-secret-key" expiresIn24h issued)
  have hS := substring7_bearer (symbolicSign payload "your-secret-key" expiresIn24h issued)
  constructor
  · simp [profile, hB, hS, verifyToken, hV, invalidToken]
  · simp [refresh, hB, hS, verifyToken, hV, invalidToken]

/-- C23, as stated, fails in the last second of the 24 hours: with the
symbolic token service and an unchanged environment, `asha` logs in at
1999 ms and is answered 200 with a token signed with `your-secret-key`; at
86401000 ms, which is 86399001 ms and so less than 24 hours after issuance,
that token is answered 401 `Invalid token` by profile and by refresh, because
the token carries `iat` 1 and `exp` 86401 in whole seconds. -/
theorem token_rejected_before_24h :
    (login (pgEnv symbolicLibs) ⟨"asha@example.com", "secret1"⟩
      ⟨⟨[asha], 1999, 0, []⟩, []⟩).1.status = 200 ∧
    (login (pgEnv symbolicLibs) ⟨"asha@example.com", "secret1"⟩
      ⟨⟨[asha], 1999, 0, []⟩, []⟩).1.token =
      some (symbolicSign ⟨1, "asha@example.com", "farmer", "Asha"⟩ "your-secret-key"
        expiresIn24h 1999) ∧
    86401000 < 1999 + 24 * 60 * 60 * 1000 ∧
    (profile (pgEnv symbolicLibs)
      ⟨some ("Bearer " ++ symbolicSign ⟨1, "asha@example.com", "farmer", "Asha"⟩
        "your-secret-key" expiresIn24h 1999)⟩
      ⟨{ (login (pgEnv symbolicLibs) ⟨"asha@example.com", "secret1"⟩
            ⟨⟨[asha], 1999, 0, []⟩, []⟩).2.ext with clock := 86401000 },
        (login (pgEnv symbolicLibs) ⟨"asha@example.com", "secret1"⟩
            ⟨⟨[asha], 1999, 0, []⟩, []⟩).2.calls⟩).1 =
      ⟨401, .obj [("success", .bool false), ("error", .str "Invalid token")]⟩ ∧
    (refresh (pgEnv symbolicLibs)
      ⟨some ("Bearer " ++ symbolicSign ⟨1, "asha@example.com", "farmer", "Asha"⟩
        "your-secret-key" expiresIn24h 1999)⟩
      ⟨{ (login (pgEnv symbolicLibs) ⟨"asha@example.com", "secret1"⟩
            ⟨⟨[asha], 1999, 0, []⟩, []⟩).2.ext with clock := 86401000 },
        (login (pgEnv symbolicLibs) ⟨"asha@example.com", "secret1"⟩
            ⟨⟨[asha], 1999, 0, []⟩, []⟩).2.calls⟩).1 =
      ⟨401, .obj [("success", .bool false), ("error", .str "Invalid token")]⟩ := by
  have hL := login_success (pgEnv symbolicLibs) ⟨"asha@example.com", "secret1"⟩
    ⟨⟨[asha], 1999, 0, []⟩, []⟩ ⟨⟨[asha], 1999, 0, []⟩, [.selectByEmail "asha@example.com"]⟩
    asha rfl rfl
  have hE : (1999 : Nat) / 1000 + expiresIn24h ≤ 86401000 / 1000 := by decide
  refine ⟨by rw [hL], by rw [hL]; rfl, by decide, ?_, ?_⟩
  · exact (symbolic_profile_refresh_expired ⟨1, "asha@example.com", "farmer", "Asha"⟩ 1999
      _ _ hE).1
  · exact (symbolic_profile_refresh_expired ⟨1, "asha@example.com", "farmer", "Asha"⟩ 1999
      _ _ hE).2

/-- C23, amended: the secret of the handlers, `jwtSecret`, is the value of
`JWT_SECRET` when it is set and not empty and `your-secret-key` otherwise;
every secret
that login, register, profile and refresh hand to `jwt.sign` or `jwt.verify`
is that one (login and register sign once on success, profile verifies once,
refresh verifies once and signs once on success, logout calls nothing); and
under `JwtRoundTrip` the token of a 200 of login, a 201 of register or a 200
of refresh passes the verification of profile and refresh, and both answer 200
when the row is found, at every time less than 86400 whole seconds after the
second of issuance, in particular up to 24 hours less one second after
issuance. -/
theorem one_secret_signs_and_verifies {σ : Type} (env : Env σ) (hLaw : JwtRoundTrip env) :
    (∀ k : String, env.JWT_SECRET = some k → k ≠ "" → jwtSecret env = k) ∧
    (env.JWT_SECRET = none ∨ env.JWT_SECRET = some "" → jwtSecret env = "your-secret-key") ∧
    (∀ (body : LoginBody) (w : World σ),
      secretsUsed (login env body w).2.calls =
        secretsUsed w.calls ++
          (if (login env body w).1.status = 200 then [jwtSecret env] else [])) ∧
    (∀ (body : RegisterBody) (w : World σ),
      secretsUsed (register env body w).2.calls =
        secretsUsed w.calls ++
          (if (register env body w).1.status = 201 then [jwtSecret env] else [])) ∧
    (∀ (req : AuthRequest) (w : World σ),
      secretsUsed (profile env req w).2.calls =
        secretsUsed w.calls ++
          (if missingBearer req.authorization = true then [] else [jwtSecret env])) ∧
    (∀ (req : AuthRequest) (w : World σ),
      secretsUsed (refresh env req w).2.calls =
        secretsUsed w.calls ++
          (if missingBearer req.authorization = true then []
           else if (refresh env req w).1.status = 200 then [jwtSecret env, jwtSecret env]
           else [jwtSecret env])) ∧
    (∀ w : World σ, (logout env w).2.calls = w.calls) ∧
    (∀ (body : LoginBody) (w : World σ), (login env body w).1.status = 200 →
      ∃ (token : String) (payload : JwtPayload) (issued : Timestamp),
        (login env body w).1.token = some token ∧
        token = env.jwtSign payload (jwtSecret env) expiresIn24h issued ∧
        AcceptedWithin24h env token payload.id issued) ∧
    (∀ (body : RegisterBody) (w : World σ), (register env body w).1.status = 201 →
      ∃ (token : String) (payload : JwtPayload) (issued : Timestamp),
        (register env body w).1.token = some token ∧
        token = env.jwtSign payload (jwtSecret env) expiresIn24h issued ∧
        AcceptedWithin24h env token payload.id issued) ∧
    (∀ (req : AuthRequest) (w : World σ), (refresh env req w).1.status = 200 →
      ∃ (token : String) (payload : JwtPayload) (issued : Timestamp),
        (refresh env req w).1.token = some token ∧
        token = env.jwtSign payload (jwtSecret env) expiresIn24h issued ∧
        AcceptedWithin24h env token payload.id issued) ∧
    (∀ (token : String) (id : UserId) (issued : Timestamp),
      AcceptedWithin24h env token id issued →
      ∀ v : World σ, env.now v.ext + 1000 ≤ issued + 24 * 60 * 60 * 1000 →
        ∃ d : Decoded, (verifyToken env token v).1 = .ok d ∧ d.id = id) := by
  refine ⟨?_, ?_, login_secrets env, register_secrets env, profile_secrets env,
    refresh_secrets env, fun _ => rfl, ?_, ?_, ?_, ?_⟩
  · intro k hk hne
    simp [jwtSecret, jsOr, hk, hne]
  · intro h
    rcases h with h | h <;> simp [jwtSecret, jsOr, h]
  · intro body w hOk
    obtain ⟨user, w1, hFind, hCompare⟩ := login_status_200 env body w hOk
    refine ⟨_, ⟨user.id, user.email, user.role, user.name⟩, env.now w1.ext, ?_, rfl,
      acceptedWithin24h_of_roundTrip env hLaw _ _⟩
    rw [login_success env body w w1 user hFind hCompare]
    rfl
  · intro body w hCreated
    obtain ⟨w1, hashed, w2, newUser, w3, _, _, _, hR⟩ := register_created env body w hCreated
    refine ⟨_, ⟨newUser.id, newUser.email, newUser.role, newUser.name⟩, env.now w3.ext, ?_, rfl,
      acceptedWithin24h_of_roundTrip env hLaw _ _⟩
    rw [hR]
    rfl
  · intro req w hOk
    obtain ⟨decoded, u, w2, hB, hV, hG⟩ := refresh_status_200 env req w hOk
    refine ⟨_, ⟨u.id, u.email, u.role, u.name⟩, env.now w2.ext, ?_, rfl,
      acceptedWithin24h_of_roundTrip env hLaw _ _⟩
    rw [refresh_success env req w w2 decoded u hB hV hG]
    rfl
  · intro token id issued hAcc v hNow
    have key : ∀ a b : Nat, a + 1000 ≤ b + 24 * 60 * 60 * 1000 → a / 1000 < b / 1000 + 86400 := by
      intro a b h
      omega
    have hSec : env.now v.ext / 1000 < issued / 1000 + 86400 := key _ _ hNow
    exact (hAcc v hSec).1

/-- Witness of C23 (amended): without `JWT_SECRET` the symbolic token service is handed
`your-secret-key`, and the token of the login of `asha` passes profile and
refresh within the window. -/
theorem one_secret_signs_and_verifies_witness :
    (symbolicLibs.JWT_SECRET = none ∨ symbolicLibs.JWT_SECRET = some "" →
      jwtSecret (pgEnv symbolicLibs) = "your-secret-key") ∧
    secretsUsed (login (pgEnv symbolicLibs) ⟨"asha@example.com", "secret1"⟩
        ⟨ashaStore, []⟩).2.calls =
      secretsUsed [] ++
        (if (login (pgEnv symbolicLibs) ⟨"asha@example.com", "secret1"⟩
          ⟨ashaStore, []⟩).1.status = 200 then [jwtSecret (pgEnv symbolicLibs)] else []) ∧
    (login (pgEnv symbolicLibs) ⟨"asha@example.com", "secret1"⟩ ⟨ashaStore, []⟩).1.status = 200 ∧
    (∃ (token : String) (payload : JwtPayload) (issued : Timestamp),
      (login (pgEnv symbolicLibs) ⟨"asha@example.com", "secret1"⟩ ⟨ashaStore, []⟩).1.token =
        some token ∧
      token = (pgEnv symbolicLibs).jwtSign payload (jwtSecret (pgEnv symbolicLibs))
        expiresIn24h issued ∧
      AcceptedWithin24h (pgEnv symbolicLibs) token payload.id issued) :=
  ⟨(one_secret_signs_and_verifies (pgEnv symbolicLibs) symbolicLibs_roundTrip).2.1,
   (one_secret_signs_and_verifies (pgEnv symbolicLibs) symbolicLibs_roundTrip).2.2.1
      ⟨"asha@example.com", "secret1"⟩ ⟨ashaStore, []⟩,
   rfl,
   (one_secret_signs_and_verifies (pgEnv symbolicLibs) symbolicLibs_roundTrip).2.2.2.2.2.2.2.1
      ⟨"asha@example.com", "secret1"⟩ ⟨ashaStore, []⟩ rfl⟩

/-! ### Stores that differ in the password hashes only -/

/-- The modifier `.single()` on rows changed one by one. -/
theorem single_map (found : List User) (g : User → User) :
    single (found.map g) = ⟨(single found).data.map g, (single found).error⟩ := by
  rcases found with _ | ⟨a, _ | ⟨b, t⟩⟩ <;> rfl

/-- Replacing the hashes does not change which rows an email filter finds. -/
theorem byEmail_rehashed (s : PgStore) (rehash : User → String) (email : String) :
    (s.rehashed rehash).byEmail email =
      (s.byEmail email).map (fun u => { u with password_hash := rehash u }) := by
  simp only [PgStore.byEmail, PgStore.rehashed, List.filter_map]
  rfl

/-- Replacing the hashes does not change which rows an id filter finds. -/
theorem byId_rehashed (s : PgStore) (rehash : User → String) (id : UserId) :
    (s.rehashed rehash).byId id =
      (s.byId id).map (fun u => { u with password_hash := rehash u }) := by
  simp only [PgStore.byId, PgStore.rehashed, List.filter_map]
  rfl

/-- Replacing the hashes does not change the next identifier. -/
theorem freshId_rehashed (rows : List User) (rehash : User → String) :
    freshId (rows.map (fun u => { u with password_hash := rehash u })) = freshId rows := by
  simp only [freshId, List.map_map]
  rfl

/-- On the reference table the lookup by email of a store with replaced
hashes returns the row of the original lookup with its hash replaced, or the
same error. -/
theorem pg_findUserByEmail_rehashed (libs : Libs) (email : String) (s : PgStore)
    (calls calls₀ : List Call) (rehash : User → String) :
    (dbHelpers.findUserByEmail (pgEnv libs) email ⟨s.rehashed rehash, calls₀⟩).1 =
      (dbHelpers.findUserByEmail (pgEnv libs) email ⟨s, calls⟩).1.map
        (Option.map (fun u => { u with password_hash := rehash u })) := by
  have hb := byEmail_rehashed s rehash email
  obtain ⟨rows, clock, salt, faults⟩ := s
  simp only [PgStore.byEmail, PgStore.rehashed] at hb
  rcases faults with _ | ⟨o, rest⟩
  · simp only [dbHelpers.findUserByEmail, pgEnv, PgStore.selectByEmailSingle, PgStore.nextFault,
      PgStore.rehashed, PgStore.byEmail, hb, single_map]
    rcases single_data_error (rows.filter (fun u => decide (u.email = email))) with h | h
    · simp [h, Except.map]
    · simp [h, notSingleRow, Except.map]
  · cases o with
    | none =>
      simp only [dbHelpers.findUserByEmail, pgEnv, PgStore.selectByEmailSingle,
        PgStore.nextFault, PgStore.rehashed, PgStore.byEmail, hb, single_map]
      rcases single_data_error (rows.filter (fun u => decide (u.email = email))) with h | h
      · simp [h, Except.map]
      · simp [h, notSingleRow, Except.map]
    | some e =>
      simp only [dbHelpers.findUserByEmail, pgEnv, PgStore.selectByEmailSingle,
        PgStore.nextFault, PgStore.rehashed]
      split <;> simp [Except.map]

/-- On the reference table the lookup by id of a store with replaced hashes
returns the row of the original lookup with its hash replaced, or the same
error. -/
theorem pg_getUserById_rehashed (libs : Libs) (id : UserId) (s : PgStore)
    (calls calls₀ : List Call) (rehash : User → String) :
    (dbHelpers.getUserById (pgEnv libs) id ⟨s.rehashed rehash, calls₀⟩).1 =
      (dbHelpers.getUserById (pgEnv libs) id ⟨s, calls⟩).1.map
        (Option.map (fun u => { u with password_hash := rehash u })) := by
  have hb := byId_rehashed s rehash id
  obtain ⟨rows, clock, salt, faults⟩ := s
  simp only [PgStore.byId, PgStore.rehashed] at hb
  rcases faults with _ | ⟨o, rest⟩
  · simp only [dbHelpers.getUserById, pgEnv, PgStore.selectByIdSingle, PgStore.nextFault,
      PgStore.rehashed, PgStore.byId, hb, single_map]
    rcases single_data_error (rows.filter (fun u => decide (u.id = id))) with h | h
    · simp [h, Except.map]
    · simp [h, notSingleRow, Except.map]
  · cases o with
    | none =>
      simp only [dbHelpers.getUserById, pgEnv, PgStore.selectByIdSingle,
        PgStore.nextFault, PgStore.rehashed, PgStore.byId, hb, single_map]
      rcases single_data_error (rows.filter (fun u => decide (u.id = id))) with h | h
      · simp [h, Except.map]
      · simp [h, notSingleRow, Except.map]
    | some e =>
      simp [dbHelpers.getUserById, pgEnv, PgStore.selectByIdSingle,
        PgStore.nextFault, PgStore.rehashed, Except.map]

/-- Consuming the failure schedule leaves the clock alone. -/
theorem nextFault_clock (s : PgStore) : s.nextFault.2.clock = s.clock := by
  unfold PgStore.nextFault
  split <;> rfl

/-- On the reference table the lookup by email leaves the clock alone. -/
theorem pg_findUserByEmail_clock (libs : Libs) (email : String) (w : World PgStore) :
    (dbHelpers.findUserByEmail (pgEnv libs) email w).2.ext.clock = w.ext.clock := by
  have hc := nextFault_clock w.ext
  rcases hf : w.ext.nextFault with ⟨f, s1⟩
  rw [hf] at hc
  simp only at hc
  unfold dbHelpers.findUserByEmail
  simp only [pgEnv, PgStore.selectByEmailSingle, hf]
  cases f with
  | none =>
    simp only
    rcases single_data_error (s1.byEmail email) with h | h <;> simp [h, notSingleRow, hc]
  | some e =>
    simp only
    split <;> simp [hc]

/-- On the reference table the lookup by id leaves the clock alone. -/
theorem pg_getUserById_clock (libs : Libs) (id : UserId) (w : World PgStore) :
    (dbHelpers.getUserById (pgEnv libs) id w).2.ext.clock = w.ext.clock := by
  have hc := nextFault_clock w.ext
  rcases hf : w.ext.nextFault with ⟨f, s1⟩
  rw [hf] at hc
  simp only at hc
  unfold dbHelpers.getUserById
  simp only [pgEnv, PgStore.selectByIdSingle, hf]
  cases f with
  | none =>
    simp only
    rcases single_data_error (s1.byId id) with h | h <;> simp [h, hc]
  | some e => simp [hc]

/-- On the reference table the update of `last_login` leaves the clock alone. -/
theorem pg_update_clock (id : UserId) (ts : Timestamp) (s : PgStore) :
    (PgStore.updateLastLoginById id ts s).2.clock = s.clock := by
  have hc := nextFault_clock s
  rcases hf : s.nextFault with ⟨f, s1⟩
  rw [hf] at hc
  simp only at hc
  unfold PgStore.updateLastLoginById
  rw [hf]
  cases f <;> simp [hc]

/-- On the reference table a successful `createUser` returns the row built
from its argument under the next identifier, and leaves the clock alone. -/
theorem pg_createUser_some (libs : Libs) (userData : UserData) (w w3 : World PgStore) (u : User)
    (h : dbHelpers.createUser (pgEnv libs) userData w = (.ok (some u), w3)) :
    u = (newUserRow userData w.ext.clock).toUser (freshId w.ext.rows) ∧
    w3.ext.clock = w.ext.clock := by
  have hc := nextFault_clock w.ext
  have hr := nextFault_rows w.ext
  rcases hf : w.ext.nextFault with ⟨f, s1⟩
  rw [hf] at hc hr
  simp only at hc hr
  unfold dbHelpers.createUser at h
  simp only [pgEnv, PgStore.insertSingle, hf] at h
  cases f with
  | some e => simp at h
  | none =>
    by_cases hE : (s1.byEmail (newUserRow userData w.ext.clock).email).isEmpty
    · simp only [hE, if_true] at h
      simp only [Prod.mk.injEq, Except.ok.injEq, Option.some.injEq] at h
      obtain ⟨hu, hw⟩ := h
      subst hw
      subst hu
      simp [hr, hc]
    · simp [hE] at h

/-- A 200 of profile comes from a bearer header, a verified token and a row
found by id, and shows that row. -/
theorem profile_status_200 {σ : Type} (env : Env σ) (req : AuthRequest) (w : World σ)
    (h : (profile env req w).1.status = 200) :
    ∃ (decoded : Decoded) (user : User) (w2 : World σ),
      missingBearer req.authorization = false ∧
      env.jwtVerify (substring7 (req.authorization.getD "")) (jwtSecret env)
        (env.now w.ext) = .ok decoded ∧
      dbHelpers.getUserById env decoded.id
        ⟨w.ext, w.calls ++
          [.jwtVerify (substring7 (req.authorization.getD "")) (jwtSecret env)]⟩ =
        (.ok (some user), w2) ∧
      (profile env req w).1 =
        ⟨200, .obj [("success", .bool true), ("data", profileJson user)]⟩ := by
  cases hB : missingBearer req.authorization with
  | true => simp [profile, hB] at h
  | false =>
    cases hV : env.jwtVerify (substring7 (req.authorization.getD "")) (jwtSecret env)
        (env.now w.ext) with
    | error m => simp [profile, hB, verifyToken, hV, invalidToken] at h
    | ok decoded =>
      rcases hG : dbHelpers.getUserById env decoded.id
        ⟨w.ext, w.calls ++
          [.jwtVerify (substring7 (req.authorization.getD "")) (jwtSecret env)]⟩ with ⟨rG, w2⟩
      rcases rG with m | _ | user
      · simp [profile, hB, verifyToken, hV, hG, invalidToken] at h
      · simp [profile, hB, verifyToken, hV, hG] at h
      · exact ⟨decoded, user, w2, rfl, rfl, hG, by simp [profile, hB, verifyToken, hV, hG]⟩

/-- On the reference table a 200 of login shows the row found by email, a
token signed for it at the time of the store, and that time as `lastLogin`. -/
theorem pg_login_ok (libs : Libs) (body : LoginBody) (s : PgStore) (calls : List Call)
    (h : (login (pgEnv libs) body ⟨s, calls⟩).1.status = 200) :
    ∃ user : User,
      (dbHelpers.findUserByEmail (pgEnv libs) body.email ⟨s, calls⟩).1 = .ok (some user) ∧
      (login (pgEnv libs) body ⟨s, calls⟩).1 =
        ⟨200, .obj [("success", .bool true),
          ("data", .obj [("token", .str (libs.jwtSign ⟨user.id, user.email, user.role, user.name⟩
              (jwtSecret (pgEnv libs)) expiresIn24h s.clock)),
            ("user", loginUserJson user s.clock)])]⟩ := by
  obtain ⟨user, w1, hF, hC⟩ := login_status_200 (pgEnv libs) body ⟨s, calls⟩ h
  have hc := pg_findUserByEmail_clock libs body.email ⟨s, calls⟩
  rw [hF] at hc
  simp only at hc
  have hu := pg_update_clock user.id w1.ext.clock w1.ext
  refine ⟨user, by rw [hF], ?_⟩
  rw [login_success (pgEnv libs) body ⟨s, calls⟩ w1 user hF hC]
  show (⟨200, .obj [("success", .bool true),
    ("data", .obj [("token", .str (libs.jwtSign ⟨user.id, user.email, user.role, user.name⟩
        (jwtSecret (pgEnv libs)) expiresIn24h w1.ext.clock)),
      ("user", loginUserJson user
        (PgStore.updateLastLoginById user.id w1.ext.clock w1.ext).2.clock)])]⟩ : Response) = _
  rw [hu, hc]

/-- On the reference table a 201 of register shows the row stored under the
next identifier and a token signed for it at the time of the store. -/
theorem pg_register_ok (libs : Libs) (body : RegisterBody) (s : PgStore) (calls : List Call)
    (h : (register (pgEnv libs) body ⟨s, calls⟩).1.status = 201) :
    ∃ hashedPassword : String,
      (register (pgEnv libs) body ⟨s, calls⟩).1 =
        ⟨201, .obj [("success", .bool true),
          ("data", .obj [("token", .str (libs.jwtSign
              ⟨(registeredRow body hashedPassword s).id,
                (registeredRow body hashedPassword s).email,
                (registeredRow body hashedPassword s).role,
                (registeredRow body hashedPassword s).name⟩
              (jwtSecret (pgEnv libs)) expiresIn24h s.clock)),
            ("user", registerUserJson (registeredRow body hashedPassword s))])]⟩ := by
  obtain ⟨w1, hashed, w2, newUser, w3, hF, hH, hC, hR⟩ :=
    register_created (pgEnv libs) body ⟨s, calls⟩ h
  have hc1 := pg_findUserByEmail_clock libs body.email ⟨s, calls⟩
  have hr1 := pg_findUserByEmail_rows libs body.email ⟨s, calls⟩
  rw [hF] at hc1 hr1
  simp only at hc1 hr1
  have hr2 := (pg_hashPassword_rows libs body.password 10 w1).1
  have hc2 : (hashPassword (pgEnv libs) body.password 10 w1).2.ext.clock = w1.ext.clock := by
    simp [hashPassword, pgEnv]
  rw [hH] at hc2 hr2
  simp only at hc2 hr2
  obtain ⟨hU, hc3⟩ := pg_createUser_some libs (registerUserData body hashed) w2 w3 newUser hC
  rw [hc2, hc1, hr2, hr1] at hU
  rw [hc2, hc1] at hc3
  refine ⟨hashed, ?_⟩
  rw [hR]
  show (⟨201, .obj [("success", .bool true),
    ("data", .obj [("token", .str (libs.jwtSign
        ⟨newUser.id, newUser.email, newUser.role, newUser.name⟩
        (jwtSecret (pgEnv libs)) expiresIn24h w3.ext.clock)),
      ("user", registerUserJson newUser)])]⟩ : Response) = _
  rw [hc3, hU]
  rfl

/-- The profile response for stores that differ in the hashes only. -/
theorem pg_profile_rehashed (libs : Libs) (req : AuthRequest) (s : PgStore)
    (calls calls₀ : List Call) (rehash : User → String) :
    (profile (pgEnv libs) req ⟨s.rehashed rehash, calls₀⟩).1 =
      (profile (pgEnv libs) req ⟨s, calls⟩).1 := by
  cases hB : missingBearer req.authorization with
  | true => simp [profile, hB]
  | false =>
    cases hV : (pgEnv libs).jwtVerify (substring7 (req.authorization.getD ""))
        (jwtSecret (pgEnv libs)) ((pgEnv libs).now s) with
    | error m =>
      have hV₀ : (pgEnv libs).jwtVerify (substring7 (req.authorization.getD ""))
        (jwtSecret (pgEnv libs)) ((pgEnv libs).now (s.rehashed rehash)) = .error m := hV
      simp [profile, hB, verifyToken, hV, hV₀]
    | ok decoded =>
      have hV₀ : (pgEnv libs).jwtVerify (substring7 (req.authorization.getD ""))
        (jwtSecret (pgEnv libs)) ((pgEnv libs).now (s.rehashed rehash)) = .ok decoded := hV
      have hG := pg_getUserById_rehashed libs decoded.id s
        (calls ++ [.jwtVerify (substring7 (req.authorization.getD "")) (jwtSecret (pgEnv libs))])
        (calls₀ ++ [.jwtVerify (substring7 (req.authorization.getD "")) (jwtSecret (pgEnv libs))])
        rehash
      rcases hG1 : dbHelpers.getUserById (pgEnv libs) decoded.id ⟨s, calls ++
        [.jwtVerify (substring7 (req.authorization.getD "")) (jwtSecret (pgEnv libs))]⟩
        with ⟨r, w2⟩
      rcases hG2 : dbHelpers.getUserById (pgEnv libs) decoded.id ⟨s.rehashed rehash, calls₀ ++
        [.jwtVerify (substring7 (req.authorization.getD "")) (jwtSecret (pgEnv libs))]⟩
        with ⟨r₀, w₀⟩
      rw [hG1, hG2] at hG
      simp only at hG
      subst hG
      rcases r with m | _ | u <;>
        simp [profile, hB, verifyToken, hV, hV₀, hG1, hG2, Except.map, profileJson]

/-- The refresh response for stores that differ in the hashes only. -/
theorem pg_refresh_rehashed (libs : Libs) (req : AuthRequest) (s : PgStore)
    (calls calls₀ : List Call) (rehash : User → String) :
    (refresh (pgEnv libs) req ⟨s.rehashed rehash, calls₀⟩).1 =
      (refresh (pgEnv libs) req ⟨s, calls⟩).1 := by
  cases hB : missingBearer req.authorization with
  | true => simp [refresh, hB]
  | false =>
    cases hV : (pgEnv libs).jwtVerify (substring7 (req.authorization.getD ""))
        (jwtSecret (pgEnv libs)) ((pgEnv libs).now s) with
    | error m =>
      have hV₀ : (pgEnv libs).jwtVerify (substring7 (req.authorization.getD ""))
        (jwtSecret (pgEnv libs)) ((pgEnv libs).now (s.rehashed rehash)) = .error m := hV
      simp [refresh, hB, verifyToken, hV, hV₀]
    | ok decoded =>
      have hV₀ : (pgEnv libs).jwtVerify (substring7 (req.authorization.getD ""))
        (jwtSecret (pgEnv libs)) ((pgEnv libs).now (s.rehashed rehash)) = .ok decoded := hV
      have hG := pg_getUserById_rehashed libs decoded.id s
        (calls ++ [.jwtVerify (substring7 (req.authorization.getD "")) (jwtSecret (pgEnv libs))])
        (calls₀ ++ [.jwtVerify (substring7 (req.authorization.getD "")) (jwtSecret (pgEnv libs))])
        rehash
      have hc1 := pg_getUserById_clock libs decoded.id ⟨s, calls ++
        [.jwtVerify (substring7 (req.authorization.getD "")) (jwtSecret (pgEnv libs))]⟩
      have hc2 := pg_getUserById_clock libs decoded.id ⟨s.rehashed rehash, calls₀ ++
        [.jwtVerify (substring7 (req.authorization.getD "")) (jwtSecret (pgEnv libs))]⟩
      rcases hG1 : dbHelpers.getUserById (pgEnv libs) decoded.id ⟨s, calls ++
        [.jwtVerify (substring7 (req.authorization.getD "")) (jwtSecret (pgEnv libs))]⟩
        with ⟨r, w2⟩
      rcases hG2 : dbHelpers.getUserById (pgEnv libs) decoded.id ⟨s.rehashed rehash, calls₀ ++
        [.jwtVerify (substring7 (req.authorization.getD "")) (jwtSecret (pgEnv libs))]⟩
        with ⟨r₀, w₀⟩
      rw [hG1] at hc1
      rw [hG2] at hc2
      rw [hG1, hG2] at hG
      simp only at hG hc1 hc2
      subst hG
      have hn1 : (pgEnv libs).now w2.ext = s.clock := hc1
      have hn2 : (pgEnv libs).now w₀.ext = s.clock := hc2
      rcases r with m | _ | u <;>
        simp [refresh, hB, verifyToken, hV, hV₀, hG1, hG2, Except.map, signToken, hn1, hn2]

/-- The login responses with status 200 for stores that differ in the hashes
only and requests that differ in the password only. -/
theorem pg_login_rehashed (libs : Libs) (email password password₀ : String) (s : PgStore)
    (calls calls₀ : List Call) (rehash : User → String)
    (h : (login (pgEnv libs) ⟨email, password⟩ ⟨s, calls⟩).1.status = 200)
    (h₀ : (login (pgEnv libs) ⟨email, password₀⟩ ⟨s.rehashed rehash, calls₀⟩).1.status = 200) :
    (login (pgEnv libs) ⟨email, password₀⟩ ⟨s.rehashed rehash, calls₀⟩).1 =
      (login (pgEnv libs) ⟨email, password⟩ ⟨s, calls⟩).1 := by
  obtain ⟨user, hF, hR⟩ := pg_login_ok libs ⟨email, password⟩ s calls h
  obtain ⟨user₀, hF₀, hR₀⟩ := pg_login_ok libs ⟨email, password₀⟩ (s.rehashed rehash) calls₀ h₀
  have hComm := pg_findUserByEmail_rehashed libs email s calls calls₀ rehash
  simp only at hF hF₀
  rw [hF, hF₀] at hComm
  simp only [Except.map, Option.map, Except.ok.injEq, Option.some.injEq] at hComm
  subst hComm
  rw [hR, hR₀]
  rfl

/-- The register responses with status 201 for stores that differ in the
hashes only and requests that differ in the password only. -/
theorem pg_register_rehashed (libs : Libs) (body : RegisterBody) (password₀ : String)
    (s : PgStore) (calls calls₀ : List Call) (rehash : User → String)
    (h : (register (pgEnv libs) body ⟨s, calls⟩).1.status = 201)
    (h₀ : (register (pgEnv libs) { body with password := password₀ }
      ⟨s.rehashed rehash, calls₀⟩).1.status = 201) :
    (register (pgEnv libs) { body with password := password₀ } ⟨s.rehashed rehash, calls₀⟩).1 =
      (register (pgEnv libs) body ⟨s, calls⟩).1 := by
  obtain ⟨hashed, hR⟩ := pg_register_ok libs body s calls h
  obtain ⟨hashed₀, hR₀⟩ := pg_register_ok libs { body with password := password₀ }
    (s.rehashed rehash) calls₀ h₀
  rw [hR, hR₀]
  simp [registeredRow, registerUserData, newUserRow, NewUser.toUser, registerUserJson,
    PgStore.rehashed, freshId_rehashed]

/-! ### What the response bodies show of a row -/

/-- The string values of the three user objects are the name, email, role and
the optional contact fields of the row. -/
theorem userJson_strings (u : User) (t : Timestamp) :
    (loginUserJson u t).strings = userTexts u ∧
    (registerUserJson u).strings = userTexts u ∧
    (profileJson u).strings = userTexts u := by
  obtain ⟨id, name, email, hash, role, phone, location, region, state, district, created, last⟩ := u
  cases phone <;> cases location <;> cases region <;> cases state <;> cases district <;>
    cases last <;>
    simp [loginUserJson, registerUserJson, profileJson, Json.strings, Json.fieldStrings,
      Json.ofOptStr, Json.ofOptNum, userTexts]

/-- The string values of a success body with a token and a user object. -/
theorem strings_token_user (token : String) (user : Json) :
    (Json.obj [("success", .bool true),
      ("data", .obj [("token", .str token), ("user", user)])]).strings =
      token :: user.strings := by
  simp [Json.strings, Json.fieldStrings]

/-- The string values of a success body with a `data` object. -/
theorem strings_data (data : Json) :
    (Json.obj [("success", .bool true), ("data", data)]).strings = data.strings := by
  simp [Json.strings, Json.fieldStrings]

/-- C24: the user objects of login, register and profile are built from the
id, name, email, role, phone, location, region, state, district and timestamps
of a row and do not change with its `password_hash`; the string values of a
200 of login and of a 201 of register are the token, signed for the id, email,
role and name of the row, and the name, email, role and contact fields of the
row, those of a 200 of profile are these fields alone, those of a 200 of
refresh are the token alone and that of logout is a fixed message, so the hash
or the submitted password is among them only when it is equal to one of these
values; and on the reference table two stores that differ in the
`password_hash` values only give the same profile response and the same
refresh response to every request, and with requests that differ in the
password only the same login response when both are answered 200 and the same
register response when both are answered 201. -/
theorem responses_omit_password_material {σ : Type} (env : Env σ) :
    (∀ (u : User) (hash : String) (t : Timestamp),
      loginUserJson { u with password_hash := hash } t = loginUserJson u t ∧
      registerUserJson { u with password_hash := hash } = registerUserJson u ∧
      profileJson { u with password_hash := hash } = profileJson u ∧
      (loginUserJson u t).strings = userTexts u ∧
      (registerUserJson u).strings = userTexts u ∧
      (profileJson u).strings = userTexts u) ∧
    (∀ (body : LoginBody) (w : World σ), (login env body w).1.status = 200 →
      ∃ (user : User) (w1 : World σ),
        dbHelpers.findUserByEmail env body.email w = (.ok (some user), w1) ∧
        (login env body w).1.body.strings =
          env.jwtSign ⟨user.id, user.email, user.role, user.name⟩ (jwtSecret env)
            expiresIn24h (env.now w1.ext) :: userTexts user) ∧
    (∀ (body : RegisterBody) (w : World σ), (register env body w).1.status = 201 →
      ∃ (hashedPassword : String) (w2 : World σ) (newUser : User) (w3 : World σ),
        dbHelpers.createUser env (registerUserData body hashedPassword) w2 =
          (.ok (some newUser), w3) ∧
        (register env body w).1.body.strings =
          env.jwtSign ⟨newUser.id, newUser.email, newUser.role, newUser.name⟩ (jwtSecret env)
            expiresIn24h (env.now w3.ext) :: userTexts newUser) ∧
    (∀ (req : AuthRequest) (w : World σ), (profile env req w).1.status = 200 →
      ∃ (decoded : Decoded) (user : User) (w2 : World σ),
        dbHelpers.getUserById env decoded.id
          ⟨w.ext, w.calls ++
            [.jwtVerify (substring7 (req.authorization.getD "")) (jwtSecret env)]⟩ =
          (.ok (some user), w2) ∧
        (profile env req w).1.body.strings = userTexts user) ∧
    (∀ (req : AuthRequest) (w : World σ), (refresh env req w).1.status = 200 →
      ∃ (decoded : Decoded) (user : User) (w2 : World σ),
        dbHelpers.getUserById env decoded.id
          ⟨w.ext, w.calls ++
            [.jwtVerify (substring7 (req.authorization.getD "")) (jwtSecret env)]⟩ =
          (.ok (some user), w2) ∧
        (refresh env req w).1.body.strings =
          [env.jwtSign ⟨user.id, user.email, user.role, user.name⟩ (jwtSecret env)
            expiresIn24h (env.now w2.ext)]) ∧
    (∀ w : World σ, (logout env w).1.body.strings = ["Logged out successfully"]) ∧
    (∀ (libs : Libs) (req : AuthRequest) (s : PgStore) (calls calls₀ : List Call)
      (rehash : User → String),
      (profile (pgEnv libs) req ⟨s.rehashed rehash, calls₀⟩).1 =
        (profile (pgEnv libs) req ⟨s, calls⟩).1) ∧
    (∀ (libs : Libs) (req : AuthRequest) (s : PgStore) (calls calls₀ : List Call)
      (rehash : User → String),
      (refresh (pgEnv libs) req ⟨s.rehashed rehash, calls₀⟩).1 =
        (refresh (pgEnv libs) req ⟨s, calls⟩).1) ∧
    (∀ (libs : Libs) (email password password₀ : String) (s : PgStore)
      (calls calls₀ : List Call) (rehash : User → String),
      (login (pgEnv libs) ⟨email, password⟩ ⟨s, calls⟩).1.status = 200 →
      (login (pgEnv libs) ⟨email, password₀⟩ ⟨s.rehashed rehash, calls₀⟩).1.status = 200 →
      (login (pgEnv libs) ⟨email, password₀⟩ ⟨s.rehashed rehash, calls₀⟩).1 =
        (login (pgEnv libs) ⟨email, password⟩ ⟨s, calls⟩).1) ∧
    (∀ (libs : Libs) (body : RegisterBody) (password₀ : String) (s : PgStore)
      (calls calls₀ : List Call) (rehash : User → String),
      (register (pgEnv libs) body ⟨s, calls⟩).1.status = 201 →
      (register (pgEnv libs) { body with password := password₀ }
        ⟨s.rehashed rehash, calls₀⟩).1.status = 201 →
      (register (pgEnv libs) { body with password := password₀ }
        ⟨s.rehashed rehash, calls₀⟩).1 =
        (register (pgEnv libs) body ⟨s, calls⟩).1) := by
  refine ⟨?_, ?_, ?_, ?_, ?_, ?_, pg_profile_rehashed, pg_refresh_rehashed, pg_login_rehashed,
    pg_register_rehashed⟩
  · intro u hash t
    exact ⟨rfl, rfl, rfl, (userJson_strings u t).1, (userJson_strings u t).2.1,
      (userJson_strings u t).2.2⟩
  · intro body w hOk
    obtain ⟨user, w1, hFind, hCompare⟩ := login_status_200 env body w hOk
    refine ⟨user, w1, hFind, ?_⟩
    rw [login_success env body w w1 user hFind hCompare]
    exact (strings_token_user _ _).trans (by rw [(userJson_strings user _).1])
  · intro body w hCreated
    obtain ⟨w1, hashed, w2, newUser, w3, _, _, hC, hR⟩ := register_created env body w hCreated
    refine ⟨hashed, w2, newUser, w3, hC, ?_⟩
    rw [hR]
    exact (strings_token_user _ _).trans (by rw [(userJson_strings newUser 0).2.1])
  · intro req w hOk
    obtain ⟨decoded, user, w2, _, _, hG, hR⟩ := profile_status_200 env req w hOk
    refine ⟨decoded, user, w2, hG, ?_⟩
    rw [hR]
    exact (strings_data _).trans (userJson_strings user 0).2.2
  · intro req w hOk
    obtain ⟨decoded, user, w2, hB, hV, hG⟩ := refresh_status_200 env req w hOk
    refine ⟨decoded, user, w2, hG, ?_⟩
    rw [refresh_success env req w w2 decoded user hB hV hG]
    simp [Json.strings, Json.fieldStrings]
  · intro w
    simp [logout, Json.strings, Json.fieldStrings]

/-- Witness of C24: the login of `asha` shows her token, name, email and role,
and her profile is the same on a store where her hash was replaced. -/
theorem responses_omit_password_material_witness :
    (∃ (user : User) (w1 : World PgStore),
      dbHelpers.findUserByEmail (pgEnv sampleLibs) "asha@example.com" ⟨ashaStore, []⟩ =
        (.ok (some user), w1) ∧
      (login (pgEnv sampleLibs) ⟨"asha@example.com", "secret1"⟩ ⟨ashaStore, []⟩).1.body.strings =
        (pgEnv sampleLibs).jwtSign ⟨user.id, user.email, user.role, user.name⟩
          (jwtSecret (pgEnv sampleLibs)) expiresIn24h ((pgEnv sampleLibs).now w1.ext) ::
          userTexts user) ∧
    (profile (pgEnv sampleLibs) ashaBearer
      ⟨ashaStore.rehashed (fun _ => "$2a$10$another-password"), []⟩).1 =
      (profile (pgEnv sampleLibs) ashaBearer ⟨ashaStore, []⟩).1 ∧
    (login (pgEnv sampleLibs) ⟨"asha@example.com", "another-password"⟩
      ⟨ashaStore.rehashed (fun _ => "$2a$10$another-password"), []⟩).1 =
      (login (pgEnv sampleLibs) ⟨"asha@example.com", "secret1"⟩ ⟨ashaStore, []⟩).1 :=
  ⟨(responses_omit_password_material (pgEnv sampleLibs)).2.1
      ⟨"asha@example.com", "secret1"⟩ ⟨ashaStore, []⟩ rfl,
   (responses_omit_password_material (pgEnv sampleLibs)).2.2.2.2.2.2.1
      sampleLibs ashaBearer ashaStore [] [] (fun _ => "$2a$10$another-password"),
   (responses_omit_password_material (pgEnv sampleLibs)).2.2.2.2.2.2.2.2.1
      sampleLibs "asha@example.com" "secret1" "another-password" ashaStore [] []
      (fun _ => "$2a$10$another-password") rfl rfl⟩

end Auth
